import Mathlib

/-!
# ProceduralScene: acceleration-structure build orchestration

A shallow embedding of `Source/Falcor/Scene/ProceduralScene.{h,cpp}`.

* Machine integers are natural numbers reduced explicitly: `u32` for `uint` / `uint32_t`,
  `u64` for `uint64_t`, `size_t` and GPU virtual addresses, `bits24` / `bits8` for the
  bit-fields of `D3D12_RAYTRACING_INSTANCE_DESC`.
* `float` values are only moved around or combined by `+` / `-`; they are kept as bit patterns
  and the two arithmetic operations are taken from the `Backend` record.
* A failed `assert`, a null dereference, an out-of-range subscript and a signed overflow end the
  operation with a `Fault`; every operation is a total function into `Except Fault`.
* The one `int` of the source, the index of the second loop nest of `initGeomDesc`, is a natural
  number below `2^31`; incrementing it past `2^31 - 1` is the signed overflow.
* The render context and the device are explicit: `Gpu` holds the recorded command stream and the
  allocation counter, `Backend` holds the answers of the device to the queries the code makes.
-/

namespace Falcor

/-! ## Machine arithmetic -/

/-- Reduction to an unsigned 32-bit value (`uint`, `uint32_t`). -/
def u32 (n : Nat) : Nat := n % 4294967296

/-- Reduction to an unsigned 64-bit value (`uint64_t`, `size_t`, GPU virtual addresses). -/
def u64 (n : Nat) : Nat := n % 18446744073709551616

/-- Reduction to a 24-bit bit-field. -/
def bits24 (n : Nat) : Nat := n % 16777216

/-- Reduction to an 8-bit bit-field. -/
def bits8 (n : Nat) : Nat := n % 256

/-- Modelled from the spec: the helper `align_to(alignment, value)`, which is declared in the
framework headers and not in `ProceduralScene.{h,cpp}`; it rounds `value` up to the next multiple
of `alignment` ("aligned to the structure-build alignment requirement"), in the 64-bit unsigned
arithmetic of its operands. -/
def align_to (a value : Nat) : Nat := u64 (u64 (value + a - 1) / a * a)

/-- The constant `D3D12_RAYTRACING_ACCELERATION_STRUCTURE_BYTE_ALIGNMENT` of the Direct3D 12
header. -/
def D3D12_RAYTRACING_ACCELERATION_STRUCTURE_BYTE_ALIGNMENT : Nat := 256

/-- The value of `sizeof(D3D12_RAYTRACING_AABB)`: six 32-bit floats. -/
def sizeofAABB : Nat := 24

/-- The value of `sizeof(D3D12_RAYTRACING_INSTANCE_DESC)`. -/
def sizeofInstanceDesc : Nat := 64

/-- The value of `sizeof(D3D12_RAYTRACING_ACCELERATION_STRUCTURE_POSTBUILD_INFO_COMPACTED_SIZE_DESC)`,
one 64-bit integer; the current-size record has the same size (`static_assert` in `buildBlas`). -/
def postBuildInfoSize : Nat := 8

/-! Build flags of `D3D12_RAYTRACING_ACCELERATION_STRUCTURE_BUILD_FLAGS`. -/

def BUILD_FLAG_NONE : Nat := 0
def BUILD_FLAG_ALLOW_UPDATE : Nat := 1
def BUILD_FLAG_ALLOW_COMPACTION : Nat := 2
def BUILD_FLAG_PERFORM_UPDATE : Nat := 32

/-- Whether all bits of `flag` are set in `flags`. -/
def hasFlag (flags flag : Nat) : Bool := (flags &&& flag) == flag

/-! ## Faults -/

/-- The ways an operation ends without returning. -/
inductive Fault where
  /-- An `assert` of the source failed; the argument is its line in `ProceduralScene.cpp`. -/
  | assertion (line : Nat)
  /-- A null shared pointer was dereferenced. -/
  | nullPointer
  /-- A vector was subscripted past its end, or an end iterator was dereferenced. -/
  | outOfRange
  /-- An `int` was incremented past `2^31 - 1`: signed overflow, which is undefined. -/
  | signedOverflow
  deriving DecidableEq, Repr

/-- The `assert(cond)` statement at the given source line. -/
def assertAt (line : Nat) (cond : Bool) : Except Fault Unit :=
  if cond then .ok () else .error (.assertion line)

/-! ## Scene data (`ProceduralScene.h`) -/

/-- A `float`, as its bit pattern. -/
abbrev F32 := Nat

/-- A `float3`. -/
structure Float3 where
  x : F32
  y : F32
  z : F32
  deriving DecidableEq, Repr

/-- A `float4`, one column of a `glm::mat4`. -/
structure Float4 where
  x : F32
  y : F32
  z : F32
  w : F32
  deriving DecidableEq, Repr

/-- A `glm::mat4` (`float4x4`): four columns stored one after the other (column-major). -/
structure Mat4 where
  c0 : Float4
  c1 : Float4
  c2 : Float4
  c3 : Float4
  deriving DecidableEq, Repr

/-- The `BoundingBox` of `Utils/Math/AABB.h`: center and extent. -/
structure BoundingBox where
  center : Float3
  extent : Float3
  deriving DecidableEq, Repr

/-- `ProceduralScene::Primitive`. -/
abbrev Primitive := BoundingBox

/-- `ProceduralScene::Geometry`. -/
structure Geometry where
  mName : String
  mPrimitives : List Primitive
  deriving DecidableEq, Repr

/-- `ProceduralScene::Instance`; `mFlags` is the numeric value of the
`D3D12_RAYTRACING_INSTANCE_FLAGS` enumerator. -/
structure Instance where
  mID : Nat
  mMask : Nat
  mFlags : Nat
  mTransformMtx : Mat4
  deriving DecidableEq, Repr

/-- `ProceduralScene::Blas`. -/
structure Blas where
  mGeometries : List Geometry
  mInstances : List Instance
  deriving DecidableEq, Repr

/-- `ProceduralScene::Tlas`. -/
abbrev Tlas := List Blas

/-- `ProceduralScene::UpdateMode`. -/
inductive UpdateMode where
  | Rebuild
  | Refit
  deriving DecidableEq, Repr

/-- `ProceduralScene::RayTracingStats`. -/
structure RayTracingStats where
  blasCount : Nat
  blasCompactedCount : Nat
  blasMemoryInBytes : Nat
  deriving DecidableEq, Repr

/-! ## Direct3D 12 records -/

/-- `D3D12_RAYTRACING_AABB`. -/
structure DxAABB where
  MinX : F32
  MinY : F32
  MinZ : F32
  MaxX : F32
  MaxY : F32
  MaxZ : F32
  deriving DecidableEq, Repr

/-- `D3D12_RAYTRACING_GEOMETRY_DESC` for procedural primitives: `Type`, `Flags` and the `AABBs`
member (`AABBCount`, `AABBs.StartAddress`, `AABBs.StrideInBytes`). -/
structure GeometryDesc where
  proceduralAABBs : Bool
  Flags : Nat
  AABBCount : Nat
  StartAddress : Nat
  StrideInBytes : Nat
  deriving DecidableEq, Repr

/-- `D3D12_RAYTRACING_ACCELERATION_STRUCTURE_TYPE`. -/
inductive ASType where
  | TOP_LEVEL
  | BOTTOM_LEVEL
  deriving DecidableEq, Repr

/-- The anonymous union of `D3D12_BUILD_RAYTRACING_ACCELERATION_STRUCTURE_INPUTS`: either
`InstanceDescs`, the GPU address of the instance records, or `pGeometryDescs`, given here as the
array the pointer refers to. A zero-initialised union is `InstanceDescs 0`. -/
inductive InputDescs where
  | InstanceDescs (address : Nat)
  | pGeometryDescs (descs : List GeometryDesc)
  deriving DecidableEq, Repr

/-- `D3D12_BUILD_RAYTRACING_ACCELERATION_STRUCTURE_INPUTS`; `DescsLayout` 0 is
`D3D12_ELEMENTS_LAYOUT_ARRAY`. -/
structure BuildInputs where
  type : ASType
  Flags : Nat
  NumDescs : Nat
  DescsLayout : Nat
  descs : InputDescs
  deriving DecidableEq, Repr

/-- `D3D12_RAYTRACING_ACCELERATION_STRUCTURE_PREBUILD_INFO`. -/
structure PrebuildInfo where
  ResultDataMaxSizeInBytes : Nat
  ScratchDataSizeInBytes : Nat
  UpdateScratchDataSizeInBytes : Nat
  deriving DecidableEq, Repr

/-- The `float Transform[3][4]` member of an instance record: three rows of four floats. -/
structure Mat3x4 where
  r0 : Float4
  r1 : Float4
  r2 : Float4
  deriving DecidableEq, Repr

/-- `D3D12_RAYTRACING_INSTANCE_DESC`. In the Direct3D 12 header `InstanceID` and
`InstanceContributionToHitGroupIndex` are 24-bit fields, `InstanceMask` and `Flags` are 8-bit
fields and `AccelerationStructure` is a 64-bit GPU address. -/
structure InstanceDesc where
  Transform : Mat3x4
  InstanceID : Nat
  InstanceMask : Nat
  InstanceContributionToHitGroupIndex : Nat
  Flags : Nat
  AccelerationStructure : Nat
  deriving DecidableEq, Repr

/-- `D3D12_BUILD_RAYTRACING_ACCELERATION_STRUCTURE_DESC`; a zero address is "none". -/
structure BuildDesc where
  DestAccelerationStructureData : Nat
  Inputs : BuildInputs
  SourceAccelerationStructureData : Nat
  ScratchAccelerationStructureData : Nat
  deriving DecidableEq, Repr

/-- `D3D12_RAYTRACING_ACCELERATION_STRUCTURE_POSTBUILD_INFO_TYPE`, the two values used. -/
inductive PostbuildInfoType where
  | COMPACTED_SIZE
  | CURRENT_SIZE
  deriving DecidableEq, Repr

/-- `D3D12_RAYTRACING_ACCELERATION_STRUCTURE_POSTBUILD_INFO_DESC`. -/
structure PostbuildInfoDesc where
  DestBuffer : Nat
  InfoType : PostbuildInfoType
  deriving DecidableEq, Repr

/-- `D3D12_RAYTRACING_ACCELERATION_STRUCTURE_COPY_MODE`, the two values used. -/
inductive CopyMode where
  | CLONE
  | COMPACT
  deriving DecidableEq, Repr

/-! ## Device objects and the command stream -/

/-- A `Buffer` object (`Core/API/Buffer.h`): its allocation number, which is its identity, its
size in bytes and its GPU virtual address. -/
structure Buffer where
  id : Nat
  size : Nat
  gpuAddress : Nat
  deriving DecidableEq, Repr

/-- A `ShaderResourceView` object: its allocation number, the buffer it views and the
`RaytracingAccelerationStructure.Location` written into its descriptor. -/
structure ShaderResourceView where
  id : Nat
  resource : Nat
  location : Nat
  deriving DecidableEq, Repr

/-- Host data handed to a buffer. -/
inductive BlobData where
  | none
  | aabbs (data : List DxAABB)
  | instances (data : List InstanceDesc)
  deriving DecidableEq, Repr

/-- One call into the device or the render context, as recorded in issue order. -/
inductive Command where
  /-- The call `Buffer::create(size, ..., pInitData)`. -/
  | createBuffer (buffer : Buffer) (initData : BlobData)
  /-- The call `pContext->resourceBarrier(buffer, Resource::State::NonPixelShader)`. -/
  | resourceBarrier (buffer : Nat)
  /-- The call `pContext->uavBarrier(buffer)`. -/
  | uavBarrier (buffer : Nat)
  /-- The call `BuildRaytracingAccelerationStructure(&asDesc, n, postbuildInfoDesc)`. -/
  | build (desc : BuildDesc) (postbuild : Option PostbuildInfoDesc)
  /-- The call `CopyRaytracingAccelerationStructure(dest, source, mode)`. -/
  | copy (dest source : Nat) (mode : CopyMode)
  /-- The call `pContext->flush(true)`. -/
  | flush
  /-- The call `buffer->setBlob(data, offset, size)`. -/
  | setBlob (buffer : Nat) (offset size : Nat) (data : List InstanceDesc)
  /-- The creation of a shader resource view (descriptor set, `CreateShaderResourceView`). -/
  | createSrv (srv : ShaderResourceView)
  /-- The call `pContext->raytrace(pProgram, pVars, x, y, z)`. -/
  | raytrace (x y z : Nat)
  deriving DecidableEq, Repr

/-- The render context and device as far as the scene code can tell: the calls recorded so far and
the number of objects created so far. -/
structure Gpu where
  cmds : List Command
  nextId : Nat
  deriving DecidableEq, Repr

/-- What the code takes from outside: `float` addition and subtraction, the GPU address the device
gives to the buffer with a given allocation number and size, the prebuild info the device reports
for build inputs, and the size a build reports to its post-build request. -/
structure Backend where
  fadd : F32 → F32 → F32
  fsub : F32 → F32 → F32
  gpuAddress : Nat → Nat → Nat
  prebuildInfo : BuildInputs → PrebuildInfo
  postbuildSize : BuildDesc → PostbuildInfoType → Nat

/-- Modelled from the spec: `Buffer::create`, which is declared in `Core/API/Buffer.h` and not in
`ProceduralScene.{h,cpp}` ("create a buffer of a given size/usage/access pattern and optional
initial contents"). Every call yields a new buffer object; its address is a 64-bit value chosen by
the device. -/
def Buffer.create (be : Backend) (gpu : Gpu) (size : Nat) (initData : BlobData) : Buffer × Gpu :=
  let buffer : Buffer :=
    { id := gpu.nextId, size := size, gpuAddress := u64 (be.gpuAddress gpu.nextId size) }
  (buffer, { cmds := gpu.cmds ++ [Command.createBuffer buffer initData], nextId := gpu.nextId + 1 })

/-- Recording one call on the render context. -/
def Gpu.issue (gpu : Gpu) (c : Command) : Gpu :=
  { gpu with cmds := gpu.cmds ++ [c] }

/-- The call `GetRaytracingAccelerationStructurePrebuildInfo(&inputs, &info)`: three 64-bit
values. -/
def Backend.getPrebuildInfo (be : Backend) (inputs : BuildInputs) : PrebuildInfo :=
  { ResultDataMaxSizeInBytes := u64 (be.prebuildInfo inputs).ResultDataMaxSizeInBytes
    ScratchDataSizeInBytes := u64 (be.prebuildInfo inputs).ScratchDataSizeInBytes
    UpdateScratchDataSizeInBytes := u64 (be.prebuildInfo inputs).UpdateScratchDataSizeInBytes }

/-- The effect of one recorded command on the 64-bit value `v` stored at GPU address `addr`: a
build whose post-build request has `DestBuffer = addr` overwrites it with the size it reports. -/
def postbuildWrite (be : Backend) (addr : Nat) (v : Nat) (c : Command) : Nat :=
  match c with
  | Command.build desc (some pb) =>
      if pb.DestBuffer = addr then u64 (be.postbuildSize desc pb.InfoType) else v
  | _ => v

/-- The 64-bit value found at GPU address `addr` once the recorded commands have executed: the size
reported by the last build whose post-build request has `DestBuffer = addr` (0 when there is
none). -/
def readPostbuild (be : Backend) (cmds : List Command) (addr : Nat) : Nat :=
  cmds.foldl (postbuildWrite be addr) 0

/-! ## Scene state -/

/-- `ProceduralScene::TlasData`. -/
structure TlasData where
  pTlas : Option Buffer
  pSrv : Option ShaderResourceView
  pInstanceDescs : Option Buffer
  updateMode : UpdateMode
  deriving DecidableEq, Repr

/-- `ProceduralScene::BlasData`. -/
structure BlasData where
  prebuildInfo : PrebuildInfo
  buildInputs : BuildInputs
  geomDescs : List GeometryDesc
  blasByteSize : Nat
  blasByteOffset : Nat
  scratchByteOffset : Nat
  hasSkinnedMesh : Bool
  useCompaction : Bool
  updateMode : UpdateMode
  deriving DecidableEq, Repr

/-- The members of a `ProceduralScene` object. `mTlasCache` lists the entries of the unordered map
by key. -/
structure ProceduralScene where
  mTlas : Tlas
  mMeshCount : Nat
  mInstanceCount : Nat
  mRTStats : RayTracingStats
  mTlasUpdateMode : UpdateMode
  mBlasUpdateMode : UpdateMode
  mInstanceDescs : List InstanceDesc
  mTlasCache : List (Nat × TlasData)
  mpTlasScratch : Option Buffer
  mTlasPrebuildInfo : PrebuildInfo
  mBlasData : List BlasData
  mpBlas : Option Buffer
  mpBlasScratch : Option Buffer
  mRebuildBlas : Bool
  mHasSkinnedMesh : Bool
  mpGeometryBuffer : Option Buffer
  deriving DecidableEq, Repr

/-- A default-constructed `TlasData`. -/
def TlasData.init : TlasData :=
  { pTlas := none, pSrv := none, pInstanceDescs := none, updateMode := UpdateMode.Rebuild }

/-- A zero-initialised `D3D12_BUILD_RAYTRACING_ACCELERATION_STRUCTURE_INPUTS` (`inputs = {}`). -/
def BuildInputs.zero : BuildInputs :=
  { type := ASType.TOP_LEVEL, Flags := 0, NumDescs := 0, DescsLayout := 0,
    descs := InputDescs.InstanceDescs 0 }

/-- A value-initialised `BlasData` (`BlasData{}`). -/
def BlasData.init : BlasData :=
  { prebuildInfo := { ResultDataMaxSizeInBytes := 0, ScratchDataSizeInBytes := 0,
                      UpdateScratchDataSizeInBytes := 0 }
    buildInputs := BuildInputs.zero
    geomDescs := []
    blasByteSize := 0
    blasByteOffset := 0
    scratchByteOffset := 0
    hasSkinnedMesh := false
    useCompaction := false
    updateMode := UpdateMode.Refit }

/-- `ProceduralScene::create()`: a default-constructed scene. -/
def ProceduralScene.create : ProceduralScene :=
  { mTlas := []
    mMeshCount := 0
    mInstanceCount := 0
    mRTStats := { blasCount := 0, blasCompactedCount := 0, blasMemoryInBytes := 0 }
    mTlasUpdateMode := UpdateMode.Rebuild
    mBlasUpdateMode := UpdateMode.Refit
    mInstanceDescs := []
    mTlasCache := []
    mpTlasScratch := none
    mTlasPrebuildInfo := { ResultDataMaxSizeInBytes := 0, ScratchDataSizeInBytes := 0,
                           UpdateScratchDataSizeInBytes := 0 }
    mBlasData := []
    mpBlas := none
    mpBlasScratch := none
    mRebuildBlas := true
    mHasSkinnedMesh := false
    mpGeometryBuffer := none }

/-! ## `setScene`, `addBlas` and the count accessors -/

/-- The loop of `setScene`: both counters advance by the sizes of the vectors, cast to `uint`. -/
def setSceneLoop : List Blas → Nat → Nat → Nat × Nat
  | [], meshCount, instanceCount => (meshCount, instanceCount)
  | blas :: rest, meshCount, instanceCount =>
      setSceneLoop rest (u32 (meshCount + u32 blas.mGeometries.length))
        (u32 (instanceCount + u32 blas.mInstances.length))

/-- `ProceduralScene::setScene`. -/
def setScene (s : ProceduralScene) (tlas : Tlas) : ProceduralScene :=
  { s with
    mTlas := tlas
    mMeshCount := (setSceneLoop tlas 0 0).1
    mInstanceCount := (setSceneLoop tlas 0 0).2 }

/-- `ProceduralScene::addBlas`. -/
def addBlas (s : ProceduralScene) (blas : Blas) : ProceduralScene :=
  { s with mTlas := s.mTlas ++ [blas] }

/-- `ProceduralScene::getMeshCount`. -/
def getMeshCount (s : ProceduralScene) : Nat := s.mMeshCount

/-- `ProceduralScene::getInstanceCount`. -/
def getInstanceCount (s : ProceduralScene) : Nat := s.mInstanceCount

/-! ## `initGeomDesc` -/

/-- The lambda `convertBoundingBox2DxAABB`. -/
def convertBoundingBox2DxAABB (be : Backend) (aabb : BoundingBox) : DxAABB :=
  { MinX := be.fsub aabb.center.x aabb.extent.x
    MinY := be.fsub aabb.center.y aabb.extent.y
    MinZ := be.fsub aabb.center.z aabb.extent.z
    MaxX := be.fadd aabb.center.x aabb.extent.x
    MaxY := be.fadd aabb.center.y aabb.extent.y
    MaxZ := be.fadd aabb.center.z aabb.extent.z }

/-- The inner loop of the first loop nest of `initGeomDesc`: the boxes of each geometry of one
Blas are appended to `dxAABBs`. -/
def collectGeometries (be : Backend) : List Geometry → List DxAABB → List DxAABB
  | [], dxAABBs => dxAABBs
  | geometry :: rest, dxAABBs =>
      collectGeometries be rest (dxAABBs ++ geometry.mPrimitives.map (convertBoundingBox2DxAABB be))

/-- The first loop nest of `initGeomDesc`, over the Blas groups. -/
def collectAABBs (be : Backend) : List Blas → List DxAABB → List DxAABB
  | [], dxAABBs => dxAABBs
  | blas :: rest, dxAABBs => collectAABBs be rest (collectGeometries be blas.mGeometries dxAABBs)

/-- The statement `v[i].f(...)`: the element at index `i` is replaced by its image. -/
def modifyAt {α : Type} (f : α → α) : List α → Nat → Except Fault (List α)
  | [], _ => .error .outOfRange
  | a :: as, 0 => .ok (f a :: as)
  | a :: as, i + 1 =>
      match modifyAt f as i with
      | .ok as' => .ok (a :: as')
      | .error e => .error e

/-- The geometry descriptor written for one geometry, given the address of the geometry buffer and
the running `aabbBufferOffset`. -/
def makeGeomDesc (bufferAddress aabbBufferOffset : Nat) (geometry : Geometry) : GeometryDesc :=
  { proceduralAABBs := true
    Flags := 0
    AABBCount := u64 geometry.mPrimitives.length
    StartAddress := bufferAddress
    StrideInBytes := u64 (aabbBufferOffset * sizeofAABB) }

/-- The inner loop of the second loop nest of `initGeomDesc`: one descriptor per geometry is pushed
onto `mBlasData[i].geomDescs`; the result is the records and the running `aabbBufferOffset`. -/
def geomDescLoop (bufferAddress i : Nat) :
    List Geometry → List BlasData → Nat → Except Fault (List BlasData × Nat)
  | [], mBlasData, aabbBufferOffset => .ok (mBlasData, aabbBufferOffset)
  | geometry :: rest, mBlasData, aabbBufferOffset =>
      match modifyAt
          (fun b => { b with
            geomDescs := b.geomDescs ++ [makeGeomDesc bufferAddress aabbBufferOffset geometry] })
          mBlasData i with
      | .error e => .error e
      | .ok mBlasData' =>
          geomDescLoop bufferAddress i rest mBlasData'
            (u32 (aabbBufferOffset + u32 geometry.mPrimitives.length))

/-- The second loop nest of `initGeomDesc`, `for (int i = 0; i < mTlas.size(); i++)`, from index
`i` on: a new record is appended for each Blas and filled through `mBlasData[i]`. The index is an
`int`: the `i++` that follows the body at `i = 2^31 - 1` overflows, which is undefined, and the
run ends there. -/
def blasDescLoop (bufferAddress : Nat) :
    List Blas → Nat → List BlasData → Nat → Except Fault (List BlasData × Nat)
  | [], _, mBlasData, aabbBufferOffset => .ok (mBlasData, aabbBufferOffset)
  | blas :: rest, i, mBlasData, aabbBufferOffset =>
      match geomDescLoop bufferAddress i blas.mGeometries (mBlasData ++ [BlasData.init])
          aabbBufferOffset with
      | .error e => .error e
      | .ok (mBlasData', aabbBufferOffset') =>
          if i < 2147483647 then
            blasDescLoop bufferAddress rest (i + 1) mBlasData' aabbBufferOffset'
          else .error .signedOverflow

/-- `ProceduralScene::initGeomDesc`. -/
def initGeomDesc (be : Backend) (gpu : Gpu) (s : ProceduralScene) :
    Except Fault (ProceduralScene × Gpu) :=
  let dxAABBs := collectAABBs be s.mTlas []
  let (buffer, gpu1) := Buffer.create be gpu (u64 (sizeofAABB * dxAABBs.length)) (BlobData.aabbs dxAABBs)
  let gpu2 := gpu1.issue (Command.resourceBarrier buffer.id)
  match blasDescLoop buffer.gpuAddress s.mTlas 0 s.mBlasData 0 with
  | .error e => .error e
  | .ok (mBlasData, _) =>
      .ok ({ s with mpGeometryBuffer := some buffer, mBlasData := mBlasData }, gpu2)


/-! ## `updateRaytracingStats` -/

/-- The loop of `updateRaytracingStats`. -/
def statsLoop : List BlasData → RayTracingStats → RayTracingStats
  | [], stats => stats
  | blas :: rest, stats =>
      statsLoop rest
        { stats with
          blasCompactedCount :=
            if blas.useCompaction then u64 (stats.blasCompactedCount + 1)
            else stats.blasCompactedCount
          blasMemoryInBytes := u64 (stats.blasMemoryInBytes + blas.blasByteSize) }

/-- `ProceduralScene::updateRaytracingStats`. -/
def updateRaytracingStats (s : ProceduralScene) : ProceduralScene :=
  { s with
    mRTStats := statsLoop s.mBlasData
      { blasCount := s.mBlasData.length, blasCompactedCount := 0, blasMemoryInBytes := 0 } }

/-! ## `buildBlas` -/

/-- The build flags chosen for a Blas in the first loop of the one-time pass. -/
def blasBuildFlags (hasSkinnedMesh useCompaction : Bool) (updateMode : UpdateMode) : Nat :=
  let flags := BUILD_FLAG_NONE
  let flags := if useCompaction then flags ||| BUILD_FLAG_ALLOW_COMPACTION else flags
  if hasSkinnedMesh && updateMode == UpdateMode.Refit then flags ||| BUILD_FLAG_ALLOW_UPDATE
  else flags

/-- The body of the first loop of the one-time pass for one record: update mode, compaction
choice, build inputs, prebuild info and the two byte offsets. -/
def prepareBlas (be : Backend) (mBlasUpdateMode : UpdateMode) (blas : BlasData)
    (totalMaxBlasSize totalScratchSize : Nat) : BlasData :=
  let updateMode := mBlasUpdateMode
  let useCompaction := !blas.hasSkinnedMesh || updateMode != UpdateMode.Rebuild
  let inputs : BuildInputs :=
    { type := ASType.BOTTOM_LEVEL
      DescsLayout := 0
      NumDescs := u32 blas.geomDescs.length
      descs := InputDescs.pGeometryDescs blas.geomDescs
      Flags := blasBuildFlags blas.hasSkinnedMesh useCompaction updateMode }
  { blas with
    updateMode := updateMode
    useCompaction := useCompaction
    buildInputs := inputs
    prebuildInfo := be.getPrebuildInfo inputs
    blasByteOffset := totalMaxBlasSize
    scratchByteOffset := totalScratchSize }

/-- The scratch size a record asks for: the larger of build and update scratch size. -/
def scratchSize (blas : BlasData) : Nat :=
  max blas.prebuildInfo.ScratchDataSizeInBytes blas.prebuildInfo.UpdateScratchDataSizeInBytes

/-- The first loop of the one-time pass; the result is the records and the running totals
`totalMaxBlasSize` and `totalScratchSize`. -/
def prepareLoop (be : Backend) (mBlasUpdateMode : UpdateMode) :
    List BlasData → Nat → Nat → List BlasData × Nat × Nat
  | [], totalMaxBlasSize, totalScratchSize => ([], totalMaxBlasSize, totalScratchSize)
  | blas :: rest, totalMaxBlasSize, totalScratchSize =>
      let blas' := prepareBlas be mBlasUpdateMode blas totalMaxBlasSize totalScratchSize
      let paddedMaxBlasSize :=
        align_to D3D12_RAYTRACING_ACCELERATION_STRUCTURE_BYTE_ALIGNMENT
          blas'.prebuildInfo.ResultDataMaxSizeInBytes
      let paddedScratchSize :=
        align_to D3D12_RAYTRACING_ACCELERATION_STRUCTURE_BYTE_ALIGNMENT (scratchSize blas')
      let (rest', totals) :=
        prepareLoop be mBlasUpdateMode rest (u64 (totalMaxBlasSize + paddedMaxBlasSize))
          (u64 (totalScratchSize + paddedScratchSize))
      (blas' :: rest', totals)

/-- The `asDesc` of the one-time pass for one record. -/
def firstBuildDesc (scratchAddress destAddress : Nat) (blas : BlasData) : BuildDesc :=
  { Inputs := blas.buildInputs
    ScratchAccelerationStructureData := u64 (scratchAddress + blas.scratchByteOffset)
    DestAccelerationStructureData := u64 (destAddress + blas.blasByteOffset)
    SourceAccelerationStructureData := 0 }

/-- The `postbuildInfoDesc` of the one-time pass for one record. -/
def firstPostbuildDesc (postbuildAddress postBuildInfoOffset : Nat) (blas : BlasData) :
    PostbuildInfoDesc :=
  { InfoType :=
      if blas.useCompaction then PostbuildInfoType.COMPACTED_SIZE
      else PostbuildInfoType.CURRENT_SIZE
    DestBuffer := u64 (postbuildAddress + postBuildInfoOffset) }

/-- The build command of the one-time pass for one record. -/
def firstBuildCommand (scratchAddress destAddress postbuildAddress postBuildInfoOffset : Nat)
    (blas : BlasData) : Command :=
  Command.build (firstBuildDesc scratchAddress destAddress blas)
    (some (firstPostbuildDesc postbuildAddress postBuildInfoOffset blas))

/-- The second loop of the one-time pass: one build with a post-build request per record. -/
def buildLoop (scratchAddress destAddress postbuildAddress : Nat) :
    List BlasData → Nat → List Command
  | [], _ => []
  | blas :: rest, postBuildInfoOffset =>
      firstBuildCommand scratchAddress destAddress postbuildAddress postBuildInfoOffset blas ::
        buildLoop scratchAddress destAddress postbuildAddress rest
          (u64 (postBuildInfoOffset + postBuildInfoSize))

/-- The third loop of the one-time pass, from index `i` on: `postBuildInfo[i]` is read from the
mapped buffer, checked against the prebuild maximum and added, padded, to `totalBlasSize`. -/
def readbackLoop (be : Backend) (cmds : List Command) (postbuildAddress : Nat) :
    List BlasData → Nat → Nat → Except Fault (List BlasData × Nat)
  | [], _, totalBlasSize => .ok ([], totalBlasSize)
  | blas :: rest, i, totalBlasSize =>
      let blasByteSize := readPostbuild be cmds (u64 (postbuildAddress + i * postBuildInfoSize))
      if blasByteSize ≤ blas.prebuildInfo.ResultDataMaxSizeInBytes then
        let paddedBlasSize :=
          align_to D3D12_RAYTRACING_ACCELERATION_STRUCTURE_BYTE_ALIGNMENT blasByteSize
        match readbackLoop be cmds postbuildAddress rest (i + 1)
            (u64 (totalBlasSize + paddedBlasSize)) with
        | .error e => .error e
        | .ok (rest', total) => .ok ({ blas with blasByteSize := blasByteSize } :: rest', total)
      else .error (.assertion 251)

/-- The copy command of the one-time pass for one record, given the running `blasOffset`. -/
def copyCommand (blasAddress destAddress blasOffset : Nat) (blas : BlasData) : Command :=
  Command.copy (u64 (blasAddress + blasOffset)) (u64 (destAddress + blas.blasByteOffset))
    (if blas.useCompaction then CopyMode.COMPACT else CopyMode.CLONE)

/-- The fourth loop of the one-time pass: every Blas is copied to its final place and its
`blasByteOffset` becomes the final offset; the result is the records, the commands and the final
`blasOffset`. -/
def compactLoop (blasAddress destAddress : Nat) :
    List BlasData → Nat → List BlasData × List Command × Nat
  | [], blasOffset => ([], [], blasOffset)
  | blas :: rest, blasOffset =>
      let paddedBlasSize :=
        align_to D3D12_RAYTRACING_ACCELERATION_STRUCTURE_BYTE_ALIGNMENT blas.blasByteSize
      let (rest', cmds, final) :=
        compactLoop blasAddress destAddress rest (u64 (blasOffset + paddedBlasSize))
      ({ blas with blasByteOffset := blasOffset } :: rest',
        copyCommand blasAddress destAddress blasOffset blas :: cmds, final)

/-- The allocation pattern used for `mpBlasScratch` and `mpBlas`: a new buffer when there is none
or the present one is too small, otherwise a barrier on the present one. -/
def growBuffer (be : Backend) (gpu : Gpu) (current : Option Buffer) (size : Nat) : Buffer × Gpu :=
  match current with
  | none => Buffer.create be gpu size BlobData.none
  | some buffer =>
      if buffer.size < size then Buffer.create be gpu size BlobData.none
      else (buffer, gpu.issue (Command.uavBarrier buffer.id))

/-- The one-time pass of `buildBlas` (the branch `if (mRebuildBlas)`). -/
def buildBlasOnce (be : Backend) (gpu : Gpu) (s : ProceduralScene) :
    Except Fault (ProceduralScene × Gpu) :=
  let (blas1, totalMaxBlasSize, totalScratchSize) :=
    prepareLoop be s.mBlasUpdateMode s.mBlasData 0 0
  let (scratch, gpu1) := growBuffer be gpu s.mpBlasScratch totalScratchSize
  let (pDestBuffer, gpu2) := Buffer.create be gpu1 totalMaxBlasSize BlobData.none
  let (pPostbuildInfoBuffer, gpu3) :=
    Buffer.create be gpu2 (u64 (blas1.length * postBuildInfoSize)) BlobData.none
  let gpu4 : Gpu :=
    { gpu3 with
      cmds := gpu3.cmds ++
        buildLoop scratch.gpuAddress pDestBuffer.gpuAddress pPostbuildInfoBuffer.gpuAddress blas1 0 }
  let mpBlasScratch := if !s.mHasSkinnedMesh then none else some scratch
  let gpu5 := gpu4.issue Command.flush
  match readbackLoop be gpu5.cmds pPostbuildInfoBuffer.gpuAddress blas1 0 0 with
  | .error e => .error e
  | .ok (blas2, totalBlasSize) =>
      let (mpBlas, gpu6) := growBuffer be gpu5 s.mpBlas totalBlasSize
      let gpu7 := gpu6.issue (Command.uavBarrier pDestBuffer.id)
      let (blas3, copies, blasOffset) :=
        compactLoop mpBlas.gpuAddress pDestBuffer.gpuAddress blas2 0
      let gpu8 : Gpu := { gpu7 with cmds := gpu7.cmds ++ copies }
      match assertAt 286 (blasOffset == totalBlasSize) with
      | .error e => .error e
      | .ok _ =>
          let gpu9 := gpu8.issue (Command.uavBarrier mpBlas.id)
          let s1 := updateRaytracingStats
            { s with mBlasData := blas3, mpBlasScratch := mpBlasScratch, mpBlas := some mpBlas }
          .ok ({ s1 with mRebuildBlas := false }, gpu9)

/-- The build command of the steady-state pass for one dynamic record. -/
def updateCommand (blasAddress scratchAddress : Nat) (blas : BlasData) : Except Fault Command :=
  let dest := u64 (blasAddress + blas.blasByteOffset)
  let scratch := u64 (scratchAddress + blas.scratchByteOffset)
  if blas.updateMode = UpdateMode.Refit then
    .ok (Command.build
      { Inputs := { blas.buildInputs with
                    Flags := blas.buildInputs.Flags ||| BUILD_FLAG_PERFORM_UPDATE }
        ScratchAccelerationStructureData := scratch
        DestAccelerationStructureData := dest
        SourceAccelerationStructureData := dest }
      none)
  else if blas.blasByteSize = blas.prebuildInfo.ResultDataMaxSizeInBytes then
    .ok (Command.build
      { Inputs := blas.buildInputs
        ScratchAccelerationStructureData := scratch
        DestAccelerationStructureData := dest
        SourceAccelerationStructureData := 0 }
      none)
  else .error (.assertion 328)

/-- The loop of the steady-state pass: records without skinned mesh are skipped. -/
def updateLoop (blasAddress scratchAddress : Nat) : List BlasData → Except Fault (List Command)
  | [] => .ok []
  | blas :: rest =>
      if !blas.hasSkinnedMesh then updateLoop blasAddress scratchAddress rest
      else
        match updateCommand blasAddress scratchAddress blas with
        | .error e => .error e
        | .ok c =>
            match updateLoop blasAddress scratchAddress rest with
            | .error e => .error e
            | .ok cs => .ok (c :: cs)

/-- The steady-state pass of `buildBlas` (the code after the branch `if (mRebuildBlas)`). -/
def buildBlasSteady (gpu : Gpu) (s : ProceduralScene) : Except Fault (ProceduralScene × Gpu) :=
  if s.mHasSkinnedMesh == false then .ok (s, gpu)
  else
    match s.mpBlas, s.mpBlasScratch with
    | some mpBlas, some mpBlasScratch =>
        let gpu1 := (gpu.issue (Command.uavBarrier mpBlas.id)).issue
          (Command.uavBarrier mpBlasScratch.id)
        match updateLoop mpBlas.gpuAddress mpBlasScratch.gpuAddress s.mBlasData with
        | .error e => .error e
        | .ok cmds =>
            let gpu2 : Gpu := { gpu1 with cmds := gpu1.cmds ++ cmds }
            .ok (s, gpu2.issue (Command.uavBarrier mpBlas.id))
    | _, _ => .error (.assertion 304)

/-- `ProceduralScene::buildBlas`. -/
def buildBlas (be : Backend) (gpu : Gpu) (s : ProceduralScene) :
    Except Fault (ProceduralScene × Gpu) :=
  if s.mRebuildBlas then buildBlasOnce be gpu s else buildBlasSteady gpu s


/-! ## `fillInstanceDesc` -/

/-- The function `glm::transpose` on a `glm::mat4`: `result[i][j] = m[j][i]`. -/
def transpose (m : Mat4) : Mat4 :=
  { c0 := { x := m.c0.x, y := m.c1.x, z := m.c2.x, w := m.c3.x }
    c1 := { x := m.c0.y, y := m.c1.y, z := m.c2.y, w := m.c3.y }
    c2 := { x := m.c0.z, y := m.c1.z, z := m.c2.z, w := m.c3.z }
    c3 := { x := m.c0.w, y := m.c1.w, z := m.c2.w, w := m.c3.w } }

/-- The call `memcpy(&desc.Transform, &Transform, sizeof(desc.Transform))`: the first twelve floats
of the matrix, which are its first three columns, become the three rows of `Transform[3][4]`. -/
def memcpyTransform (m : Mat4) : Mat3x4 :=
  { r0 := m.c0, r1 := m.c1, r2 := m.c2 }

/-- A zero-initialised `D3D12_RAYTRACING_INSTANCE_DESC` (`desc = {}`). -/
def InstanceDesc.zero : InstanceDesc :=
  { Transform := { r0 := ⟨0, 0, 0, 0⟩, r1 := ⟨0, 0, 0, 0⟩, r2 := ⟨0, 0, 0, 0⟩ }
    InstanceID := 0
    InstanceMask := 0
    InstanceContributionToHitGroupIndex := 0
    Flags := 0
    AccelerationStructure := 0 }

/-- The assignments of the inner loop body of `fillInstanceDesc` to `desc`. -/
def setInstance (desc : InstanceDesc) (inst : Instance) : InstanceDesc :=
  { desc with
    Flags := bits8 inst.mFlags
    InstanceMask := bits8 inst.mMask
    InstanceID := bits24 inst.mID
    Transform := memcpyTransform (transpose inst.mTransformMtx) }

/-- The inner loop of `fillInstanceDesc`: `desc` is updated for each instance and pushed. -/
def instanceLoop : InstanceDesc → List Instance → List InstanceDesc → List InstanceDesc
  | _, [], instanceDescs => instanceDescs
  | desc, inst :: rest, instanceDescs =>
      instanceLoop (setInstance desc inst) rest (instanceDescs ++ [setInstance desc inst])

/-- The `desc` prepared at the start of an outer iteration of `fillInstanceDesc`. -/
def blasInstanceDesc (blasAddress : Nat) (blas : BlasData) (contribution : Nat) : InstanceDesc :=
  { InstanceDesc.zero with
    AccelerationStructure := u64 (blasAddress + blas.blasByteOffset)
    InstanceContributionToHitGroupIndex := bits24 contribution }

/-- The outer loop of `fillInstanceDesc` from index `i` on, over the remaining build records;
`contribution` is the running `uint InstanceContributionToHitGroupIndex`. -/
def fillLoop (blasAddress rayCount : Nat) (mTlas : Tlas) :
    List BlasData → Nat → Nat → List InstanceDesc → Except Fault (List InstanceDesc)
  | [], _, _, instanceDescs => .ok instanceDescs
  | blas :: rest, i, contribution, instanceDescs =>
      match mTlas[i]? with
      | none => .error .outOfRange
      | some group =>
          fillLoop blasAddress rayCount mTlas rest (i + 1)
            (u32 (contribution + u32 (rayCount * u32 group.mGeometries.length)))
            (instanceLoop (blasInstanceDesc blasAddress blas contribution) group.mInstances
              instanceDescs)

/-- `ProceduralScene::fillInstanceDesc`: the new content of `instanceDescs`, whose previous content
is the argument `instanceDescs`. -/
def fillInstanceDesc (s : ProceduralScene) (instanceDescs : List InstanceDesc) (rayCount : Nat) :
    Except Fault (List InstanceDesc) :=
  match s.mpBlas with
  | none => .error (.assertion 427)
  | some mpBlas =>
      let cleared : List InstanceDesc := instanceDescs.drop instanceDescs.length
      fillLoop mpBlas.gpuAddress rayCount s.mTlas s.mBlasData 0 0 cleared

/-! ## `buildTlas` and `setRaytracingShaderData` -/

/-- The call `mTlasCache.find(key)`; `none` is the end iterator. -/
def cacheFind : List (Nat × TlasData) → Nat → Option TlasData
  | [], _ => none
  | (k, v) :: rest, key => if k = key then some v else cacheFind rest key

/-- The statement `mTlasCache[key] = value`. -/
def cacheAssign : List (Nat × TlasData) → Nat → TlasData → List (Nat × TlasData)
  | [], key, value => [(key, value)]
  | (k, v) :: rest, key, value =>
      if k = key then (k, value) :: rest else (k, v) :: cacheAssign rest key value

/-- The creation of the shader resource view over the result buffer. -/
def createSrv (gpu : Gpu) (pTlas : Buffer) : ShaderResourceView × Gpu :=
  let srv : ShaderResourceView :=
    { id := gpu.nextId, resource := pTlas.id, location := pTlas.gpuAddress }
  (srv, { cmds := gpu.cmds ++ [Command.createSrv srv], nextId := gpu.nextId + 1 })

/-- The start of `buildTlas`: a default-constructed `TlasData`, replaced by the cached entry when
`mTlasCache.find(rayCount)` finds one. -/
def cachedOrDefault (s : ProceduralScene) (rayCount : Nat) : TlasData :=
  match cacheFind s.mTlasCache rayCount with
  | some entry => entry
  | none => TlasData.init

/-- The build inputs `buildTlas` sets up for `NumDescs` instance records. -/
def tlasInputs (mInstanceDescs : List InstanceDesc) : BuildInputs :=
  { type := ASType.TOP_LEVEL
    DescsLayout := 0
    NumDescs := u32 mInstanceDescs.length
    Flags := BUILD_FLAG_NONE
    descs := InputDescs.InstanceDescs 0 }

/-- The block `if (mpTlasScratch == nullptr)` of `buildTlas`: on the first build for the scene the
prebuild info is queried and the scratch buffer created; the result is the scratch buffer and the
prebuild info in effect afterwards. -/
def tlasScratchStep (be : Backend) (gpu : Gpu) (s : ProceduralScene) (inputs : BuildInputs) :
    Except Fault (Buffer × PrebuildInfo × Gpu) :=
  match s.mpTlasScratch with
  | some scratch => .ok (scratch, s.mTlasPrebuildInfo, gpu)
  | none =>
      let info := be.getPrebuildInfo inputs
      let (scratch, gpu1) := Buffer.create be gpu info.ScratchDataSizeInBytes BlobData.none
      if info.UpdateScratchDataSizeInBytes ≤ info.ScratchDataSizeInBytes then
        .ok (scratch, info, gpu1)
      else .error (.assertion 367)

/-- The block `if (tlas.pTlas == nullptr) ... else ...` of `buildTlas`: the result buffer, the
instance-descriptor buffer and the source address given to the build by this block. -/
def tlasBufferStep (be : Backend) (gpu : Gpu) (tlas : TlasData) (mpTlasScratch : Buffer)
    (mTlasPrebuildInfo : PrebuildInfo) (inputs : BuildInputs) (mInstanceDescs : List InstanceDesc) :
    Except Fault (Buffer × Buffer × Nat × Gpu) :=
  match tlas.pTlas with
  | none =>
      match tlas.pInstanceDescs with
      | some _ => .error (.assertion 377)
      | none =>
          let (pTlas, gpu1) :=
            Buffer.create be gpu mTlasPrebuildInfo.ResultDataMaxSizeInBytes BlobData.none
          let (pInstanceDescs, gpu2) :=
            Buffer.create be gpu1 (u64 (u32 mInstanceDescs.length * sizeofInstanceDesc))
              (BlobData.instances mInstanceDescs)
          .ok (pTlas, pInstanceDescs, 0, gpu2)
  | some pTlas =>
      let gpu1 := (gpu.issue (Command.uavBarrier pTlas.id)).issue
        (Command.uavBarrier mpTlasScratch.id)
      match tlas.pInstanceDescs with
      | none => .error .nullPointer
      | some pInstanceDescs =>
          let gpu2 := gpu1.issue
            (Command.setBlob pInstanceDescs.id 0 (u64 (inputs.NumDescs * sizeofInstanceDesc))
              mInstanceDescs)
          .ok (pTlas, pInstanceDescs, pTlas.gpuAddress, gpu2)

/-- The `asDesc` that `buildTlas` passes to the build, given the source address set by the
preceding block. -/
def tlasBuildDesc (inputs : BuildInputs) (mpTlasScratch pTlas pInstanceDescs : Buffer)
    (source : Nat) : BuildDesc :=
  { Inputs := { inputs with descs := InputDescs.InstanceDescs pInstanceDescs.gpuAddress }
    ScratchAccelerationStructureData := mpTlasScratch.gpuAddress
    DestAccelerationStructureData := pTlas.gpuAddress
    SourceAccelerationStructureData :=
      if (inputs.Flags &&& BUILD_FLAG_PERFORM_UPDATE) > 0 then pTlas.gpuAddress else source }

/-- The block `if (tlas.pSrv == nullptr)` of `buildTlas`. -/
def tlasSrvStep (gpu : Gpu) (tlas : TlasData) (pTlas : Buffer) : ShaderResourceView × Gpu :=
  match tlas.pSrv with
  | some srv => (srv, gpu)
  | none => createSrv gpu pTlas

/-- `ProceduralScene::buildTlas`. -/
def buildTlas (be : Backend) (gpu : Gpu) (s : ProceduralScene) (rayCount : Nat) :
    Except Fault (ProceduralScene × Gpu) :=
  let tlas := cachedOrDefault s rayCount
  match fillInstanceDesc s s.mInstanceDescs rayCount with
  | .error e => .error e
  | .ok mInstanceDescs =>
      let inputs := tlasInputs mInstanceDescs
      let tlas := { tlas with updateMode := s.mTlasUpdateMode }
      match tlasScratchStep be gpu s inputs with
      | .error e => .error e
      | .ok (mpTlasScratch, mTlasPrebuildInfo, gpu1) =>
          match tlasBufferStep be gpu1 tlas mpTlasScratch mTlasPrebuildInfo inputs
              mInstanceDescs with
          | .error e => .error e
          | .ok (pTlas, pInstanceDescs, source, gpu2) =>
              if inputs.NumDescs = 0 then .error (.assertion 390)
              else
                let asDesc := tlasBuildDesc inputs mpTlasScratch pTlas pInstanceDescs source
                let gpu3 := gpu2.issue (Command.resourceBarrier pInstanceDescs.id)
                let gpu4 := gpu3.issue (Command.build asDesc none)
                let gpu5 := gpu4.issue (Command.uavBarrier pTlas.id)
                let (pSrv, gpu6) := tlasSrvStep gpu5 tlas pTlas
                let tlas := { tlas with
                  pTlas := some pTlas, pInstanceDescs := some pInstanceDescs, pSrv := some pSrv }
                .ok ({ s with
                       mInstanceDescs := mInstanceDescs
                       mpTlasScratch := some mpTlasScratch
                       mTlasPrebuildInfo := mTlasPrebuildInfo
                       mTlasCache := cacheAssign s.mTlasCache rayCount tlas }, gpu6)

/-- `ProceduralScene::setRaytracingShaderData`; the view in the result is the one bound to
`gRtScene`. -/
def setRaytracingShaderData (be : Backend) (gpu : Gpu) (s : ProceduralScene) (rayTypeCount : Nat) :
    Except Fault (ProceduralScene × Gpu × ShaderResourceView) :=
  let firstStep : Except Fault (ProceduralScene × Gpu) :=
    if s.mBlasData.isEmpty then
      match initGeomDesc be gpu s with
      | .error e => .error e
      | .ok (s1, gpu1) => buildBlas be gpu1 s1
    else .ok (s, gpu)
  match firstStep with
  | .error e => .error e
  | .ok (s1, gpu1) =>
  let lookupStep : Except Fault (ProceduralScene × Gpu × Option TlasData) :=
    match cacheFind s1.mTlasCache rayTypeCount with
    | some entry => .ok (s1, gpu1, some entry)
    | none =>
        match buildTlas be gpu1 s1 rayTypeCount with
        | .error e => .error e
        | .ok (s2, gpu2) => .ok (s2, gpu2, cacheFind s2.mTlasCache rayTypeCount)
  match lookupStep with
  | .error e => .error e
  | .ok (_, _, none) => .error .outOfRange
  | .ok (s2, gpu2, some entry) =>
      match entry.pSrv with
      | none => .error (.assertion 82)
      | some pSrv => .ok (s2, gpu2, pSrv)

/-- `ProceduralScene::raytrace` for a program with `rayTypeCount` hit programs; the result carries
the view bound to `gRtScene` and the value stored in `hitProgramCount`. -/
def raytrace (be : Backend) (gpu : Gpu) (s : ProceduralScene) (rayTypeCount x y z : Nat) :
    Except Fault (ProceduralScene × Gpu × ShaderResourceView × Nat) :=
  match setRaytracingShaderData be gpu s rayTypeCount with
  | .error e => .error e
  | .ok (s1, gpu1, pSrv) => .ok (s1, gpu1.issue (Command.raytrace x y z), pSrv, rayTypeCount)


/-! ## Quantities the properties are stated with -/

/-- The number of geometries in the first `k` Blas groups of a scene. -/
def geometryCountBefore (t : Tlas) (k : Nat) : Nat :=
  ((t.take k).map (fun b => b.mGeometries.length)).sum

/-- The number of instances in the first `k` Blas groups of a scene. -/
def instanceCountBefore (t : Tlas) (k : Nat) : Nat :=
  ((t.take k).map (fun b => b.mInstances.length)).sum

/-- The number of geometries of a scene. -/
def totalGeometryCount (t : Tlas) : Nat := (t.map (fun b => b.mGeometries.length)).sum

/-- The number of instances of a scene. -/
def totalInstanceCount (t : Tlas) : Nat := (t.map (fun b => b.mInstances.length)).sum

/-- The records `fillInstanceDesc` emits for build records and Blas groups taken in step, when the
running contribution starts at `contribution`. -/
def instanceStream (blasAddress rayCount : Nat) :
    List BlasData → List Blas → Nat → List InstanceDesc
  | blas :: rest, group :: groups, contribution =>
      group.mInstances.map (setInstance (blasInstanceDesc blasAddress blas contribution)) ++
        instanceStream blasAddress rayCount rest groups
          (u32 (contribution + u32 (rayCount * u32 group.mGeometries.length)))
  | _, _, _ => []

/-- The entry at row `r`, column `c` of a column-major `glm::mat4`. -/
def Mat4.entry (m : Mat4) (r c : Fin 4) : F32 :=
  let column := match c with
    | 0 => m.c0
    | 1 => m.c1
    | 2 => m.c2
    | 3 => m.c3
  match r with
  | 0 => column.x
  | 1 => column.y
  | 2 => column.z
  | 3 => column.w

/-- The element `Transform[r][c]` of the `float Transform[3][4]` member. -/
def Mat3x4.entry (m : Mat3x4) (r : Fin 3) (c : Fin 4) : F32 :=
  let row := match r with
    | 0 => m.r0
    | 1 => m.r1
    | 2 => m.r2
  match c with
  | 0 => row.x
  | 1 => row.y
  | 2 => row.z
  | 3 => row.w

/-- The state a fresh scene holding `tlas` is left in by one call of `setRaytracingShaderData` on an
empty command stream (the default scene itself should the call fail). -/
def builtScene (be : Backend) (tlas : Tlas) (rayTypeCount : Nat) : ProceduralScene :=
  match setRaytracingShaderData be { cmds := [], nextId := 0 }
      (setScene ProceduralScene.create tlas) rayTypeCount with
  | .ok (s, _, _) => s
  | .error _ => ProceduralScene.create

/-! ## Concrete scenes and a concrete backend -/

/-- A backend: integer arithmetic on the bit patterns, buffers 64 KiB apart, prebuild sizes growing
with the number of descriptors, and 300 bytes reported by every post-build request. -/
def exampleBackend : Backend :=
  { fadd := fun a b => a + b
    fsub := fun a b => a - b
    gpuAddress := fun id _ => 65536 * (id + 1)
    prebuildInfo := fun inputs =>
      { ResultDataMaxSizeInBytes := 1024 * inputs.NumDescs
        ScratchDataSizeInBytes := 500
        UpdateScratchDataSizeInBytes := 200 }
    postbuildSize := fun _ _ => 300 }

/-- A placement matrix with sixteen different entries (columns listed one after the other). -/
def exampleMatrix : Mat4 :=
  { c0 := ⟨11, 21, 31, 41⟩, c1 := ⟨12, 22, 32, 42⟩, c2 := ⟨13, 23, 33, 43⟩, c3 := ⟨14, 24, 34, 44⟩ }

/-- A bounding box. -/
def exampleBox : BoundingBox := { center := ⟨5, 6, 7⟩, extent := ⟨1, 2, 3⟩ }

/-- Scenario A of the specification: one Blas, one geometry with two boxes, one instance. -/
def scenarioA : Tlas :=
  [{ mGeometries := [{ mName := "a", mPrimitives := [exampleBox, exampleBox] }]
     mInstances := [{ mID := 7, mMask := 255, mFlags := 0, mTransformMtx := exampleMatrix }] }]

/-- Scenario B of the specification: two Blas, each with one geometry and one instance. -/
def scenarioB : Tlas :=
  [{ mGeometries := [{ mName := "a", mPrimitives := [exampleBox] }]
     mInstances := [{ mID := 7, mMask := 255, mFlags := 0, mTransformMtx := exampleMatrix }] },
   { mGeometries := [{ mName := "b", mPrimitives := [exampleBox] }]
     mInstances := [{ mID := 8, mMask := 255, mFlags := 0, mTransformMtx := exampleMatrix }] }]

/-- A scene whose first Blas has two geometries. -/
def twoGeometryScene : Tlas :=
  [{ mGeometries := [{ mName := "a", mPrimitives := [exampleBox] },
                     { mName := "b", mPrimitives := [exampleBox] }]
     mInstances := [{ mID := 7, mMask := 255, mFlags := 0, mTransformMtx := exampleMatrix }] },
   { mGeometries := [{ mName := "c", mPrimitives := [exampleBox] }]
     mInstances := [{ mID := 8, mMask := 255, mFlags := 0, mTransformMtx := exampleMatrix }] }]

/-- A scene whose only instance has an identifier of 25 bits and a mask of 9 bits. -/
def wideFieldScene : Tlas :=
  [{ mGeometries := [{ mName := "a", mPrimitives := [exampleBox] }]
     mInstances := [{ mID := 16777216, mMask := 256, mFlags := 0, mTransformMtx := exampleMatrix }] }]

/-- A built scene with one build record for its one Blas group, which has `n` instances. -/
def replicatedScene (n : Nat) : ProceduralScene :=
  { ProceduralScene.create with
    mTlas := [{ mGeometries := []
                mInstances := List.replicate n
                  { mID := 0, mMask := 255, mFlags := 0, mTransformMtx := exampleMatrix } }]
    mBlasData := [BlasData.init]
    mpBlas := some { id := 0, size := 0, gpuAddress := 65536 }
    mRebuildBlas := false }

/-! ## Further quantities the properties are stated with -/

/-- The address Direct3D 12 reads box `i` of a geometry descriptor from:
`StartAddress + i × StrideInBytes`. -/
def GeometryDesc.boxAddress (d : GeometryDesc) (i : Nat) : Nat :=
  d.StartAddress + i * d.StrideInBytes

/-- The descriptors `initGeomDesc` pushes for the geometries of one Blas when the running
`aabbBufferOffset` starts at `aabbBufferOffset`. -/
def geomDescList (bufferAddress : Nat) : List Geometry → Nat → List GeometryDesc
  | [], _ => []
  | geometry :: rest, aabbBufferOffset =>
      makeGeomDesc bufferAddress aabbBufferOffset geometry ::
        geomDescList bufferAddress rest (u32 (aabbBufferOffset + u32 geometry.mPrimitives.length))

/-- The running `aabbBufferOffset` after the geometries of one Blas. -/
def offsetAfter : List Geometry → Nat → Nat
  | [], aabbBufferOffset => aabbBufferOffset
  | geometry :: rest, aabbBufferOffset =>
      offsetAfter rest (u32 (aabbBufferOffset + u32 geometry.mPrimitives.length))

/-- The build records `initGeomDesc` appends for a list of Blas groups. -/
def blasRecordList (bufferAddress : Nat) : List Blas → Nat → List BlasData
  | [], _ => []
  | blas :: rest, aabbBufferOffset =>
      { BlasData.init with
        geomDescs := geomDescList bufferAddress blas.mGeometries aabbBufferOffset } ::
        blasRecordList bufferAddress rest (offsetAfter blas.mGeometries aabbBufferOffset)

/-- Rounding `value` up to the next multiple of `a`, in unbounded arithmetic. -/
def alignUp (a value : Nat) : Nat := (value + a - 1) / a * a

/-- The final sizes of the build records, each padded by `align_to`. -/
def paddedBlasSizes (records : List BlasData) : List Nat :=
  records.map
    (fun b => align_to D3D12_RAYTRACING_ACCELERATION_STRUCTURE_BYTE_ALIGNMENT b.blasByteSize)

/-- The prebuild maximum sizes of the build records, each padded by `align_to`. -/
def paddedMaxSizes (records : List BlasData) : List Nat :=
  records.map
    (fun b => align_to D3D12_RAYTRACING_ACCELERATION_STRUCTURE_BYTE_ALIGNMENT
      b.prebuildInfo.ResultDataMaxSizeInBytes)

/-- The scratch sizes of the build records, each padded by `align_to`. -/
def paddedScratchSizes (records : List BlasData) : List Nat :=
  records.map
    (fun b => align_to D3D12_RAYTRACING_ACCELERATION_STRUCTURE_BYTE_ALIGNMENT (scratchSize b))

/-- The build commands among recorded commands, in order. -/
def buildsOf : List Command → List (BuildDesc × Option PostbuildInfoDesc)
  | [] => []
  | Command.build desc postbuild :: rest => (desc, postbuild) :: buildsOf rest
  | _ :: rest => buildsOf rest

/-- The copy commands among recorded commands, in order: destination, source and mode. -/
def copiesOf : List Command → List (Nat × Nat × CopyMode)
  | [] => []
  | Command.copy dest source mode :: rest => (dest, source, mode) :: copiesOf rest
  | _ :: rest => copiesOf rest

/-- The buffers created by recorded commands, in order. -/
def buffersCreatedBy : List Command → List Buffer
  | [] => []
  | Command.createBuffer buffer _ :: rest => buffer :: buffersCreatedBy rest
  | _ :: rest => buffersCreatedBy rest

/-! ## Runs on the concrete scenes -/

/-- The scene state and command stream after `setScene(tlas)` and `initGeomDesc` on a fresh scene
and an empty command stream (the fresh scene itself should `initGeomDesc` fail). -/
def sceneWithGeometry (be : Backend) (tlas : Tlas) : ProceduralScene × Gpu :=
  match initGeomDesc be { cmds := [], nextId := 0 } (setScene ProceduralScene.create tlas) with
  | .ok r => r
  | .error _ => (ProceduralScene.create, { cmds := [], nextId := 0 })

/-- The scene state and command stream after `buildBlas` on `sceneWithGeometry` (the fresh scene
itself should `buildBlas` fail). -/
def sceneWithBlas (be : Backend) (tlas : Tlas) : ProceduralScene × Gpu :=
  match buildBlas be (sceneWithGeometry be tlas).2 (sceneWithGeometry be tlas).1 with
  | .ok r => r
  | .error _ => (ProceduralScene.create, { cmds := [], nextId := 0 })

/-- A backend that reports a scratch size of 2^63 bytes for every build. -/
def hugeScratchBackend : Backend :=
  { exampleBackend with
    prebuildInfo := fun _ =>
      { ResultDataMaxSizeInBytes := 1024
        ScratchDataSizeInBytes := 9223372036854775808
        UpdateScratchDataSizeInBytes := 0 } }

/-- The result of `setRaytracingShaderData` on a given state and command stream (the state itself
with a null view should the call fail). -/
def getResult (be : Backend) (gpu : Gpu) (s : ProceduralScene) (rayTypeCount : Nat) :
    ProceduralScene × Gpu × ShaderResourceView :=
  match setRaytracingShaderData be gpu s rayTypeCount with
  | .ok r => r
  | .error _ => (s, gpu, { id := 0, resource := 0, location := 0 })

/-- The result of `buildTlas` on a given state and command stream (the state itself should the
call fail). -/
def buildTlasResult (be : Backend) (gpu : Gpu) (s : ProceduralScene) (rayCount : Nat) :
    ProceduralScene × Gpu :=
  match buildTlas be gpu s rayCount with
  | .ok r => r
  | .error _ => (s, gpu)

/-- Scenario B of the specification after `get(1)` on a fresh scene. -/
def scenarioBAfterGet1 : ProceduralScene × Gpu × ShaderResourceView :=
  getResult exampleBackend { cmds := [], nextId := 0 } (setScene ProceduralScene.create scenarioB) 1

/-- Scenario B of the specification after `get(1)` and then `get(2)`. -/
def scenarioBAfterGet2 : ProceduralScene × Gpu × ShaderResourceView :=
  getResult exampleBackend scenarioBAfterGet1.2.1 scenarioBAfterGet1.1 2

/-- Scenario B of the specification after `get(1)`, `get(2)` and a second `buildTlas(2)`. -/
def scenarioBRebuilt : ProceduralScene × Gpu :=
  buildTlasResult exampleBackend scenarioBAfterGet2.2.1 scenarioBAfterGet2.1 2

/-- Scenario B of the specification after `get(2)` on a fresh scene. -/
def scenarioBGet2First : ProceduralScene × Gpu × ShaderResourceView :=
  getResult exampleBackend { cmds := [], nextId := 0 } (setScene ProceduralScene.create scenarioB) 2

/-- The backend guarantee behind the assertion in the read-back loop of `buildBlas`: a build never
reports a post-build size above the prebuild maximum of its inputs. -/
def Backend.RespectsPrebuildMax (be : Backend) : Prop :=
  ∀ desc type,
    u64 (be.postbuildSize desc type) ≤ (be.getPrebuildInfo desc.Inputs).ResultDataMaxSizeInBytes

/-- The backend guarantee behind the assertion in the first-build block of `buildTlas`: the update
scratch size never exceeds the build scratch size. -/
def Backend.UpdateScratchFits (be : Backend) : Prop :=
  ∀ inputs,
    (be.getPrebuildInfo inputs).UpdateScratchDataSizeInBytes ≤
      (be.getPrebuildInfo inputs).ScratchDataSizeInBytes

/-! ## Quantities for the steady-state pass, the statistics and the geometry buffer -/

/-- The build records flagged dynamic (`hasSkinnedMesh`), in order. -/
def dynamicRecords (records : List BlasData) : List BlasData :=
  records.filter (fun b => b.hasSkinnedMesh)

/-- The number of build records with `useCompaction = true`. -/
def compactedCount (records : List BlasData) : Nat :=
  (records.filter (fun b => b.useCompaction)).length

/-- The sum of the final sizes `blasByteSize` of the build records. -/
def totalBlasMemory (records : List BlasData) : Nat :=
  (records.map (fun b => b.blasByteSize)).sum

/-- The primitives of a list of geometries, geometry after geometry. -/
def primitivesOf : List Geometry → List Primitive
  | [] => []
  | geometry :: rest => geometry.mPrimitives ++ primitivesOf rest

/-- The primitives of a scene in flattened Blas-major, geometry-minor order. -/
def flattenedPrimitives : List Blas → List Primitive
  | [] => []
  | blas :: rest => primitivesOf blas.mGeometries ++ flattenedPrimitives rest

/-- The number of primitives of a scene: the sum over its Blas groups and their geometries. -/
def totalPrimitiveCount (t : Tlas) : Nat :=
  (t.map (fun b => (b.mGeometries.map (fun g => g.mPrimitives.length)).sum)).sum

/-- Two build records whose final sizes are 2^63 bytes each. -/
def halfRangeRecords : List BlasData :=
  [{ BlasData.init with blasByteSize := 9223372036854775808 },
   { BlasData.init with blasByteSize := 9223372036854775808 }]

/-! ## A scene with dynamic content -/

/-- The build records with the first one flagged dynamic. -/
def markFirstDynamic : List BlasData → List BlasData
  | [] => []
  | blas :: rest => { blas with hasSkinnedMesh := true } :: rest

/-- Scenario B of the specification after `initGeomDesc`, with the scene flag `mHasSkinnedMesh` and
the flag `hasSkinnedMesh` of the first build record set, and a given Blas update mode. No member
function sets these flags or the mode, so the state is written down member by member. -/
def dynamicScene (be : Backend) (mode : UpdateMode) : ProceduralScene × Gpu :=
  ({ (sceneWithGeometry be scenarioB).1 with
     mHasSkinnedMesh := true
     mBlasUpdateMode := mode
     mBlasData := markFirstDynamic (sceneWithGeometry be scenarioB).1.mBlasData },
   (sceneWithGeometry be scenarioB).2)

/-- The result of `buildBlas` on a given state and command stream (the state itself should the call
fail). -/
def buildBlasResult (be : Backend) (gpu : Gpu) (s : ProceduralScene) : ProceduralScene × Gpu :=
  match buildBlas be gpu s with
  | .ok r => r
  | .error _ => (s, gpu)

/-- The dynamic scene after the one-time pass of `buildBlas`. -/
def dynamicSceneBuilt (be : Backend) (mode : UpdateMode) : ProceduralScene × Gpu :=
  buildBlasResult be (dynamicScene be mode).2 (dynamicScene be mode).1

/-- The dynamic scene after the one-time pass and one steady-state pass of `buildBlas`. -/
def dynamicSceneSteady (be : Backend) (mode : UpdateMode) : ProceduralScene × Gpu :=
  buildBlasResult be (dynamicSceneBuilt be mode).2 (dynamicSceneBuilt be mode).1

/-- A backend whose builds report exactly the prebuild maximum size to every post-build request. -/
def exactSizeBackend : Backend :=
  { exampleBackend with postbuildSize := fun desc _ => 1024 * desc.Inputs.NumDescs }

/-- The intermediate result-buffer offsets of a state: the `blasByteOffset` the first loop of the
one-time pass of `buildBlas` gives to each record. -/
def intermediateOffsets (be : Backend) (s : ProceduralScene) : List Nat :=
  (prepareLoop be s.mBlasUpdateMode s.mBlasData 0 0).1.map (fun b => b.blasByteOffset)

/-- The final result-buffer offsets of a state: the `blasByteOffset` of each record. -/
def finalOffsets (s : ProceduralScene) : List Nat :=
  s.mBlasData.map (fun b => b.blasByteOffset)

/-- A backend that reports a prebuild maximum size of 0 bytes and a post-build size of 0 bytes for
every build. -/
def zeroSizeBackend : Backend :=
  { exampleBackend with
    prebuildInfo := fun _ =>
      { ResultDataMaxSizeInBytes := 0
        ScratchDataSizeInBytes := 500
        UpdateScratchDataSizeInBytes := 200 }
    postbuildSize := fun _ _ => 0 }

/-- A backend that reports a prebuild maximum size of 2^63 bytes and a post-build size of 2^63
bytes for every build. -/
def hugeResultBackend : Backend :=
  { exampleBackend with
    prebuildInfo := fun _ =>
      { ResultDataMaxSizeInBytes := 9223372036854775808
        ScratchDataSizeInBytes := 500
        UpdateScratchDataSizeInBytes := 200 }
    postbuildSize := fun _ _ => 9223372036854775808 }

/-- A scene of three Blas, each with one geometry and one instance. -/
def threeBlasScene : Tlas :=
  scenarioB ++
    [{ mGeometries := [{ mName := "c", mPrimitives := [exampleBox] }]
       mInstances := [{ mID := 9, mMask := 255, mFlags := 0, mTransformMtx := exampleMatrix }] }]

/-! ## Sequences of calls and markers in the command stream -/

/-- A sequence of calls of `setRaytracingShaderData`, one per ray-type count of the list, each on
the state and command stream left by the one before; it completes when every call completes. -/
def getSequence (be : Backend) :
    Gpu → ProceduralScene → List Nat → Except Fault (ProceduralScene × Gpu)
  | gpu, s, [] => .ok (s, gpu)
  | gpu, s, rayTypeCount :: rest =>
      match setRaytracingShaderData be gpu s rayTypeCount with
      | .error e => .error e
      | .ok (s1, gpu1, _) => getSequence be gpu1 s1 rest

/-- The result of `getSequence` (the state itself should a call fail). -/
def getSequenceResult (be : Backend) (gpu : Gpu) (s : ProceduralScene) (rayTypeCounts : List Nat) :
    ProceduralScene × Gpu :=
  match getSequence be gpu s rayTypeCounts with
  | .ok r => r
  | .error _ => (s, gpu)

/-- Whether every entry of the cache has a result buffer, an instance-descriptor buffer and a
view. -/
def cacheComplete (cache : List (Nat × TlasData)) : Bool :=
  cache.all (fun p => p.2.pTlas.isSome && p.2.pInstanceDescs.isSome && p.2.pSrv.isSome)

/-- Whether a command creates a buffer initialised with boxes; `initGeomDesc` is the only function
issuing such a command. -/
def isGeometryBufferCreation : Command → Bool
  | Command.createBuffer _ (BlobData.aabbs _) => true
  | _ => false

/-- Whether a command is the blocking flush; the one-time pass of `buildBlas` is the only code
issuing it. -/
def isFlush : Command → Bool
  | Command.flush => true
  | _ => false

/-- The number of geometry buffers created by recorded commands. -/
def geometryBufferCount (cmds : List Command) : Nat := cmds.countP isGeometryBufferCreation

/-- The number of blocking flushes among recorded commands. -/
def flushCount (cmds : List Command) : Nat := cmds.countP isFlush

/-- A call of one of the public member functions that change or use the scene. -/
inductive Operation where
  | addBlas (blas : Blas)
  | setScene (tlas : Tlas)
  | setRaytracingShaderData (rayTypeCount : Nat)
  | raytrace (rayTypeCount x y z : Nat)

/-- One call of a public member function on a scene and a command stream. -/
def runOperation (be : Backend) (gpu : Gpu) (s : ProceduralScene) :
    Operation → Except Fault (ProceduralScene × Gpu)
  | Operation.addBlas blas => .ok (addBlas s blas, gpu)
  | Operation.setScene tlas => .ok (setScene s tlas, gpu)
  | Operation.setRaytracingShaderData rayTypeCount =>
      match setRaytracingShaderData be gpu s rayTypeCount with
      | .error e => .error e
      | .ok (s1, gpu1, _) => .ok (s1, gpu1)
  | Operation.raytrace rayTypeCount x y z =>
      match raytrace be gpu s rayTypeCount x y z with
      | .error e => .error e
      | .ok (s1, gpu1, _, _) => .ok (s1, gpu1)

/-- A sequence of calls of public member functions, each on the state and command stream left by
the one before; it completes when every call completes. -/
def runOperations (be : Backend) :
    Gpu → ProceduralScene → List Operation → Except Fault (ProceduralScene × Gpu)
  | gpu, s, [] => .ok (s, gpu)
  | gpu, s, op :: rest =>
      match runOperation be gpu s op with
      | .error e => .error e
      | .ok (s1, gpu1) => runOperations be gpu1 s1 rest

/-- The result of `runOperations` on a new scene and an empty command stream (the new scene itself
should a call fail). -/
def runResult (be : Backend) (ops : List Operation) : ProceduralScene × Gpu :=
  match runOperations be { cmds := [], nextId := 0 } ProceduralScene.create ops with
  | .ok r => r
  | .error _ => (ProceduralScene.create, { cmds := [], nextId := 0 })

/-- A Blas group with one geometry of one box and one instance. -/
def exampleBlas : Blas :=
  { mGeometries := [{ mName := "a", mPrimitives := [exampleBox] }]
    mInstances := [{ mID := 7, mMask := 255, mFlags := 0, mTransformMtx := exampleMatrix }] }

/-- A scene of `n` copies of the example Blas, as `setScene` leaves it on a fresh object. -/
def manyBlasScene (n : Nat) : ProceduralScene :=
  setScene ProceduralScene.create (List.replicate n exampleBlas)

/-- The condition kept by every public member function: the scene has no dynamic content, no build
record is flagged dynamic and every build record is compacted, the statistics count the records and
count all of them as compacted (a 64-bit count), the Blas scratch buffer is null, and a scene
without build records has not run the one-time pass and has an empty cache. -/
def StaticInvariant (s : ProceduralScene) : Prop :=
  s.mHasSkinnedMesh = false ∧
  (∀ b ∈ s.mBlasData, b.hasSkinnedMesh = false ∧ b.useCompaction = true) ∧
  s.mRTStats.blasCount = s.mBlasData.length ∧
  s.mRTStats.blasCompactedCount = u64 s.mBlasData.length ∧
  s.mpBlasScratch = none ∧
  (s.mBlasData = [] → s.mRebuildBlas = true ∧ s.mTlasCache = [])

/-- A sequence of public calls: `setScene` of scenario B, `get(1)`, `addBlas` of one more group and
`raytrace` with two ray types. -/
def exampleOperations : List Operation :=
  [Operation.setScene scenarioB, Operation.setRaytracingShaderData 1,
    Operation.addBlas exampleBlas, Operation.raytrace 2 1 1 1]

/-- A scene of one Blas group with one geometry and no instance. -/
def noInstanceScene : Tlas :=
  [{ mGeometries := [{ mName := "a", mPrimitives := [exampleBox] }], mInstances := [] }]

/-- A backend that reports a prebuild maximum size of 2^63 bytes for every build and 300 bytes to
every post-build request. -/
def wideMaxBackend : Backend :=
  { exampleBackend with
    prebuildInfo := fun _ =>
      { ResultDataMaxSizeInBytes := 9223372036854775808
        ScratchDataSizeInBytes := 500
        UpdateScratchDataSizeInBytes := 200 } }

/-! # Properties -/

/-! ## Machine arithmetic lemmas -/

theorem u32_add_u32 (a b : Nat) : u32 (a + u32 b) = u32 (a + b) := by
  unfold u32; omega

theorem u32_u32_add (a b : Nat) : u32 (u32 a + b) = u32 (a + b) := by
  unfold u32; omega

theorem u32_mul_u32 (a b : Nat) : u32 (a * u32 b) = u32 (a * b) := by
  unfold u32; rw [Nat.mul_mod, Nat.mod_mod, ← Nat.mul_mod]

theorem bits24_u32 (a : Nat) : bits24 (u32 a) = bits24 a := by
  unfold bits24 u32; omega

theorem bits24_add_u32 (a b : Nat) : bits24 (u32 a + b) = bits24 (a + b) := by
  unfold bits24 u32; omega

theorem u32_of_lt {a : Nat} (h : a < 4294967296) : u32 a = a := Nat.mod_eq_of_lt h

theorem bits24_of_lt {a : Nat} (h : a < 16777216) : bits24 a = a := Nat.mod_eq_of_lt h

/-! ## `setScene` -/

theorem setSceneLoop_eq (t : List Blas) (m n : Nat) :
    setSceneLoop t m n =
      (if t = [] then m else u32 (m + totalGeometryCount t),
       if t = [] then n else u32 (n + totalInstanceCount t)) := by
  induction t generalizing m n with
  | nil => simp [setSceneLoop]
  | cons b rest ih =>
    rw [setSceneLoop, ih]
    by_cases h : rest = []
    · subst h; simp [u32_add_u32, totalGeometryCount, totalInstanceCount]
    · simp only [h, if_false, totalGeometryCount, totalInstanceCount, List.map_cons, List.sum_cons,
        reduceCtorEq]
      unfold u32
      refine Prod.ext ?_ ?_ <;> simp only <;> omega

theorem setSceneLoop_zero (t : List Blas) :
    setSceneLoop t 0 0 = (u32 (totalGeometryCount t), u32 (totalInstanceCount t)) := by
  rw [setSceneLoop_eq]
  by_cases h : t = []
  · subst h; simp [totalGeometryCount, totalInstanceCount, u32]
  · simp [h]

/-! ## `fillInstanceDesc` -/

theorem instanceLoop_eq (d : InstanceDesc) (insts : List Instance) (out : List InstanceDesc) :
    instanceLoop d insts out = out ++ insts.map (setInstance d) := by
  induction insts generalizing d out with
  | nil => simp [instanceLoop]
  | cons a rest ih =>
    rw [instanceLoop, ih]
    have h : ∀ b, setInstance (setInstance d a) b = setInstance d b := fun _ => rfl
    simp [h]

theorem fillLoop_eq (a rc : Nat) (t : Tlas) (bds : List BlasData) (i c : Nat)
    (acc : List InstanceDesc) (h : bds.length + i ≤ t.length) :
    fillLoop a rc t bds i c acc = .ok (acc ++ instanceStream a rc bds (t.drop i) c) := by
  induction bds generalizing i c acc with
  | nil => simp [fillLoop, instanceStream]
  | cons bd rest ih =>
    have hi : i < t.length := by simp at h; omega
    have hdrop : t.drop i = t[i] :: t.drop (i + 1) := List.drop_eq_getElem_cons hi
    rw [fillLoop, List.getElem?_eq_getElem hi]
    simp only
    rw [ih (i + 1) _ _ (by simp at h ⊢; omega), hdrop, instanceStream, instanceLoop_eq]
    simp

theorem fillInstanceDesc_eq (s : ProceduralScene) (prev : List InstanceDesc) (rc : Nat)
    (mpBlas : Buffer) (hb : s.mpBlas = some mpBlas) (h : s.mBlasData.length ≤ s.mTlas.length) :
    fillInstanceDesc s prev rc = .ok (instanceStream mpBlas.gpuAddress rc s.mBlasData s.mTlas 0) := by
  unfold fillInstanceDesc
  rw [hb]
  simp only
  rw [fillLoop_eq _ _ _ _ _ _ _ (by simpa using h)]
  simp

theorem blasInstanceDesc_congr (a : Nat) (bd : BlasData) {c c' : Nat}
    (h : bits24 c = bits24 c') : blasInstanceDesc a bd c = blasInstanceDesc a bd c' := by
  simp [blasInstanceDesc, h]

theorem instanceCountBefore_succ (g : Blas) (gs : List Blas) (k : Nat) :
    instanceCountBefore (g :: gs) (k + 1) = g.mInstances.length + instanceCountBefore gs k := by
  simp [instanceCountBefore]

theorem geometryCountBefore_succ (g : Blas) (gs : List Blas) (k : Nat) :
    geometryCountBefore (g :: gs) (k + 1) = g.mGeometries.length + geometryCountBefore gs k := by
  simp [geometryCountBefore]

theorem instanceStream_getElem? (a rc : Nat) (bds : List BlasData) (gs : List Blas) (c k j : Nat)
    (bd : BlasData) (g : Blas) (inst : Instance)
    (hbd : bds[k]? = some bd) (hg : gs[k]? = some g) (hinst : g.mInstances[j]? = some inst) :
    (instanceStream a rc bds gs c)[instanceCountBefore gs k + j]? =
      some (setInstance (blasInstanceDesc a bd (c + rc * geometryCountBefore gs k)) inst) := by
  induction k generalizing bds gs c with
  | zero =>
    cases bds with
    | nil => simp at hbd
    | cons b0 rest =>
      cases gs with
      | nil => simp at hg
      | cons g0 groups =>
        simp at hbd hg
        subst hbd hg
        have hj : j < g0.mInstances.length := (List.getElem?_eq_some_iff.mp hinst).1
        simp only [instanceStream, instanceCountBefore, geometryCountBefore, List.take_zero,
          List.map_nil, List.sum_nil, Nat.zero_add, Nat.mul_zero, Nat.add_zero]
        rw [List.getElem?_append_left (by simpa using hj)]
        simp [hinst]
  | succ k ih =>
    cases bds with
    | nil => simp at hbd
    | cons b0 rest =>
      cases gs with
      | nil => simp at hg
      | cons g0 groups =>
        simp only [List.getElem?_cons_succ] at hbd hg
        rw [instanceStream, instanceCountBefore_succ, geometryCountBefore_succ,
          List.getElem?_append_right (by simp; omega)]
        have hidx : g0.mInstances.length + instanceCountBefore groups k + j -
            (List.map (setInstance (blasInstanceDesc a b0 c)) g0.mInstances).length =
            instanceCountBefore groups k + j := by simp; omega
        rw [hidx, ih rest groups _ hbd hg]
        congr 2
        apply blasInstanceDesc_congr
        rw [u32_mul_u32, u32_add_u32, bits24_add_u32]
        congr 1
        ring

theorem instanceStream_length (a rc : Nat) (bds : List BlasData) (gs : List Blas) (c : Nat)
    (h : bds.length = gs.length) :
    (instanceStream a rc bds gs c).length = totalInstanceCount gs := by
  induction bds generalizing gs c with
  | nil =>
    cases gs with
    | nil => simp [instanceStream, totalInstanceCount]
    | cons _ _ => simp at h
  | cons b0 rest ih =>
    cases gs with
    | nil => simp at h
    | cons g0 groups =>
      simp at h
      simp [instanceStream, ih groups _ h, totalInstanceCount]

theorem setSceneLoop_counts (s : ProceduralScene) (t : Tlas) :
    getMeshCount (setScene s t) = u32 (totalGeometryCount t) ∧
      getInstanceCount (setScene s t) = u32 (totalInstanceCount t) := by
  simp [getMeshCount, getInstanceCount, setScene, setSceneLoop_zero]

/-! ## Claims about `setScene` and `fillInstanceDesc` -/

/-- C5: after `setScene(t)` the mesh count is the sum of the geometry counts of the Blas groups of
`t` and the instance count is the sum of their instance counts, both in 32-bit unsigned arithmetic;
the counts do not depend on the scene state before the call, and the scene holds `t`. -/
theorem setScene_counts (s : ProceduralScene) (t : Tlas) :
    getMeshCount (setScene s t) = u32 (totalGeometryCount t) ∧
      getInstanceCount (setScene s t) = u32 (totalInstanceCount t) ∧
      (setScene s t).mTlas = t := by
  have hloop := setSceneLoop_zero t
  refine ⟨?_, ?_, rfl⟩
  · show (setSceneLoop t 0 0).1 = u32 (totalGeometryCount t)
    rw [hloop]
  · show (setSceneLoop t 0 0).2 = u32 (totalInstanceCount t)
    rw [hloop]

/-- C1 (as amended): when the Blas buffer exists and every build record has its Blas group,
`fillInstanceDesc` returns a stream in which the record of instance `j` of the `k`-th Blas has
`InstanceContributionToHitGroupIndex` equal to `rayCount × Σ_{i<k} geometryCount(blas_i)` reduced
to the 24 bits of the field, hence equal to that product whenever it is below 2^24; the value
depends on `k` only and is 0 for the first Blas. -/
theorem fillInstanceDesc_contribution (s : ProceduralScene) (prev : List InstanceDesc)
    (rayCount : Nat) (mpBlas : Buffer) (hb : s.mpBlas = some mpBlas)
    (hlen : s.mBlasData.length ≤ s.mTlas.length) :
    ∃ out, fillInstanceDesc s prev rayCount = .ok out ∧
      ∀ k g j, k < s.mBlasData.length → s.mTlas[k]? = some g → j < g.mInstances.length →
        ∃ d, out[instanceCountBefore s.mTlas k + j]? = some d ∧
          d.InstanceContributionToHitGroupIndex =
            bits24 (rayCount * geometryCountBefore s.mTlas k) ∧
          (rayCount * geometryCountBefore s.mTlas k < 16777216 →
            d.InstanceContributionToHitGroupIndex = rayCount * geometryCountBefore s.mTlas k) ∧
          (k = 0 → d.InstanceContributionToHitGroupIndex = 0) := by
  refine ⟨_, fillInstanceDesc_eq s prev rayCount mpBlas hb hlen, ?_⟩
  intro k g j hk hg hj
  have hbd : s.mBlasData[k]? = some s.mBlasData[k] := List.getElem?_eq_getElem hk
  have hinst : g.mInstances[j]? = some g.mInstances[j] := List.getElem?_eq_getElem hj
  refine ⟨_, instanceStream_getElem? _ _ _ _ 0 k j _ g _ hbd hg hinst, ?_, ?_, ?_⟩
  · simp [setInstance, blasInstanceDesc]
  · intro hlt
    simp [setInstance, blasInstanceDesc, bits24_of_lt hlt]
  · intro h0
    subst h0
    simp [setInstance, blasInstanceDesc, geometryCountBefore, bits24]

/-- Witness for C1: scenario B of the specification after its first build, with two ray types. -/
theorem fillInstanceDesc_contribution_witness :
    (builtScene exampleBackend scenarioB 2).mpBlas =
        some { id := 4, size := 1024, gpuAddress := 327680 } ∧
      (builtScene exampleBackend scenarioB 2).mBlasData.length ≤
        (builtScene exampleBackend scenarioB 2).mTlas.length ∧
      ∃ out, fillInstanceDesc (builtScene exampleBackend scenarioB 2) [] 2 = .ok out ∧
        ∀ k g j, k < (builtScene exampleBackend scenarioB 2).mBlasData.length →
          (builtScene exampleBackend scenarioB 2).mTlas[k]? = some g → j < g.mInstances.length →
          ∃ d, out[instanceCountBefore (builtScene exampleBackend scenarioB 2).mTlas k + j]? =
              some d ∧
            d.InstanceContributionToHitGroupIndex =
              bits24 (2 * geometryCountBefore (builtScene exampleBackend scenarioB 2).mTlas k) ∧
            (2 * geometryCountBefore (builtScene exampleBackend scenarioB 2).mTlas k < 16777216 →
              d.InstanceContributionToHitGroupIndex =
                2 * geometryCountBefore (builtScene exampleBackend scenarioB 2).mTlas k) ∧
            (k = 0 → d.InstanceContributionToHitGroupIndex = 0) :=
  ⟨rfl, by decide,
    fillInstanceDesc_contribution (builtScene exampleBackend scenarioB 2) [] 2
      { id := 4, size := 1024, gpuAddress := 327680 } rfl (by decide)⟩

/-- Counterexample to C1 as stated: with `rayCount = 2^31` and two geometries in the first Blas, the
record of the second Blas carries contribution 0, not `2^31 × 2`. -/
theorem hitGroupContribution_wraps :
    ∃ out d,
      fillInstanceDesc (builtScene exampleBackend twoGeometryScene 2147483648) [] 2147483648 =
          .ok out ∧
        out[instanceCountBefore (builtScene exampleBackend twoGeometryScene 2147483648).mTlas 1
          + 0]? = some d ∧
        d.InstanceContributionToHitGroupIndex = 0 ∧
        2147483648 *
          geometryCountBefore (builtScene exampleBackend twoGeometryScene 2147483648).mTlas 1 =
            4294967296 :=
  ⟨_, _, rfl, rfl, rfl, rfl⟩


/-- C2 (as amended): for a scene with a Blas buffer and one build record per Blas group,
`fillInstanceDesc` returns a stream that does not depend on the previous content of the output
vector, holds at position `Σ_{i<k} instanceCount(blas_i) + j` the record made from instance `j` of
the `k`-th Blas and from the `k`-th build record, and has length `Σ instanceCount(blas)`; the
instance count reported after `setScene` is that length reduced to 32 bits. -/
theorem fillInstanceDesc_stream (s : ProceduralScene) (prev : List InstanceDesc) (rayCount : Nat)
    (mpBlas : Buffer) (hb : s.mpBlas = some mpBlas)
    (hlen : s.mBlasData.length = s.mTlas.length) :
    ∃ out, fillInstanceDesc s prev rayCount = .ok out ∧
      fillInstanceDesc s [] rayCount = .ok out ∧
      out.length = totalInstanceCount s.mTlas ∧
      getInstanceCount (setScene s s.mTlas) = u32 out.length ∧
      ∀ k g j inst, s.mTlas[k]? = some g → g.mInstances[j]? = some inst →
        ∃ bd c, s.mBlasData[k]? = some bd ∧
          out[instanceCountBefore s.mTlas k + j]? =
            some (setInstance (blasInstanceDesc mpBlas.gpuAddress bd c) inst) := by
  refine ⟨_, fillInstanceDesc_eq s prev rayCount mpBlas hb (le_of_eq hlen),
    fillInstanceDesc_eq s [] rayCount mpBlas hb (le_of_eq hlen),
    instanceStream_length _ _ _ _ _ hlen, ?_, ?_⟩
  · simp [getInstanceCount, setScene, setSceneLoop_zero, instanceStream_length _ _ _ _ _ hlen]
  · intro k g j inst hg hinst
    have hk : k < s.mBlasData.length := by
      rw [hlen]; exact (List.getElem?_eq_some_iff.mp hg).1
    exact ⟨s.mBlasData[k], _, List.getElem?_eq_getElem hk,
      instanceStream_getElem? _ _ _ _ 0 k j _ g inst (List.getElem?_eq_getElem hk) hg hinst⟩

/-- Witness for C2: scenario B of the specification after its first build. -/
theorem fillInstanceDesc_stream_witness :
    (builtScene exampleBackend scenarioB 2).mpBlas =
        some { id := 4, size := 1024, gpuAddress := 327680 } ∧
      (builtScene exampleBackend scenarioB 2).mBlasData.length =
        (builtScene exampleBackend scenarioB 2).mTlas.length ∧
      ∃ out, fillInstanceDesc (builtScene exampleBackend scenarioB 2) [InstanceDesc.zero] 2 =
          .ok out ∧
        fillInstanceDesc (builtScene exampleBackend scenarioB 2) [] 2 = .ok out ∧
        out.length = totalInstanceCount (builtScene exampleBackend scenarioB 2).mTlas ∧
        getInstanceCount (setScene (builtScene exampleBackend scenarioB 2)
          (builtScene exampleBackend scenarioB 2).mTlas) = u32 out.length ∧
        ∀ k g j inst, (builtScene exampleBackend scenarioB 2).mTlas[k]? = some g →
          g.mInstances[j]? = some inst →
          ∃ bd c, (builtScene exampleBackend scenarioB 2).mBlasData[k]? = some bd ∧
            out[instanceCountBefore (builtScene exampleBackend scenarioB 2).mTlas k + j]? =
              some (setInstance (blasInstanceDesc 327680 bd c) inst) :=
  ⟨rfl, by decide,
    fillInstanceDesc_stream (builtScene exampleBackend scenarioB 2) [InstanceDesc.zero] 2
      { id := 4, size := 1024, gpuAddress := 327680 } rfl (by decide)⟩

/-- Counterexample to C2 as stated: for a scene with one build record for its one Blas group and
2^32 instances the stream has 2^32 records while the instance count reported after `setScene` is
0; and for scenario A right after `initGeomDesc`, with its one build record but no Blas buffer yet,
`fillInstanceDesc` stops at its first assertion. -/
theorem fillInstanceDesc_length_exceeds_count :
    (∃ out, fillInstanceDesc (replicatedScene 4294967296) [] 1 = .ok out ∧
      out.length = 4294967296 ∧
      getInstanceCount (setScene (replicatedScene 4294967296)
        (replicatedScene 4294967296).mTlas) = 0) ∧
      (sceneWithGeometry exampleBackend scenarioA).1.mBlasData.length =
        (sceneWithGeometry exampleBackend scenarioA).1.mTlas.length ∧
      fillInstanceDesc (sceneWithGeometry exampleBackend scenarioA).1 [] 1 =
        .error (Fault.assertion 427) := by
  have htotal : ∀ n, totalInstanceCount (replicatedScene n).mTlas = n := by
    intro n
    simp [replicatedScene, totalInstanceCount]
  have hlen : ∀ n, (replicatedScene n).mBlasData.length = (replicatedScene n).mTlas.length :=
    fun _ => rfl
  refine ⟨⟨_, fillInstanceDesc_eq _ [] 1 { id := 0, size := 0, gpuAddress := 65536 } rfl
    (le_of_eq (hlen _)), ?_, ?_⟩, rfl, rfl⟩
  · rw [instanceStream_length _ _ _ _ _ (hlen _), htotal]
  · rw [(setSceneLoop_counts _ _).2, htotal]
    rfl

/-- C9 (as amended): when the Blas buffer exists and every build record has its Blas group, the
record `fillInstanceDesc` emits for instance `j` of Blas `k` carries the 64-bit sum of the Blas
buffer address and the `blasByteOffset` of build record `k`, the instance mask and flags reduced to
8 bits, the instance identifier reduced to 24 bits, and a `Transform` whose entry `(r, c)` is the
entry at row `r`, column `c` of the placement matrix. -/
theorem fillInstanceDesc_record (s : ProceduralScene) (prev : List InstanceDesc) (rayCount : Nat)
    (mpBlas : Buffer) (hb : s.mpBlas = some mpBlas)
    (hlen : s.mBlasData.length ≤ s.mTlas.length) :
    ∃ out, fillInstanceDesc s prev rayCount = .ok out ∧
      ∀ k bd g j inst, s.mBlasData[k]? = some bd → s.mTlas[k]? = some g →
        g.mInstances[j]? = some inst →
        ∃ d, out[instanceCountBefore s.mTlas k + j]? = some d ∧
          d.AccelerationStructure = u64 (mpBlas.gpuAddress + bd.blasByteOffset) ∧
          d.InstanceMask = bits8 inst.mMask ∧
          d.Flags = bits8 inst.mFlags ∧
          d.InstanceID = bits24 inst.mID ∧
          ∀ (r : Fin 3) (c : Fin 4),
            d.Transform.entry r c = inst.mTransformMtx.entry r.castSucc c := by
  refine ⟨_, fillInstanceDesc_eq s prev rayCount mpBlas hb hlen, ?_⟩
  intro k bd g j inst hbd hg hinst
  refine ⟨_, instanceStream_getElem? _ _ _ _ 0 k j bd g inst hbd hg hinst, rfl, rfl, rfl, rfl, ?_⟩
  intro r c
  fin_cases r <;> fin_cases c <;> rfl

/-- Witness for C9: scenario A of the specification after its first build. -/
theorem fillInstanceDesc_record_witness :
    (builtScene exampleBackend scenarioA 1).mpBlas =
        some { id := 4, size := 512, gpuAddress := 327680 } ∧
      (builtScene exampleBackend scenarioA 1).mBlasData.length ≤
        (builtScene exampleBackend scenarioA 1).mTlas.length ∧
      ∃ out, fillInstanceDesc (builtScene exampleBackend scenarioA 1) [] 1 = .ok out ∧
        ∀ k bd g j inst, (builtScene exampleBackend scenarioA 1).mBlasData[k]? = some bd →
          (builtScene exampleBackend scenarioA 1).mTlas[k]? = some g →
          g.mInstances[j]? = some inst →
          ∃ d, out[instanceCountBefore (builtScene exampleBackend scenarioA 1).mTlas k + j]? =
              some d ∧
            d.AccelerationStructure = u64 (327680 + bd.blasByteOffset) ∧
            d.InstanceMask = bits8 inst.mMask ∧
            d.Flags = bits8 inst.mFlags ∧
            d.InstanceID = bits24 inst.mID ∧
            ∀ (r : Fin 3) (c : Fin 4),
              d.Transform.entry r c = inst.mTransformMtx.entry r.castSucc c :=
  ⟨rfl, by decide,
    fillInstanceDesc_record (builtScene exampleBackend scenarioA 1) [] 1
      { id := 4, size := 512, gpuAddress := 327680 } rfl (by decide)⟩

/-- Counterexample to C9 as stated: an instance with `mID = 2^24` and `mMask = 0x100` yields a
record with `InstanceID = 0` and `InstanceMask = 0`. -/
theorem fillInstanceDesc_fields_truncated :
    ∃ g inst d,
      (builtScene exampleBackend wideFieldScene 1).mTlas[0]? = some g ∧
        g.mInstances[0]? = some inst ∧
        fillInstanceDesc (builtScene exampleBackend wideFieldScene 1) [] 1 = .ok [d] ∧
        inst.mID = 16777216 ∧ d.InstanceID = 0 ∧
        inst.mMask = 256 ∧ d.InstanceMask = 0 :=
  ⟨_, _, _, rfl, rfl, rfl, rfl, rfl, rfl, rfl⟩

/-! ## `initGeomDesc` -/

theorem modifyAt_append_last {α : Type} (f : α → α) (l : List α) (b : α) :
    modifyAt f (l ++ [b]) l.length = .ok (l ++ [f b]) := by
  induction l with
  | nil => rfl
  | cons a rest ih => simp [modifyAt, ih]

theorem geomDescLoop_eq (addr : Nat) (geoms : List Geometry) (l : List BlasData) (b : BlasData)
    (off : Nat) :
    geomDescLoop addr l.length geoms (l ++ [b]) off =
      .ok (l ++ [{ b with geomDescs := b.geomDescs ++ geomDescList addr geoms off }],
        offsetAfter geoms off) := by
  induction geoms generalizing b off with
  | nil => simp [geomDescLoop, geomDescList, offsetAfter]
  | cons g rest ih =>
    rw [geomDescLoop, modifyAt_append_last]
    simp only
    rw [ih]
    simp [geomDescList, offsetAfter]

theorem blasDescLoop_eq (addr : Nat) (groups : List Blas) (l : List BlasData) (off : Nat)
    (hlen : l.length + groups.length ≤ 2147483647) :
    ∃ off', blasDescLoop addr groups l.length l off =
      .ok (l ++ blasRecordList addr groups off, off') := by
  induction groups generalizing l off with
  | nil => exact ⟨off, by simp [blasDescLoop, blasRecordList]⟩
  | cons g rest ih =>
    rw [blasDescLoop, geomDescLoop_eq]
    simp only
    rw [List.length_cons] at hlen
    rw [if_pos (by omega)]
    obtain ⟨off', h⟩ := ih (l ++ [{ BlasData.init with
      geomDescs := BlasData.init.geomDescs ++ geomDescList addr g.mGeometries off }])
      (offsetAfter g.mGeometries off)
      (by rw [List.length_append, List.length_singleton]; omega)
    rw [List.length_append, List.length_singleton] at h
    refine ⟨off', ?_⟩
    rw [h]
    simp [blasRecordList, BlasData.init]

/-- Past `2^31 - 1` Blas groups the `int` index of the second loop nest overflows. -/
theorem blasDescLoop_overflow (addr : Nat) (groups : List Blas) (l : List BlasData) (off : Nat)
    (hl : l.length ≤ 2147483647) (hlen : 2147483647 < l.length + groups.length) :
    blasDescLoop addr groups l.length l off = .error Fault.signedOverflow := by
  induction groups generalizing l off with
  | nil => simp only [List.length_nil] at hlen; omega
  | cons g rest ih =>
    rw [blasDescLoop, geomDescLoop_eq]
    simp only
    rw [List.length_cons] at hlen
    by_cases hi : l.length < 2147483647
    · rw [if_pos hi]
      have h := ih (l ++ [{ BlasData.init with
        geomDescs := BlasData.init.geomDescs ++ geomDescList addr g.mGeometries off }])
        (offsetAfter g.mGeometries off)
        (by rw [List.length_append, List.length_singleton]; omega)
        (by rw [List.length_append, List.length_singleton]; omega)
      rw [List.length_append, List.length_singleton] at h
      exact h
    · rw [if_neg hi]

theorem blasRecordList_length (addr : Nat) (groups : List Blas) (off : Nat) :
    (blasRecordList addr groups off).length = groups.length := by
  induction groups generalizing off with
  | nil => rfl
  | cons g rest ih => simp [blasRecordList, ih]

/-- With more than `2^31 - 1` Blas groups `initGeomDesc` does not complete: the `int` index of its
second loop nest overflows. -/
theorem initGeomDesc_overflow (be : Backend) (gpu : Gpu) (s : ProceduralScene)
    (hempty : s.mBlasData = []) (hgroups : 2147483647 < s.mTlas.length) :
    initGeomDesc be gpu s = .error Fault.signedOverflow := by
  unfold initGeomDesc
  simp only [hempty]
  have h := blasDescLoop_overflow (Buffer.create be gpu
    (u64 (sizeofAABB * (collectAABBs be s.mTlas []).length))
    (BlobData.aabbs (collectAABBs be s.mTlas []))).1.gpuAddress s.mTlas [] 0
    (by simp) (by simpa using hgroups)
  simp only [List.length_nil] at h
  rw [h]

/-- A completed `initGeomDesc` on a scene without build records had at most `2^31 - 1` Blas
groups. -/
theorem initGeomDesc_groups (be : Backend) (gpu : Gpu) (s s' : ProceduralScene) (gpu' : Gpu)
    (hempty : s.mBlasData = []) (h : initGeomDesc be gpu s = .ok (s', gpu')) :
    s.mTlas.length ≤ 2147483647 := by
  by_contra hgt
  rw [initGeomDesc_overflow be gpu s hempty (by omega)] at h
  cases h

/-- What `initGeomDesc` does when no build record exists yet and the Blas groups are at most
`2^31 - 1`. -/
theorem initGeomDesc_eq (be : Backend) (gpu : Gpu) (s : ProceduralScene)
    (hempty : s.mBlasData = []) (hgroups : s.mTlas.length ≤ 2147483647) :
    initGeomDesc be gpu s =
      .ok ({ s with
             mpGeometryBuffer := some (Buffer.create be gpu
               (u64 (sizeofAABB * (collectAABBs be s.mTlas []).length))
               (BlobData.aabbs (collectAABBs be s.mTlas []))).1
             mBlasData := blasRecordList (Buffer.create be gpu
               (u64 (sizeofAABB * (collectAABBs be s.mTlas []).length))
               (BlobData.aabbs (collectAABBs be s.mTlas []))).1.gpuAddress s.mTlas 0 },
        (Buffer.create be gpu (u64 (sizeofAABB * (collectAABBs be s.mTlas []).length))
          (BlobData.aabbs (collectAABBs be s.mTlas []))).2.issue
          (Command.resourceBarrier (Buffer.create be gpu
            (u64 (sizeofAABB * (collectAABBs be s.mTlas []).length))
            (BlobData.aabbs (collectAABBs be s.mTlas []))).1.id)) := by
  unfold initGeomDesc
  simp only [hempty]
  obtain ⟨off', h⟩ := blasDescLoop_eq (Buffer.create be gpu
    (u64 (sizeofAABB * (collectAABBs be s.mTlas []).length))
    (BlobData.aabbs (collectAABBs be s.mTlas []))).1.gpuAddress s.mTlas [] 0
    (by simpa using hgroups)
  simp only [List.length_nil, List.nil_append] at h
  rw [h]

/-! ## Alignment -/

theorem u64_lt (n : Nat) : u64 n < 18446744073709551616 := by
  unfold u64; omega

theorem u64_of_lt {n : Nat} (h : n < 18446744073709551616) : u64 n = n := Nat.mod_eq_of_lt h

theorem u64_u64_add (a b : Nat) : u64 (u64 a + b) = u64 (a + b) := by
  unfold u64; omega

theorem u64_add_u64 (a b : Nat) : u64 (a + u64 b) = u64 (a + b) := by
  unfold u64; omega

theorem align_to_dvd (v : Nat) : 256 ∣ align_to 256 v := by
  unfold align_to u64; omega

theorem alignUp_dvd (v : Nat) : 256 ∣ alignUp 256 v := by
  unfold alignUp; omega

theorem le_alignUp (v : Nat) : v ≤ alignUp 256 v := by
  unfold alignUp; omega

theorem align_to_eq_alignUp {v : Nat} (h : alignUp 256 v < 18446744073709551616) :
    align_to 256 v = alignUp 256 v := by
  unfold align_to alignUp u64 at *; omega

theorem u64_dvd {n : Nat} (h : 256 ∣ n) : 256 ∣ u64 n := by
  unfold u64; omega

theorem sum_take_le (l : List Nat) (k : Nat) : (l.take k).sum ≤ l.sum := by
  induction l generalizing k with
  | nil => simp
  | cons a rest ih =>
    cases k with
    | zero => simp
    | succ k => simpa using ih k

theorem sum_take_succ_le (l : List Nat) (k : Nat) (x : Nat) (h : l[k]? = some x) :
    (l.take k).sum + x ≤ l.sum := by
  induction l generalizing k with
  | nil => simp at h
  | cons a rest ih =>
    cases k with
    | zero => simp at h; subst h; simp
    | succ k =>
      simp at h
      have := ih k h
      simp; omega

theorem sum_take_mono (l : List Nat) {k k' : Nat} (x : Nat) (h : l[k]? = some x) (hk : k < k') :
    (l.take k).sum + x ≤ (l.take k').sum := by
  induction l generalizing k k' with
  | nil => simp at h
  | cons a rest ih =>
    cases k' with
    | zero => omega
    | succ k' =>
      cases k with
      | zero => simp at h; subst h; simp
      | succ k =>
        simp at h
        have := ih h (by omega : k < k')
        simp; omega

theorem dvd_sum_of_forall (l : List Nat) (h : ∀ x ∈ l, 256 ∣ x) : 256 ∣ l.sum := by
  induction l with
  | nil => simp
  | cons a rest ih =>
    simp only [List.sum_cons]
    exact Nat.dvd_add (h a (by simp)) (ih (fun x hx => h x (by simp [hx])))

theorem mem_take {α : Type} {l : List α} {k : Nat} {x : α} (h : x ∈ l.take k) : x ∈ l :=
  List.mem_of_mem_take h


/-! ## The loops of the one-time pass -/

theorem compactLoop_cons (a d : Nat) (b : BlasData) (rest : List BlasData) (off : Nat) :
    compactLoop a d (b :: rest) off =
      ({ b with blasByteOffset := off } ::
          (compactLoop a d rest (u64 (off + align_to 256 b.blasByteSize))).1,
        copyCommand a d off b ::
          (compactLoop a d rest (u64 (off + align_to 256 b.blasByteSize))).2.1,
        (compactLoop a d rest (u64 (off + align_to 256 b.blasByteSize))).2.2) := by
  rw [compactLoop]
  rfl

theorem compactLoop_length (a d : Nat) (bds : List BlasData) (off : Nat) :
    (compactLoop a d bds off).1.length = bds.length ∧
      (compactLoop a d bds off).2.1.length = bds.length := by
  induction bds generalizing off with
  | nil => simp [compactLoop]
  | cons b rest ih => simp [compactLoop_cons, ih]

theorem compactLoop_getElem? (a d : Nat) (bds : List BlasData) (off k : Nat) (bd : BlasData)
    (hoff : off < 18446744073709551616) (h : bds[k]? = some bd) :
    (compactLoop a d bds off).1[k]? =
        some { bd with blasByteOffset := u64 (off + ((paddedBlasSizes bds).take k).sum) } ∧
      (compactLoop a d bds off).2.1[k]? =
        some (copyCommand a d (u64 (off + ((paddedBlasSizes bds).take k).sum)) bd) := by
  induction bds generalizing off k with
  | nil => simp at h
  | cons b rest ih =>
    rw [compactLoop_cons]
    cases k with
    | zero =>
      simp at h
      subst h
      simp [u64_of_lt hoff]
    | succ k =>
      simp only [List.getElem?_cons_succ] at h ⊢
      have := ih (u64 (off + align_to 256 b.blasByteSize)) k (u64_lt _) h
      rw [this.1, this.2]
      simp [paddedBlasSizes, u64_u64_add, Nat.add_assoc,
        D3D12_RAYTRACING_ACCELERATION_STRUCTURE_BYTE_ALIGNMENT]

theorem compactLoop_final (a d : Nat) (bds : List BlasData) (off : Nat)
    (hoff : off < 18446744073709551616) :
    (compactLoop a d bds off).2.2 = u64 (off + (paddedBlasSizes bds).sum) := by
  induction bds generalizing off with
  | nil => simp [compactLoop, paddedBlasSizes, u64_of_lt hoff]
  | cons b rest ih =>
    rw [compactLoop_cons]
    simp only
    rw [ih _ (u64_lt _)]
    simp [paddedBlasSizes, u64_u64_add, Nat.add_assoc,
      D3D12_RAYTRACING_ACCELERATION_STRUCTURE_BYTE_ALIGNMENT]

theorem compactLoop_sizes (a d : Nat) (bds : List BlasData) (off : Nat) :
    paddedBlasSizes (compactLoop a d bds off).1 = paddedBlasSizes bds := by
  induction bds generalizing off with
  | nil => simp [compactLoop]
  | cons b rest ih =>
    rw [compactLoop_cons]
    simp only [paddedBlasSizes, List.map_cons] at ih ⊢
    rw [ih]

theorem readbackLoop_cons_ok (be : Backend) (cmds : List Command) (addr : Nat) (b : BlasData)
    (rest : List BlasData) (i t : Nat) (out : List BlasData) (total : Nat)
    (h : readbackLoop be cmds addr (b :: rest) i t = .ok (out, total)) :
    ∃ rest',
      out =
        { b with
          blasByteSize := readPostbuild be cmds (u64 (addr + i * postBuildInfoSize)) } :: rest' ∧
      readPostbuild be cmds (u64 (addr + i * postBuildInfoSize)) ≤
        b.prebuildInfo.ResultDataMaxSizeInBytes ∧
      readbackLoop be cmds addr rest (i + 1)
        (u64 (t + align_to 256 (readPostbuild be cmds (u64 (addr + i * postBuildInfoSize))))) =
          .ok (rest', total) := by
  rw [readbackLoop] at h
  simp only [D3D12_RAYTRACING_ACCELERATION_STRUCTURE_BYTE_ALIGNMENT] at h
  split at h
  · rename_i hle
    split at h
    · cases h
    · rename_i rest' total' heq
      simp only [Except.ok.injEq, Prod.mk.injEq] at h
      exact ⟨rest', h.1.symm, hle, by rw [heq, h.2]⟩
  · cases h

/-- What a completed read-back loop leaves: every record keeps its fields except `blasByteSize`,
which is the value read and is at most the prebuild maximum. -/
theorem readbackLoop_getElem? (be : Backend) (cmds : List Command) (addr : Nat)
    (bds : List BlasData) (i t : Nat) (out : List BlasData) (total : Nat)
    (h : readbackLoop be cmds addr bds i t = .ok (out, total)) (k : Nat) (bd : BlasData)
    (hk : bds[k]? = some bd) :
    out[k]? =
        some { bd with
               blasByteSize := readPostbuild be cmds (u64 (addr + (i + k) * postBuildInfoSize)) } ∧
      readPostbuild be cmds (u64 (addr + (i + k) * postBuildInfoSize)) ≤
        bd.prebuildInfo.ResultDataMaxSizeInBytes := by
  induction bds generalizing i t out k with
  | nil => simp at hk
  | cons b rest ih =>
    obtain ⟨rest', hout, hle, hrest⟩ := readbackLoop_cons_ok be cmds addr b rest i t out total h
    subst hout
    cases k with
    | zero =>
      simp at hk
      subst hk
      exact ⟨by simp, by simpa using hle⟩
    | succ k =>
      simp only [List.getElem?_cons_succ] at hk ⊢
      have := ih (i + 1) _ rest' hrest k hk
      rw [show i + (k + 1) = i + 1 + k by omega]
      exact this

theorem readbackLoop_length (be : Backend) (cmds : List Command) (addr : Nat)
    (bds : List BlasData) (i t : Nat) (out : List BlasData) (total : Nat)
    (h : readbackLoop be cmds addr bds i t = .ok (out, total)) : out.length = bds.length := by
  induction bds generalizing i t out with
  | nil =>
    simp [readbackLoop] at h
    simp [h.1.symm]
  | cons b rest ih =>
    obtain ⟨rest', hout, _, hrest⟩ := readbackLoop_cons_ok be cmds addr b rest i t out total h
    subst hout
    simp [ih _ _ _ hrest]

theorem readbackLoop_total (be : Backend) (cmds : List Command) (addr : Nat)
    (bds : List BlasData) (i t : Nat) (out : List BlasData) (total : Nat)
    (ht : t < 18446744073709551616)
    (h : readbackLoop be cmds addr bds i t = .ok (out, total)) :
    total = u64 (t + (paddedBlasSizes out).sum) := by
  induction bds generalizing i t out with
  | nil =>
    simp [readbackLoop] at h
    obtain ⟨h1, h2⟩ := h
    subst h1 h2
    simp [paddedBlasSizes, u64_of_lt ht]
  | cons b rest ih =>
    obtain ⟨rest', hout, _, hrest⟩ := readbackLoop_cons_ok be cmds addr b rest i t out total h
    subst hout
    rw [ih _ _ _ (u64_lt _) hrest]
    simp [paddedBlasSizes, u64_u64_add, Nat.add_assoc,
      D3D12_RAYTRACING_ACCELERATION_STRUCTURE_BYTE_ALIGNMENT]


theorem prepareLoop_cons (be : Backend) (m : UpdateMode) (b : BlasData) (rest : List BlasData)
    (tm ts : Nat) :
    prepareLoop be m (b :: rest) tm ts =
      (prepareBlas be m b tm ts ::
          (prepareLoop be m rest
            (u64 (tm + align_to 256 (prepareBlas be m b tm ts).prebuildInfo.ResultDataMaxSizeInBytes))
            (u64 (ts + align_to 256 (scratchSize (prepareBlas be m b tm ts))))).1,
        (prepareLoop be m rest
            (u64 (tm + align_to 256 (prepareBlas be m b tm ts).prebuildInfo.ResultDataMaxSizeInBytes))
            (u64 (ts + align_to 256 (scratchSize (prepareBlas be m b tm ts))))).2) := by
  rw [prepareLoop]
  rfl

theorem prepareLoop_length (be : Backend) (m : UpdateMode) (bds : List BlasData) (tm ts : Nat) :
    (prepareLoop be m bds tm ts).1.length = bds.length := by
  induction bds generalizing tm ts with
  | nil => simp [prepareLoop]
  | cons b rest ih => simp [prepareLoop_cons, ih]

theorem prepareLoop_getElem? (be : Backend) (m : UpdateMode) (bds : List BlasData) (tm ts k : Nat)
    (bd : BlasData) (htm : tm < 18446744073709551616) (hts : ts < 18446744073709551616)
    (h : bds[k]? = some bd) :
    (prepareLoop be m bds tm ts).1[k]? =
      some (prepareBlas be m bd
        (u64 (tm + ((paddedMaxSizes (prepareLoop be m bds tm ts).1).take k).sum))
        (u64 (ts + ((paddedScratchSizes (prepareLoop be m bds tm ts).1).take k).sum))) := by
  induction bds generalizing tm ts k with
  | nil => simp at h
  | cons b rest ih =>
    rw [prepareLoop_cons]
    cases k with
    | zero =>
      simp at h
      subst h
      simp [u64_of_lt htm, u64_of_lt hts]
    | succ k =>
      simp only [List.getElem?_cons_succ] at h ⊢
      rw [ih _ _ k (u64_lt _) (u64_lt _) h]
      simp [paddedMaxSizes, paddedScratchSizes, u64_u64_add, Nat.add_assoc,
        D3D12_RAYTRACING_ACCELERATION_STRUCTURE_BYTE_ALIGNMENT]

theorem prepareLoop_totals (be : Backend) (m : UpdateMode) (bds : List BlasData) (tm ts : Nat)
    (htm : tm < 18446744073709551616) (hts : ts < 18446744073709551616) :
    (prepareLoop be m bds tm ts).2 =
      (u64 (tm + (paddedMaxSizes (prepareLoop be m bds tm ts).1).sum),
        u64 (ts + (paddedScratchSizes (prepareLoop be m bds tm ts).1).sum)) := by
  induction bds generalizing tm ts with
  | nil => simp [prepareLoop, paddedMaxSizes, paddedScratchSizes, u64_of_lt htm, u64_of_lt hts]
  | cons b rest ih =>
    rw [prepareLoop_cons]
    simp only
    rw [ih _ _ (u64_lt _) (u64_lt _)]
    simp [paddedMaxSizes, paddedScratchSizes, u64_u64_add, Nat.add_assoc,
      D3D12_RAYTRACING_ACCELERATION_STRUCTURE_BYTE_ALIGNMENT]

theorem growBuffer_spec (be : Backend) (gpu : Gpu) (cur : Option Buffer) (size : Nat) :
    size ≤ (growBuffer be gpu cur size).1.size ∧
      gpu.nextId ≤ (growBuffer be gpu cur size).2.nextId ∧
      ∃ c, (growBuffer be gpu cur size).2.cmds = gpu.cmds ++ [c] ∧
        buildsOf [c] = [] ∧ copiesOf [c] = [] ∧
        (cur = some (growBuffer be gpu cur size).1 ∨
          c = Command.createBuffer (growBuffer be gpu cur size).1 BlobData.none) := by
  unfold growBuffer
  cases cur with
  | none => simp [Buffer.create, buildsOf, copiesOf]
  | some b =>
    by_cases hlt : b.size < size
    · simp [hlt, Buffer.create, buildsOf, copiesOf]
    · simp [hlt, Gpu.issue, buildsOf, copiesOf]
      omega

/-- The stages of a completed one-time pass. -/
theorem buildBlasOnce_ok (be : Backend) (gpu : Gpu) (s s' : ProceduralScene) (gpu' : Gpu)
    (h : buildBlasOnce be gpu s = .ok (s', gpu')) :
    ∃ blas1 totalMax totalScratch scratch gpu1 dest gpu2 pb gpu3 blas2 total mpBlas gpu6,
      prepareLoop be s.mBlasUpdateMode s.mBlasData 0 0 = (blas1, totalMax, totalScratch) ∧
      growBuffer be gpu s.mpBlasScratch totalScratch = (scratch, gpu1) ∧
      Buffer.create be gpu1 totalMax BlobData.none = (dest, gpu2) ∧
      Buffer.create be gpu2 (u64 (blas1.length * postBuildInfoSize)) BlobData.none = (pb, gpu3) ∧
      readbackLoop be
        (gpu3.cmds ++ buildLoop scratch.gpuAddress dest.gpuAddress pb.gpuAddress blas1 0 ++
          [Command.flush]) pb.gpuAddress blas1 0 0 = .ok (blas2, total) ∧
      growBuffer be
        { cmds := gpu3.cmds ++ buildLoop scratch.gpuAddress dest.gpuAddress pb.gpuAddress blas1 0 ++
            [Command.flush], nextId := gpu3.nextId } s.mpBlas total = (mpBlas, gpu6) ∧
      s' = { updateRaytracingStats
              { s with
                mBlasData := (compactLoop mpBlas.gpuAddress dest.gpuAddress blas2 0).1
                mpBlasScratch := if s.mHasSkinnedMesh then some scratch else none
                mpBlas := some mpBlas } with mRebuildBlas := false } ∧
      gpu' = { cmds := gpu6.cmds ++ [Command.uavBarrier dest.id] ++
                 (compactLoop mpBlas.gpuAddress dest.gpuAddress blas2 0).2.1 ++
                 [Command.uavBarrier mpBlas.id],
               nextId := gpu6.nextId } := by
  rcases hP : prepareLoop be s.mBlasUpdateMode s.mBlasData 0 0 with ⟨blas1, totalMax, totalScratch⟩
  rcases hS : growBuffer be gpu s.mpBlasScratch totalScratch with ⟨scratch, gpu1⟩
  rcases hD : Buffer.create be gpu1 totalMax BlobData.none with ⟨dest, gpu2⟩
  rcases hB : Buffer.create be gpu2 (u64 (blas1.length * postBuildInfoSize)) BlobData.none with
    ⟨pb, gpu3⟩
  simp only [buildBlasOnce, hP, hS, hD, hB, Gpu.issue] at h
  split at h
  · cases h
  · rename_i blas2 total hR
    rcases hG : growBuffer be
      { cmds := gpu3.cmds ++ buildLoop scratch.gpuAddress dest.gpuAddress pb.gpuAddress blas1 0 ++
          [Command.flush], nextId := gpu3.nextId } s.mpBlas total with ⟨mpBlas, gpu6⟩
    simp only [hG] at h
    rcases hC : compactLoop mpBlas.gpuAddress dest.gpuAddress blas2 0 with ⟨blas3, copies, off⟩
    simp only [hC] at h
    split at h
    · cases h
    · simp only [Except.ok.injEq, Prod.mk.injEq] at h
      refine ⟨blas1, totalMax, totalScratch, scratch, gpu1, dest, gpu2, pb, gpu3, blas2, total,
        mpBlas, gpu6, rfl, hS, hD, hB, hR, hG, ?_, ?_⟩
      · rw [← h.1, hC]
        cases s.mHasSkinnedMesh <;> rfl
      · rw [← h.2, hC]


theorem paddedBlasSizes_of_fit (l : List BlasData)
    (hfit : (l.map (fun b => alignUp 256 b.blasByteSize)).sum < 18446744073709551616) :
    paddedBlasSizes l = l.map (fun b => alignUp 256 b.blasByteSize) := by
  induction l with
  | nil => rfl
  | cons b rest ih =>
    simp only [List.map_cons, List.sum_cons] at hfit
    have h1 : alignUp 256 b.blasByteSize < 18446744073709551616 := by omega
    have h2 := ih (by omega)
    simp only [paddedBlasSizes, List.map_cons] at h2 ⊢
    rw [h2]
    simp [D3D12_RAYTRACING_ACCELERATION_STRUCTURE_BYTE_ALIGNMENT, align_to_eq_alignUp h1]

theorem paddedBlasSizes_getElem? (l : List BlasData) (k : Nat) (bd : BlasData)
    (h : l[k]? = some bd) : (paddedBlasSizes l)[k]? = some (align_to 256 bd.blasByteSize) := by
  simp [paddedBlasSizes, h, D3D12_RAYTRACING_ACCELERATION_STRUCTURE_BYTE_ALIGNMENT]

theorem paddedBlasSizes_dvd (l : List BlasData) : ∀ x ∈ paddedBlasSizes l, 256 ∣ x := by
  intro x hx
  simp only [paddedBlasSizes, List.mem_map,
    D3D12_RAYTRACING_ACCELERATION_STRUCTURE_BYTE_ALIGNMENT] at hx
  obtain ⟨b, _, rfl⟩ := hx
  exact align_to_dvd _

/-- C4: after a completed one-time pass of `buildBlas` in which the padded final sizes, summed
exactly, fit 64 bits, the Blas buffer exists and is at least as large as the sum of the padded
sizes `Σ align_to(256, blasByteSize_i)`; the `blasByteOffset` of the `k`-th record is the sum of
the padded sizes of the records before it and a multiple of 256; and the byte range
`[blasByteOffset, blasByteOffset + blasByteSize)` of a record ends inside the buffer and before
the range of every later record begins. -/
theorem buildBlas_final_offsets (be : Backend) (gpu : Gpu) (s s' : ProceduralScene) (gpu' : Gpu)
    (hflag : s.mRebuildBlas = true) (h : buildBlas be gpu s = .ok (s', gpu'))
    (hfit : (s'.mBlasData.map (fun b => alignUp 256 b.blasByteSize)).sum <
      18446744073709551616) :
    ∃ mpBlas, s'.mpBlas = some mpBlas ∧
      (paddedBlasSizes s'.mBlasData).sum ≤ mpBlas.size ∧
      s'.mBlasData.length = s.mBlasData.length ∧
      ∀ k bd, s'.mBlasData[k]? = some bd →
        bd.blasByteOffset = ((paddedBlasSizes s'.mBlasData).take k).sum ∧
        256 ∣ bd.blasByteOffset ∧
        bd.blasByteOffset + bd.blasByteSize ≤ mpBlas.size ∧
        ∀ k' bd', k < k' → s'.mBlasData[k']? = some bd' →
          bd.blasByteOffset + bd.blasByteSize ≤ bd'.blasByteOffset := by
  simp only [buildBlas, hflag, if_true] at h
  obtain ⟨blas1, totalMax, totalScratch, scratch, gpu1, dest, gpu2, pb, gpu3, blas2, total,
    mpBlas, gpu6, hP, hS, hD, hB, hR, hG, hs', _⟩ := buildBlasOnce_ok be gpu s s' gpu' h
  have hdata : s'.mBlasData = (compactLoop mpBlas.gpuAddress dest.gpuAddress blas2 0).1 := by
    rw [hs']; rfl
  have hmp : s'.mpBlas = some mpBlas := by rw [hs']; rfl
  have hsizes : paddedBlasSizes s'.mBlasData = paddedBlasSizes blas2 := by
    rw [hdata, compactLoop_sizes]
  have hexact := paddedBlasSizes_of_fit s'.mBlasData hfit
  have hsum : (paddedBlasSizes s'.mBlasData).sum < 18446744073709551616 := by
    rw [hexact]; exact hfit
  have htotal : total = (paddedBlasSizes s'.mBlasData).sum := by
    rw [readbackLoop_total be _ _ _ _ _ _ _ (by decide) hR, Nat.zero_add, ← hsizes,
      u64_of_lt hsum]
  have hsize : (paddedBlasSizes s'.mBlasData).sum ≤ mpBlas.size := by
    have := (growBuffer_spec be
      { cmds := gpu3.cmds ++ buildLoop scratch.gpuAddress dest.gpuAddress pb.gpuAddress blas1 0 ++
          [Command.flush], nextId := gpu3.nextId } s.mpBlas total).1
    rw [hG] at this
    rw [← htotal]; exact this
  have hlen2 : blas2.length = blas1.length := readbackLoop_length be _ _ _ _ _ _ _ hR
  have hlen3 : s'.mBlasData.length = blas2.length := by
    rw [hdata]; exact (compactLoop_length _ _ _ _).1
  have hlen1 : blas1.length = s.mBlasData.length := by
    have := prepareLoop_length be s.mBlasUpdateMode s.mBlasData 0 0
    rw [hP] at this; exact this
  -- the offset and size of record `k`
  have hrec : ∀ k bd, s'.mBlasData[k]? = some bd →
      bd.blasByteOffset = ((paddedBlasSizes s'.mBlasData).take k).sum ∧
        bd.blasByteSize ≤ align_to 256 bd.blasByteSize := by
    intro k bd hk
    have hklt : k < blas2.length := by
      rw [← hlen3]; exact (List.getElem?_eq_some_iff.mp hk).1
    have h2 : blas2[k]? = some blas2[k] := List.getElem?_eq_getElem hklt
    have h3 := (compactLoop_getElem? mpBlas.gpuAddress dest.gpuAddress blas2 0 k _
      (by decide) h2).1
    rw [← hdata, hk, Nat.zero_add, ← hsizes] at h3
    have hpre : ((paddedBlasSizes s'.mBlasData).take k).sum < 18446744073709551616 :=
      lt_of_le_of_lt (sum_take_le _ _) hsum
    rw [u64_of_lt hpre] at h3
    have hbd := Option.some.inj h3
    have hmem : alignUp 256 bd.blasByteSize ∈ s'.mBlasData.map (fun b => alignUp 256 b.blasByteSize) :=
      List.mem_map.mpr ⟨bd, List.getElem?_mem hk, rfl⟩
    have hlt : alignUp 256 bd.blasByteSize < 18446744073709551616 :=
      lt_of_le_of_lt (List.single_le_sum (by simp) _ hmem) hfit
    refine ⟨by rw [hbd], ?_⟩
    rw [align_to_eq_alignUp hlt]
    exact le_alignUp _
  refine ⟨mpBlas, hmp, hsize, by rw [hlen3, hlen2, hlen1], ?_⟩
  intro k bd hk
  obtain ⟨hoff, hle⟩ := hrec k bd hk
  have hpad := paddedBlasSizes_getElem? _ k bd hk
  refine ⟨hoff, ?_, ?_, ?_⟩
  · rw [hoff]
    exact dvd_sum_of_forall _ (fun x hx => paddedBlasSizes_dvd _ x (List.mem_of_mem_take hx))
  · have := sum_take_succ_le _ k _ hpad
    omega
  · intro k' bd' hkk' hk'
    rw [(hrec k' bd' hk').1, hoff]
    have := sum_take_mono _ _ hpad hkk'
    omega

/-! ## The command stream of the one-time pass -/

theorem buildsOf_append (l₁ l₂ : List Command) :
    buildsOf (l₁ ++ l₂) = buildsOf l₁ ++ buildsOf l₂ := by
  induction l₁ with
  | nil => rfl
  | cons c rest ih => cases c <;> simp [buildsOf, ih]

theorem copiesOf_append (l₁ l₂ : List Command) :
    copiesOf (l₁ ++ l₂) = copiesOf l₁ ++ copiesOf l₂ := by
  induction l₁ with
  | nil => rfl
  | cons c rest ih => cases c <;> simp [copiesOf, ih]

theorem buffersCreatedBy_append (l₁ l₂ : List Command) :
    buffersCreatedBy (l₁ ++ l₂) = buffersCreatedBy l₁ ++ buffersCreatedBy l₂ := by
  induction l₁ with
  | nil => rfl
  | cons c rest ih => cases c <;> simp [buffersCreatedBy, ih]

theorem copiesOf_buildLoop (sa da pa : Nat) (bds : List BlasData) (off : Nat) :
    copiesOf (buildLoop sa da pa bds off) = [] := by
  induction bds generalizing off with
  | nil => rfl
  | cons b rest ih => simp [buildLoop, firstBuildCommand, copiesOf, ih]

theorem buildsOf_buildLoop_length (sa da pa : Nat) (bds : List BlasData) (off : Nat) :
    (buildsOf (buildLoop sa da pa bds off)).length = bds.length := by
  induction bds generalizing off with
  | nil => rfl
  | cons b rest ih => simp [buildLoop, firstBuildCommand, buildsOf, ih]

theorem buildsOf_buildLoop_getElem? (sa da pa : Nat) (bds : List BlasData) (off k : Nat)
    (bd : BlasData) (hoff : off < 18446744073709551616) (h : bds[k]? = some bd) :
    (buildsOf (buildLoop sa da pa bds off))[k]? =
      some (firstBuildDesc sa da bd,
        some (firstPostbuildDesc pa (u64 (off + k * postBuildInfoSize)) bd)) := by
  induction bds generalizing off k with
  | nil => simp at h
  | cons b rest ih =>
    simp only [buildLoop, firstBuildCommand, buildsOf]
    cases k with
    | zero =>
      simp at h
      subst h
      simp [u64_of_lt hoff]
    | succ k =>
      simp only [List.getElem?_cons_succ] at h ⊢
      rw [ih _ k (u64_lt _) h, u64_u64_add]
      congr 5
      ring

theorem buildsOf_compactLoop (a d : Nat) (bds : List BlasData) (off : Nat) :
    buildsOf (compactLoop a d bds off).2.1 = [] := by
  induction bds generalizing off with
  | nil => rfl
  | cons b rest ih => simp [compactLoop_cons, copyCommand, buildsOf, ih]

theorem copiesOf_compactLoop_length (a d : Nat) (bds : List BlasData) (off : Nat) :
    (copiesOf (compactLoop a d bds off).2.1).length = bds.length := by
  induction bds generalizing off with
  | nil => rfl
  | cons b rest ih => simp [compactLoop_cons, copyCommand, copiesOf, ih]

theorem copiesOf_compactLoop_getElem? (a d : Nat) (bds : List BlasData) (off k : Nat)
    (bd : BlasData) (hoff : off < 18446744073709551616) (h : bds[k]? = some bd) :
    (copiesOf (compactLoop a d bds off).2.1)[k]? =
      some (u64 (a + u64 (off + ((paddedBlasSizes bds).take k).sum)),
        u64 (d + bd.blasByteOffset),
        if bd.useCompaction then CopyMode.COMPACT else CopyMode.CLONE) := by
  induction bds generalizing off k with
  | nil => simp at h
  | cons b rest ih =>
    rw [compactLoop_cons]
    simp only [copyCommand, copiesOf]
    cases k with
    | zero =>
      simp at h
      subst h
      simp [u64_of_lt hoff]
    | succ k =>
      simp only [List.getElem?_cons_succ] at h ⊢
      rw [ih _ k (u64_lt _) h]
      simp [paddedBlasSizes, u64_u64_add, Nat.add_assoc,
        D3D12_RAYTRACING_ACCELERATION_STRUCTURE_BYTE_ALIGNMENT]

/-- The records and commands of a completed one-time pass, per Blas. -/
theorem buildBlasOnce_trace (be : Backend) (gpu : Gpu) (s s' : ProceduralScene) (gpu' : Gpu)
    (h : buildBlasOnce be gpu s = .ok (s', gpu')) :
    ∃ scratch dest pb mpBlas : Buffer,
      (s.mpBlasScratch = some scratch ∨
        scratch ∈ buffersCreatedBy (gpu'.cmds.drop gpu.cmds.length)) ∧
      (prepareLoop be s.mBlasUpdateMode s.mBlasData 0 0).2.2 ≤ scratch.size ∧
      s'.mpBlasScratch = (if s.mHasSkinnedMesh then some scratch else none) ∧
      s'.mpBlas = some mpBlas ∧
      s'.mBlasData.length = s.mBlasData.length ∧
      (buildsOf (gpu'.cmds.drop gpu.cmds.length)).length = s.mBlasData.length ∧
      (copiesOf (gpu'.cmds.drop gpu.cmds.length)).length = s.mBlasData.length ∧
      ∀ k b1, (prepareLoop be s.mBlasUpdateMode s.mBlasData 0 0).1[k]? = some b1 →
        ∃ size off,
          s'.mBlasData[k]? = some { b1 with blasByteSize := size, blasByteOffset := off } ∧
          size ≤ b1.prebuildInfo.ResultDataMaxSizeInBytes ∧
          (buildsOf (gpu'.cmds.drop gpu.cmds.length))[k]? =
            some (firstBuildDesc scratch.gpuAddress dest.gpuAddress b1,
              some (firstPostbuildDesc pb.gpuAddress (u64 (k * postBuildInfoSize)) b1)) ∧
          (copiesOf (gpu'.cmds.drop gpu.cmds.length))[k]? =
            some (u64 (mpBlas.gpuAddress + off), u64 (dest.gpuAddress + b1.blasByteOffset),
              if b1.useCompaction then CopyMode.COMPACT else CopyMode.CLONE) := by
  obtain ⟨blas1, totalMax, totalScratch, scratch, gpu1, dest, gpu2, pb, gpu3, blas2, total,
    mpBlas, gpu6, hP, hS, hD, hB, hR, hG, hs', hgpu'⟩ := buildBlasOnce_ok be gpu s s' gpu' h
  obtain ⟨hS1, _, c1, hS3, hS4, hS5, hS6⟩ := growBuffer_spec be gpu s.mpBlasScratch totalScratch
  obtain ⟨_, _, c2, hG3, hG4, hG5, _⟩ := growBuffer_spec be
    { cmds := gpu3.cmds ++ buildLoop scratch.gpuAddress dest.gpuAddress pb.gpuAddress blas1 0 ++
        [Command.flush], nextId := gpu3.nextId } s.mpBlas total
  rw [hS] at hS1 hS3 hS6
  rw [hG] at hG3
  simp only at hS1 hS3 hS6 hG3
  have hgpu2 : gpu2.cmds = gpu1.cmds ++ [Command.createBuffer dest BlobData.none] := by
    have h1 := congrArg Prod.fst hD
    have h2 := congrArg Prod.snd hD
    simp only [Buffer.create] at h1 h2
    rw [← h2, ← h1]
  have hgpu3 : gpu3.cmds = gpu2.cmds ++ [Command.createBuffer pb BlobData.none] := by
    have h1 := congrArg Prod.fst hB
    have h2 := congrArg Prod.snd hB
    simp only [Buffer.create] at h1 h2
    rw [← h2, ← h1]
  have hcmds : gpu'.cmds = gpu.cmds ++ ([c1] ++ [Command.createBuffer dest BlobData.none] ++
      [Command.createBuffer pb BlobData.none] ++
      buildLoop scratch.gpuAddress dest.gpuAddress pb.gpuAddress blas1 0 ++ [Command.flush] ++
      [c2] ++ [Command.uavBarrier dest.id] ++
      (compactLoop mpBlas.gpuAddress dest.gpuAddress blas2 0).2.1 ++
      [Command.uavBarrier mpBlas.id]) := by
    rw [hgpu', hG3, hgpu3, hgpu2, hS3]
    simp
  have hnew := congrArg (List.drop gpu.cmds.length) hcmds
  rw [List.drop_left] at hnew
  have hbuilds : buildsOf (gpu'.cmds.drop gpu.cmds.length) =
      buildsOf (buildLoop scratch.gpuAddress dest.gpuAddress pb.gpuAddress blas1 0) := by
    rw [hnew]
    simp only [buildsOf_append, hS4, hG4, buildsOf_compactLoop, buildsOf, List.nil_append,
      List.append_nil]
  have hcopies : copiesOf (gpu'.cmds.drop gpu.cmds.length) =
      copiesOf (compactLoop mpBlas.gpuAddress dest.gpuAddress blas2 0).2.1 := by
    rw [hnew]
    simp only [copiesOf_append, hS5, hG5, copiesOf_buildLoop, copiesOf, List.nil_append,
      List.append_nil]
  have hdata : s'.mBlasData = (compactLoop mpBlas.gpuAddress dest.gpuAddress blas2 0).1 := by
    rw [hs']; rfl
  have hlen2 : blas2.length = blas1.length := readbackLoop_length be _ _ _ _ _ _ _ hR
  have hlen1 : blas1.length = s.mBlasData.length := by
    have := prepareLoop_length be s.mBlasUpdateMode s.mBlasData 0 0
    rw [hP] at this; exact this
  refine ⟨scratch, dest, pb, mpBlas, ?_, ?_, ?_, ?_, ?_, ?_, ?_, ?_⟩
  · rcases hS6 with hcur | hc
    · exact Or.inl hcur
    · right
      rw [hnew, hc]
      simp only [buffersCreatedBy_append, buffersCreatedBy, List.cons_append, List.nil_append,
        List.mem_cons, true_or]
  · rw [hP]; exact hS1
  · rw [hs']; rfl
  · rw [hs']; rfl
  · rw [hdata, (compactLoop_length _ _ _ _).1, hlen2, hlen1]
  · rw [hbuilds, buildsOf_buildLoop_length, hlen1]
  · rw [hcopies, copiesOf_compactLoop_length, hlen2, hlen1]
  · intro k b1 hk
    rw [hP] at hk
    simp only at hk
    obtain ⟨hr1, hr2⟩ := readbackLoop_getElem? be _ _ _ _ _ _ _ hR k b1 hk
    obtain ⟨hc1, _⟩ := compactLoop_getElem? mpBlas.gpuAddress dest.gpuAddress blas2 0 k _
      (by decide) hr1
    refine ⟨readPostbuild be
        (gpu3.cmds ++ buildLoop scratch.gpuAddress dest.gpuAddress pb.gpuAddress blas1 0 ++
          [Command.flush]) (u64 (pb.gpuAddress + (0 + k) * postBuildInfoSize)),
      u64 (0 + ((paddedBlasSizes blas2).take k).sum), ?_, hr2, ?_, ?_⟩
    · rw [hdata, hc1]
    · rw [hbuilds, buildsOf_buildLoop_getElem? _ _ _ _ 0 k b1 (by decide) hk, Nat.zero_add]
    · rw [hcopies, copiesOf_compactLoop_getElem? _ _ _ 0 k _ (by decide) hr1]

/-- Witness for C4: scenario B of the specification. -/
theorem buildBlas_final_offsets_witness :
    (sceneWithGeometry exampleBackend scenarioB).1.mRebuildBlas = true ∧
      buildBlas exampleBackend (sceneWithGeometry exampleBackend scenarioB).2
          (sceneWithGeometry exampleBackend scenarioB).1 =
        .ok ((sceneWithBlas exampleBackend scenarioB).1,
          (sceneWithBlas exampleBackend scenarioB).2) ∧
      ((sceneWithBlas exampleBackend scenarioB).1.mBlasData.map
        (fun b => alignUp 256 b.blasByteSize)).sum < 18446744073709551616 ∧
      ∃ mpBlas, (sceneWithBlas exampleBackend scenarioB).1.mpBlas = some mpBlas ∧
        (paddedBlasSizes (sceneWithBlas exampleBackend scenarioB).1.mBlasData).sum ≤ mpBlas.size ∧
        (sceneWithBlas exampleBackend scenarioB).1.mBlasData.length =
          (sceneWithGeometry exampleBackend scenarioB).1.mBlasData.length ∧
        ∀ k bd, (sceneWithBlas exampleBackend scenarioB).1.mBlasData[k]? = some bd →
          bd.blasByteOffset =
            ((paddedBlasSizes (sceneWithBlas exampleBackend scenarioB).1.mBlasData).take k).sum ∧
          256 ∣ bd.blasByteOffset ∧
          bd.blasByteOffset + bd.blasByteSize ≤ mpBlas.size ∧
          ∀ k' bd', k < k' → (sceneWithBlas exampleBackend scenarioB).1.mBlasData[k']? = some bd' →
            bd.blasByteOffset + bd.blasByteSize ≤ bd'.blasByteOffset :=
  ⟨rfl, rfl, by decide,
    buildBlas_final_offsets exampleBackend (sceneWithGeometry exampleBackend scenarioB).2
      (sceneWithGeometry exampleBackend scenarioB).1 (sceneWithBlas exampleBackend scenarioB).1
      (sceneWithBlas exampleBackend scenarioB).2 rfl rfl (by decide)⟩

theorem map_eq_map_of_getElem? {α β γ : Type} (f : α → γ) (g : β → γ) (l₁ : List α)
    (l₂ : List β) (hlen : l₂.length = l₁.length)
    (h : ∀ (k : Nat) (a : α), l₁[k]? = some a → ∃ b : β, l₂[k]? = some b ∧ g b = f a) : l₂.map g = l₁.map f := by
  apply List.ext_getElem?
  intro k
  rw [List.getElem?_map, List.getElem?_map]
  cases h1 : l₁[k]? with
  | none =>
    have : l₂[k]? = none := by
      rw [List.getElem?_eq_none_iff] at h1 ⊢
      omega
    simp [this]
  | some a =>
    obtain ⟨b, hb, hgb⟩ := h k a h1
    simp [hb, hgb]

theorem aligned_layout (sizes : List Nat)
    (hfit : (sizes.map (alignUp 256)).sum < 18446744073709551616) :
    (sizes.map (align_to 256)).sum < 18446744073709551616 ∧
      ∀ k x, sizes[k]? = some x →
        256 ∣ ((sizes.map (align_to 256)).take k).sum ∧
        ((sizes.map (align_to 256)).take k).sum + x ≤ (sizes.map (align_to 256)).sum ∧
        ∀ k', k < k' →
          ((sizes.map (align_to 256)).take k).sum + x ≤ ((sizes.map (align_to 256)).take k').sum := by
  have hexact : sizes.map (align_to 256) = sizes.map (alignUp 256) := by
    apply List.map_congr_left
    intro x hx
    exact align_to_eq_alignUp
      (lt_of_le_of_lt (List.single_le_sum (by simp) _ (List.mem_map.mpr ⟨x, hx, rfl⟩)) hfit)
  refine ⟨by rw [hexact]; exact hfit, ?_⟩
  intro k x hx
  have hpad : (sizes.map (align_to 256))[k]? = some (align_to 256 x) := by simp [hx]
  have hle : x ≤ align_to 256 x := by
    have hmem : alignUp 256 x ∈ sizes.map (alignUp 256) :=
      List.mem_map.mpr ⟨x, List.getElem?_mem hx, rfl⟩
    rw [align_to_eq_alignUp (lt_of_le_of_lt (List.single_le_sum (by simp) _ hmem) hfit)]
    exact le_alignUp x
  refine ⟨?_, ?_, ?_⟩
  · apply dvd_sum_of_forall
    intro y hy
    obtain ⟨z, _, rfl⟩ := List.mem_map.mp (List.mem_of_mem_take hy)
    exact align_to_dvd z
  · have := sum_take_succ_le _ k _ hpad
    omega
  · intro k' hkk'
    have := sum_take_mono _ _ hpad hkk'
    omega


theorem hasFlag_blasBuildFlags (hasSkinnedMesh useCompaction : Bool) (m : UpdateMode) :
    hasFlag (blasBuildFlags hasSkinnedMesh useCompaction m) BUILD_FLAG_ALLOW_COMPACTION =
      useCompaction := by
  cases hasSkinnedMesh <;> cases useCompaction <;> cases m <;> rfl

/-- C8: in a completed one-time pass of `buildBlas` there is one build and one copy per Blas; the
`k`-th record gets the scene-wide update mode and
`useCompaction = !hasSkinnedMesh || updateMode != Rebuild`; the `k`-th build carries
`ALLOW_COMPACTION` exactly when `useCompaction` holds and requests the compacted size then and the
current size otherwise; the `k`-th copy uses mode `COMPACT` then and `CLONE` otherwise. -/
theorem buildBlas_compaction (be : Backend) (gpu : Gpu) (s s' : ProceduralScene) (gpu' : Gpu)
    (hflag : s.mRebuildBlas = true) (h : buildBlas be gpu s = .ok (s', gpu')) :
    (buildsOf (gpu'.cmds.drop gpu.cmds.length)).length = s.mBlasData.length ∧
      (copiesOf (gpu'.cmds.drop gpu.cmds.length)).length = s.mBlasData.length ∧
      ∀ (k : Nat) (bd0 : BlasData), s.mBlasData[k]? = some bd0 →
        ∃ (bd : BlasData) (desc : BuildDesc) (pb : PostbuildInfoDesc) (dest source : Nat)
            (mode : CopyMode),
          s'.mBlasData[k]? = some bd ∧
          bd.updateMode = s.mBlasUpdateMode ∧
          bd.useCompaction =
            (!bd0.hasSkinnedMesh || s.mBlasUpdateMode != UpdateMode.Rebuild) ∧
          (buildsOf (gpu'.cmds.drop gpu.cmds.length))[k]? = some (desc, some pb) ∧
          hasFlag desc.Inputs.Flags BUILD_FLAG_ALLOW_COMPACTION = bd.useCompaction ∧
          pb.InfoType =
            (if bd.useCompaction then PostbuildInfoType.COMPACTED_SIZE
             else PostbuildInfoType.CURRENT_SIZE) ∧
          (copiesOf (gpu'.cmds.drop gpu.cmds.length))[k]? = some (dest, source, mode) ∧
          mode = (if bd.useCompaction then CopyMode.COMPACT else CopyMode.CLONE) := by
  simp only [buildBlas, hflag, if_true] at h
  obtain ⟨scratch, dest, pb, mpBlas, _, _, _, _, _, hnb, hnc, hrec⟩ :=
    buildBlasOnce_trace be gpu s s' gpu' h
  refine ⟨hnb, hnc, ?_⟩
  intro k bd0 hk
  have h1 := prepareLoop_getElem? be s.mBlasUpdateMode s.mBlasData 0 0 k bd0 (by decide)
    (by decide) hk
  obtain ⟨size, off, hs', _, hb, hc⟩ := hrec k _ h1
  refine ⟨_, _, _, _, _, _, hs', rfl, rfl, hb, ?_, rfl, hc, rfl⟩
  exact hasFlag_blasBuildFlags _ _ _

/-- Witness for C8: scenario B of the specification. -/
theorem buildBlas_compaction_witness :
    (sceneWithGeometry exampleBackend scenarioB).1.mRebuildBlas = true ∧
      buildBlas exampleBackend (sceneWithGeometry exampleBackend scenarioB).2
          (sceneWithGeometry exampleBackend scenarioB).1 =
        .ok ((sceneWithBlas exampleBackend scenarioB).1,
          (sceneWithBlas exampleBackend scenarioB).2) ∧
      (buildsOf ((sceneWithBlas exampleBackend scenarioB).2.cmds.drop
        (sceneWithGeometry exampleBackend scenarioB).2.cmds.length)).length =
          (sceneWithGeometry exampleBackend scenarioB).1.mBlasData.length ∧
      (copiesOf ((sceneWithBlas exampleBackend scenarioB).2.cmds.drop
        (sceneWithGeometry exampleBackend scenarioB).2.cmds.length)).length =
          (sceneWithGeometry exampleBackend scenarioB).1.mBlasData.length ∧
      ∀ (k : Nat) (bd0 : BlasData),
        (sceneWithGeometry exampleBackend scenarioB).1.mBlasData[k]? = some bd0 →
        ∃ (bd : BlasData) (desc : BuildDesc) (pb : PostbuildInfoDesc) (dest source : Nat)
            (mode : CopyMode),
          (sceneWithBlas exampleBackend scenarioB).1.mBlasData[k]? = some bd ∧
          bd.updateMode = (sceneWithGeometry exampleBackend scenarioB).1.mBlasUpdateMode ∧
          bd.useCompaction =
            (!bd0.hasSkinnedMesh ||
              (sceneWithGeometry exampleBackend scenarioB).1.mBlasUpdateMode !=
                UpdateMode.Rebuild) ∧
          (buildsOf ((sceneWithBlas exampleBackend scenarioB).2.cmds.drop
            (sceneWithGeometry exampleBackend scenarioB).2.cmds.length))[k]? =
              some (desc, some pb) ∧
          hasFlag desc.Inputs.Flags BUILD_FLAG_ALLOW_COMPACTION = bd.useCompaction ∧
          pb.InfoType =
            (if bd.useCompaction then PostbuildInfoType.COMPACTED_SIZE
             else PostbuildInfoType.CURRENT_SIZE) ∧
          (copiesOf ((sceneWithBlas exampleBackend scenarioB).2.cmds.drop
            (sceneWithGeometry exampleBackend scenarioB).2.cmds.length))[k]? =
              some (dest, source, mode) ∧
          mode = (if bd.useCompaction then CopyMode.COMPACT else CopyMode.CLONE) :=
  ⟨rfl, rfl,
    buildBlas_compaction exampleBackend (sceneWithGeometry exampleBackend scenarioB).2
      (sceneWithGeometry exampleBackend scenarioB).1 (sceneWithBlas exampleBackend scenarioB).1
      (sceneWithBlas exampleBackend scenarioB).2 rfl rfl⟩

/-- C10 (as amended): in a completed one-time pass of `buildBlas` in which the padded scratch
sizes, summed exactly, fit 64 bits, the builds use one scratch buffer, the one the scene held or
one created in this pass, whose size is at least `Σ align_to(256, max(ScratchDataSizeInBytes,
UpdateScratchDataSizeInBytes))`; the scratch address of the `k`-th build is the buffer address plus
the `scratchByteOffset` of the `k`-th record, which is the sum of the padded scratch sizes of the
records before it and a multiple of 256; the scratch region of a record ends inside the buffer and
before the region of every later record begins. -/
theorem buildBlas_scratch_layout (be : Backend) (gpu : Gpu) (s s' : ProceduralScene) (gpu' : Gpu)
    (hflag : s.mRebuildBlas = true) (h : buildBlas be gpu s = .ok (s', gpu'))
    (hfit : (s'.mBlasData.map (fun b => alignUp 256 (scratchSize b))).sum <
      18446744073709551616) :
    ∃ scratch : Buffer,
      (s.mpBlasScratch = some scratch ∨
        scratch ∈ buffersCreatedBy (gpu'.cmds.drop gpu.cmds.length)) ∧
      (buildsOf (gpu'.cmds.drop gpu.cmds.length)).map
          (fun c => c.1.ScratchAccelerationStructureData) =
        s'.mBlasData.map (fun b => u64 (scratch.gpuAddress + b.scratchByteOffset)) ∧
      (paddedScratchSizes s'.mBlasData).sum ≤ scratch.size ∧
      ∀ k bd, s'.mBlasData[k]? = some bd →
        bd.scratchByteOffset = ((paddedScratchSizes s'.mBlasData).take k).sum ∧
        256 ∣ bd.scratchByteOffset ∧
        bd.scratchByteOffset + scratchSize bd ≤ scratch.size ∧
        ∀ k' bd', k < k' → s'.mBlasData[k']? = some bd' →
          bd.scratchByteOffset + scratchSize bd ≤ bd'.scratchByteOffset := by
  simp only [buildBlas, hflag, if_true] at h
  obtain ⟨scratch, dest, pb, mpBlas, horigin, hsize, _, _, hlen, hnb, _, hrec⟩ :=
    buildBlasOnce_trace be gpu s s' gpu' h
  have hlen1 := prepareLoop_length be s.mBlasUpdateMode s.mBlasData 0 0
  -- the final records keep the scratch data of the prepared records
  have hpadded : paddedScratchSizes s'.mBlasData =
      paddedScratchSizes (prepareLoop be s.mBlasUpdateMode s.mBlasData 0 0).1 := by
    apply map_eq_map_of_getElem? _ _ _ _ (by rw [hlen, hlen1])
    intro k b1 hk
    obtain ⟨size, off, hs', _⟩ := hrec k b1 hk
    exact ⟨_, hs', rfl⟩
  have hmapmap : paddedScratchSizes s'.mBlasData =
      (s'.mBlasData.map scratchSize).map (align_to 256) := by
    simp [paddedScratchSizes, D3D12_RAYTRACING_ACCELERATION_STRUCTURE_BYTE_ALIGNMENT]
  have hfit' : ((s'.mBlasData.map scratchSize).map (alignUp 256)).sum <
      18446744073709551616 := by
    simpa [List.map_map] using hfit
  obtain ⟨hsum, hlayout⟩ := aligned_layout (s'.mBlasData.map scratchSize) hfit'
  rw [← hmapmap] at hsum hlayout
  have htotal : (prepareLoop be s.mBlasUpdateMode s.mBlasData 0 0).2.2 =
      (paddedScratchSizes s'.mBlasData).sum := by
    rw [prepareLoop_totals be _ _ 0 0 (by decide) (by decide)]
    simp only [Nat.zero_add]
    rw [← hpadded, u64_of_lt hsum]
  -- record `k` of the final records
  have hfinal : ∀ k bd, s'.mBlasData[k]? = some bd →
      bd.scratchByteOffset = ((paddedScratchSizes s'.mBlasData).take k).sum ∧
        (buildsOf (gpu'.cmds.drop gpu.cmds.length))[k]?.map
            (fun c => c.1.ScratchAccelerationStructureData) =
          some (u64 (scratch.gpuAddress + bd.scratchByteOffset)) := by
    intro k bd hk
    have hklt : k < s.mBlasData.length := by
      rw [← hlen]; exact (List.getElem?_eq_some_iff.mp hk).1
    have h0 : s.mBlasData[k]? = some s.mBlasData[k] := List.getElem?_eq_getElem hklt
    have h1 := prepareLoop_getElem? be s.mBlasUpdateMode s.mBlasData 0 0 k _ (by decide)
      (by decide) h0
    obtain ⟨size, off, hs', _, hb, _⟩ := hrec k _ h1
    rw [hk] at hs'
    have hbd := Option.some.inj hs'
    have hpre : ((paddedScratchSizes s'.mBlasData).take k).sum < 18446744073709551616 :=
      lt_of_le_of_lt (sum_take_le _ _) hsum
    constructor
    · rw [hbd]
      simp only [prepareBlas, Nat.zero_add]
      rw [← hpadded, u64_of_lt hpre]
    · rw [hb, hbd]
      rfl
  refine ⟨scratch, horigin, ?_, ?_, ?_⟩
  · apply List.ext_getElem?
    intro k
    rw [List.getElem?_map, List.getElem?_map]
    cases hk : s'.mBlasData[k]? with
    | some bd => rw [(hfinal k bd hk).2]; rfl
    | none =>
      have : (buildsOf (gpu'.cmds.drop gpu.cmds.length))[k]? = none := by
        rw [List.getElem?_eq_none_iff] at hk ⊢
        omega
      rw [this]; rfl
  · rw [← htotal]; exact hsize
  · intro k bd hk
    have hx : (s'.mBlasData.map scratchSize)[k]? = some (scratchSize bd) := by simp [hk]
    obtain ⟨hdvd, hin, hnext⟩ := hlayout k _ hx
    obtain ⟨hoff, _⟩ := hfinal k bd hk
    refine ⟨hoff, by rw [hoff]; exact hdvd, ?_, ?_⟩
    · rw [hoff, ← htotal] at *
      omega
    · intro k' bd' hkk' hk'
      rw [hoff, (hfinal k' bd' hk').1]
      exact hnext k' hkk'

/-- Witness for C10: scenario B of the specification. -/
theorem buildBlas_scratch_layout_witness :
    (sceneWithGeometry exampleBackend scenarioB).1.mRebuildBlas = true ∧
      buildBlas exampleBackend (sceneWithGeometry exampleBackend scenarioB).2
          (sceneWithGeometry exampleBackend scenarioB).1 =
        .ok ((sceneWithBlas exampleBackend scenarioB).1,
          (sceneWithBlas exampleBackend scenarioB).2) ∧
      ((sceneWithBlas exampleBackend scenarioB).1.mBlasData.map
        (fun b => alignUp 256 (scratchSize b))).sum < 18446744073709551616 ∧
      ∃ scratch : Buffer,
        ((sceneWithGeometry exampleBackend scenarioB).1.mpBlasScratch = some scratch ∨
          scratch ∈ buffersCreatedBy ((sceneWithBlas exampleBackend scenarioB).2.cmds.drop
            (sceneWithGeometry exampleBackend scenarioB).2.cmds.length)) ∧
        (buildsOf ((sceneWithBlas exampleBackend scenarioB).2.cmds.drop
            (sceneWithGeometry exampleBackend scenarioB).2.cmds.length)).map
            (fun c => c.1.ScratchAccelerationStructureData) =
          (sceneWithBlas exampleBackend scenarioB).1.mBlasData.map
            (fun b => u64 (scratch.gpuAddress + b.scratchByteOffset)) ∧
        (paddedScratchSizes (sceneWithBlas exampleBackend scenarioB).1.mBlasData).sum ≤
          scratch.size ∧
        ∀ k bd, (sceneWithBlas exampleBackend scenarioB).1.mBlasData[k]? = some bd →
          bd.scratchByteOffset =
            ((paddedScratchSizes (sceneWithBlas exampleBackend scenarioB).1.mBlasData).take
              k).sum ∧
          256 ∣ bd.scratchByteOffset ∧
          bd.scratchByteOffset + scratchSize bd ≤ scratch.size ∧
          ∀ k' bd', k < k' →
            (sceneWithBlas exampleBackend scenarioB).1.mBlasData[k']? = some bd' →
            bd.scratchByteOffset + scratchSize bd ≤ bd'.scratchByteOffset :=
  ⟨rfl, rfl, by decide,
    buildBlas_scratch_layout exampleBackend (sceneWithGeometry exampleBackend scenarioB).2
      (sceneWithGeometry exampleBackend scenarioB).1 (sceneWithBlas exampleBackend scenarioB).1
      (sceneWithBlas exampleBackend scenarioB).2 rfl rfl (by decide)⟩

/-- Counterexample to C10 as stated: when the backend reports 2^63 bytes of scratch for each of two
Blas, the padded sizes sum to 2^64, the scratch buffer created for the builds has size 0, and the
second build is given the scratch address 2^63 bytes past the start of that buffer. -/
theorem buildBlas_scratch_total_wraps :
    ∃ scratch rest,
      buildBlas hugeScratchBackend (sceneWithGeometry hugeScratchBackend scenarioB).2
          (sceneWithGeometry hugeScratchBackend scenarioB).1 =
        .ok ((sceneWithBlas hugeScratchBackend scenarioB).1,
          (sceneWithBlas hugeScratchBackend scenarioB).2) ∧
      (sceneWithGeometry hugeScratchBackend scenarioB).1.mpBlasScratch = none ∧
      buffersCreatedBy ((sceneWithBlas hugeScratchBackend scenarioB).2.cmds.drop
        (sceneWithGeometry hugeScratchBackend scenarioB).2.cmds.length) = scratch :: rest ∧
      (buildsOf ((sceneWithBlas hugeScratchBackend scenarioB).2.cmds.drop
          (sceneWithGeometry hugeScratchBackend scenarioB).2.cmds.length)).map
          (fun c => c.1.ScratchAccelerationStructureData) =
        [scratch.gpuAddress + 0, scratch.gpuAddress + 9223372036854775808] ∧
      (sceneWithBlas hugeScratchBackend scenarioB).1.mBlasData.map
          (fun b => (b.scratchByteOffset, scratchSize b)) =
        [(0, 9223372036854775808), (9223372036854775808, 9223372036854775808)] ∧
      (paddedScratchSizes (sceneWithBlas hugeScratchBackend scenarioB).1.mBlasData).sum =
        18446744073709551616 ∧
      scratch.size = 0 :=
  ⟨_, _, rfl, rfl, rfl, rfl, rfl, rfl, rfl⟩

/-! ## The descriptors written by `initGeomDesc` -/

theorem geomDescList_startAddress (addr : Nat) (geoms : List Geometry) (off : Nat)
    (d : GeometryDesc) (h : d ∈ geomDescList addr geoms off) : d.StartAddress = addr := by
  induction geoms generalizing off with
  | nil => simp [geomDescList] at h
  | cons g rest ih =>
    simp only [geomDescList, List.mem_cons] at h
    rcases h with rfl | h
    · rfl
    · exact ih _ h

theorem blasRecordList_startAddress (addr : Nat) (groups : List Blas) (off : Nat)
    (b : BlasData) (d : GeometryDesc) (hb : b ∈ blasRecordList addr groups off)
    (hd : d ∈ b.geomDescs) : d.StartAddress = addr := by
  induction groups generalizing off with
  | nil => simp [blasRecordList] at hb
  | cons g rest ih =>
    simp only [blasRecordList, List.mem_cons] at hb
    rcases hb with rfl | hb
    · exact geomDescList_startAddress addr _ _ d hd
    · exact ih _ hb

/-- Every descriptor written by `initGeomDesc` on a scene without build records starts at the
address of the geometry buffer, so its box 0 is read from the first box of the buffer. -/
theorem initGeomDesc_first_box_at_base (be : Backend) (gpu : Gpu) (s s' : ProceduralScene)
    (gpu' : Gpu) (hempty : s.mBlasData = []) (h : initGeomDesc be gpu s = .ok (s', gpu'))
    (b : BlasData) (d : GeometryDesc) (hb : b ∈ s'.mBlasData) (hd : d ∈ b.geomDescs) :
    ∃ buffer, s'.mpGeometryBuffer = some buffer ∧ d.boxAddress 0 = buffer.gpuAddress := by
  rw [initGeomDesc_eq be gpu s hempty (initGeomDesc_groups be gpu s s' gpu' hempty h)] at h
  simp only [Except.ok.injEq, Prod.mk.injEq] at h
  obtain ⟨hs, _⟩ := h
  subst hs
  refine ⟨_, rfl, ?_⟩
  simp only [GeometryDesc.boxAddress, Nat.zero_mul, Nat.add_zero]
  exact blasRecordList_startAddress _ _ _ b d hb hd

/-- C3, the code at scenario A of the specification (one geometry with two boxes): the descriptor
has `AABBCount = 2`, `StartAddress` equal to the address of the geometry buffer and
`StrideInBytes = 0`, so its box 1 is read at the buffer address itself and not 24 bytes
(`(0 + 1) × sizeof(D3D12_RAYTRACING_AABB)`) past it. -/
theorem initGeomDesc_stride_holds_offset :
    ∃ buffer d,
      initGeomDesc exampleBackend { cmds := [], nextId := 0 }
          (setScene ProceduralScene.create scenarioA) =
        .ok (sceneWithGeometry exampleBackend scenarioA) ∧
      (sceneWithGeometry exampleBackend scenarioA).1.mpGeometryBuffer = some buffer ∧
      (sceneWithGeometry exampleBackend scenarioA).1.mBlasData.map (fun b => b.geomDescs) =
        [[d]] ∧
      d.AABBCount = 2 ∧
      d.StartAddress = buffer.gpuAddress ∧
      d.StrideInBytes = 0 ∧
      d.boxAddress 1 = buffer.gpuAddress ∧
      d.boxAddress 1 ≠ buffer.gpuAddress + (0 + 1) * sizeofAABB :=
  ⟨_, _, rfl, rfl, rfl, rfl, rfl, rfl, rfl, by decide⟩

/-! ## The cache of top-level structures -/

theorem cacheFind_cacheAssign_self (c : List (Nat × TlasData)) (k : Nat) (v : TlasData) :
    cacheFind (cacheAssign c k v) k = some v := by
  induction c with
  | nil => simp [cacheAssign, cacheFind]
  | cons p rest ih =>
    obtain ⟨k', w⟩ := p
    by_cases hk : k' = k
    · simp [cacheAssign, cacheFind, hk]
    · simp [cacheAssign, cacheFind, hk, ih]

theorem cacheFind_cacheAssign_of_ne (c : List (Nat × TlasData)) (k k₁ : Nat) (v : TlasData)
    (hne : k₁ ≠ k) : cacheFind (cacheAssign c k v) k₁ = cacheFind c k₁ := by
  induction c with
  | nil =>
    have : ¬ k = k₁ := fun h => hne h.symm
    simp [cacheAssign, cacheFind, this]
  | cons p rest ih =>
    obtain ⟨k', w⟩ := p
    by_cases hk : k' = k
    · subst hk
      have : ¬ k' = k₁ := fun h => hne h.symm
      simp [cacheAssign, cacheFind, this]
    · by_cases hk1 : k' = k₁
      · subst hk1
        simp [cacheAssign, cacheFind, hk]
      · simp [cacheAssign, cacheFind, hk, hk1, ih]

theorem tlasScratchStep_ok (be : Backend) (gpu : Gpu) (s : ProceduralScene)
    (inputs : BuildInputs) (scratch : Buffer) (info : PrebuildInfo) (gpu1 : Gpu)
    (h : tlasScratchStep be gpu s inputs = .ok (scratch, info, gpu1)) :
    gpu.nextId ≤ gpu1.nextId := by
  unfold tlasScratchStep at h
  cases hsc : s.mpTlasScratch with
  | some b =>
    simp only [hsc, Except.ok.injEq, Prod.mk.injEq] at h
    rw [← h.2.2]
  | none =>
    simp only [hsc, Buffer.create] at h
    split at h
    · simp only [Except.ok.injEq, Prod.mk.injEq] at h
      rw [← h.2.2]
      simp
    · cases h

theorem tlasBufferStep_ok (be : Backend) (gpu : Gpu) (tlas : TlasData) (mpTlasScratch : Buffer)
    (info : PrebuildInfo) (inputs : BuildInputs) (descs : List InstanceDesc)
    (pTlas pInstanceDescs : Buffer) (source : Nat) (gpu2 : Gpu)
    (h : tlasBufferStep be gpu tlas mpTlasScratch info inputs descs =
      .ok (pTlas, pInstanceDescs, source, gpu2)) :
    gpu.nextId ≤ gpu2.nextId ∧
      (tlas.pTlas = none → pTlas.id = gpu.nextId ∧ gpu.nextId < gpu2.nextId) ∧
      (∀ b, tlas.pTlas = some b →
        pTlas = b ∧ tlas.pInstanceDescs = some pInstanceDescs ∧ gpu2.nextId = gpu.nextId) := by
  unfold tlasBufferStep at h
  cases hp : tlas.pTlas with
  | none =>
    cases hi : tlas.pInstanceDescs with
    | some b => simp [hp, hi] at h
    | none =>
      simp only [hp, hi, Buffer.create, Except.ok.injEq, Prod.mk.injEq] at h
      obtain ⟨h1, _, _, h4⟩ := h
      subst h1 h4
      refine ⟨by simp only; omega, fun _ => ⟨rfl, by simp only; omega⟩, ?_⟩
      intro b hb
      cases hb
  | some b =>
    cases hi : tlas.pInstanceDescs with
    | none => simp [hp, hi] at h
    | some c =>
      simp only [hp, hi, Gpu.issue, Except.ok.injEq, Prod.mk.injEq] at h
      obtain ⟨h1, h2, _, h4⟩ := h
      subst h1 h2 h4
      simp

theorem tlasSrvStep_spec (gpu : Gpu) (tlas : TlasData) (pTlas : Buffer) :
    gpu.nextId ≤ (tlasSrvStep gpu tlas pTlas).2.nextId ∧
      (tlas.pSrv = none →
        (tlasSrvStep gpu tlas pTlas).1.id = gpu.nextId ∧
          gpu.nextId < (tlasSrvStep gpu tlas pTlas).2.nextId) ∧
      (∀ v, tlas.pSrv = some v → tlasSrvStep gpu tlas pTlas = (v, gpu)) := by
  unfold tlasSrvStep
  cases hv : tlas.pSrv with
  | none => simp [createSrv]
  | some v => simp

/-- What a completed `buildTlas` leaves: the entry stored under the key has a result buffer, an
instance-descriptor buffer and a view; the other members named here are untouched; the instance
stream is not empty; and when the key had no entry, buffer and view are new objects. -/
theorem buildTlas_ok (be : Backend) (gpu : Gpu) (s s' : ProceduralScene) (gpu' : Gpu) (k : Nat)
    (h : buildTlas be gpu s k = .ok (s', gpu')) :
    ∃ (entry : TlasData) (pTlas pInstanceDescs : Buffer) (pSrv : ShaderResourceView),
      s'.mTlasCache = cacheAssign s.mTlasCache k entry ∧
      entry.pTlas = some pTlas ∧ entry.pInstanceDescs = some pInstanceDescs ∧
      entry.pSrv = some pSrv ∧ entry.updateMode = s.mTlasUpdateMode ∧
      s'.mBlasData = s.mBlasData ∧ s'.mTlas = s.mTlas ∧
      fillInstanceDesc s s.mInstanceDescs k = .ok s'.mInstanceDescs ∧
      s'.mInstanceDescs ≠ [] ∧
      gpu.nextId ≤ gpu'.nextId ∧
      (cacheFind s.mTlasCache k = none →
        gpu.nextId ≤ pTlas.id ∧ pTlas.id < gpu'.nextId ∧
        gpu.nextId ≤ pSrv.id ∧ pSrv.id < gpu'.nextId) ∧
      (∀ e, cacheFind s.mTlasCache k = some e →
        (∀ b, e.pTlas = some b → pTlas = b ∧ e.pInstanceDescs = some pInstanceDescs) ∧
        (∀ v, e.pSrv = some v → pSrv = v)) := by
  unfold buildTlas at h
  cases hfill : fillInstanceDesc s s.mInstanceDescs k with
  | error e => simp [hfill] at h
  | ok descs =>
    simp only [hfill] at h
    split at h
    · cases h
    · rename_i mpTlasScratch info gpu1 hscratch
      split at h
      · cases h
      · rename_i pTlas pInstanceDescs source gpu2 hbuffer
        split at h
        · cases h
        · rename_i hnum
          simp only [Except.ok.injEq, Prod.mk.injEq, Gpu.issue] at h
          obtain ⟨hs', hgpu'⟩ := h
          have h1 := tlasScratchStep_ok be gpu s _ _ _ _ hscratch
          obtain ⟨h2, h2none, h2some⟩ := tlasBufferStep_ok be gpu1 _ _ _ _ _ _ _ _ _ hbuffer
          obtain ⟨h3, h3none, h3some⟩ := tlasSrvStep_spec
            { cmds := gpu2.cmds ++ [Command.resourceBarrier pInstanceDescs.id] ++
                [Command.build (tlasBuildDesc (tlasInputs descs) mpTlasScratch pTlas
                  pInstanceDescs source) none] ++ [Command.uavBarrier pTlas.id],
              nextId := gpu2.nextId }
            { cachedOrDefault s k with updateMode := s.mTlasUpdateMode } pTlas
          simp only at h3 h3none h3some
          refine ⟨_, pTlas, pInstanceDescs, _, by rw [← hs'], rfl, rfl, rfl, rfl, by rw [← hs'],
            by rw [← hs'], by rw [← hs'], ?_, ?_, ?_, ?_⟩
          · rw [← hs']
            intro hnil
            simp only at hnil
            apply hnum
            simp [tlasInputs, hnil, u32]
          · rw [← hgpu']
            omega
          · intro hnone
            have hinit : cachedOrDefault s k = TlasData.init := by
              simp [cachedOrDefault, hnone]
            have hp := h2none (by rw [hinit]; rfl)
            have hv := h3none (by rw [hinit]; rfl)
            rw [← hgpu']
            omega
          · intro e he
            have hce : cachedOrDefault s k = e := by simp [cachedOrDefault, he]
            constructor
            · intro b hb
              have := h2some b (by rw [hce]; exact hb)
              exact ⟨this.1, by rw [← this.2.1, hce]⟩
            · intro v hv
              have := h3some v (by rw [hce]; exact hv)
              rw [this]


/-! ## Members left alone by `initGeomDesc` and `buildBlas` -/

theorem initGeomDesc_frame (be : Backend) (gpu : Gpu) (s s' : ProceduralScene) (gpu' : Gpu)
    (h : initGeomDesc be gpu s = .ok (s', gpu')) :
    s'.mTlasCache = s.mTlasCache ∧ s'.mTlas = s.mTlas ∧ gpu.nextId ≤ gpu'.nextId ∧
      (s.mBlasData = [] → s'.mBlasData.length = s.mTlas.length) := by
  refine ⟨?_, ?_, ?_, ?_⟩
  · unfold initGeomDesc at h
    simp only [Buffer.create, Gpu.issue] at h
    split at h
    · cases h
    · simp only [Except.ok.injEq, Prod.mk.injEq] at h
      rw [← h.1]
  · unfold initGeomDesc at h
    simp only [Buffer.create, Gpu.issue] at h
    split at h
    · cases h
    · simp only [Except.ok.injEq, Prod.mk.injEq] at h
      rw [← h.1]
  · unfold initGeomDesc at h
    simp only [Buffer.create, Gpu.issue] at h
    split at h
    · cases h
    · simp only [Except.ok.injEq, Prod.mk.injEq] at h
      rw [← h.2]
      simp
  · intro hempty
    rw [initGeomDesc_eq be gpu s hempty (initGeomDesc_groups be gpu s s' gpu' hempty h)] at h
    simp only [Except.ok.injEq, Prod.mk.injEq] at h
    rw [← h.1]
    exact blasRecordList_length _ _ _

theorem buildBlasSteady_ok (gpu : Gpu) (s s' : ProceduralScene) (gpu' : Gpu)
    (h : buildBlasSteady gpu s = .ok (s', gpu')) : s' = s ∧ gpu'.nextId = gpu.nextId := by
  unfold buildBlasSteady at h
  split at h
  · simp only [Except.ok.injEq, Prod.mk.injEq] at h
    exact ⟨h.1.symm, by rw [h.2]⟩
  · split at h
    · split at h
      · cases h
      · simp only [Except.ok.injEq, Prod.mk.injEq, Gpu.issue] at h
        exact ⟨h.1.symm, by rw [← h.2]⟩
    · cases h

theorem buildBlas_frame (be : Backend) (gpu : Gpu) (s s' : ProceduralScene) (gpu' : Gpu)
    (h : buildBlas be gpu s = .ok (s', gpu')) :
    s'.mTlasCache = s.mTlasCache ∧ s'.mTlas = s.mTlas ∧
      s'.mBlasData.length = s.mBlasData.length := by
  unfold buildBlas at h
  split at h
  · obtain ⟨_, _, _, _, _, _, _, _, hlen, _⟩ := buildBlasOnce_trace be gpu s s' gpu' h
    obtain ⟨_, _, _, _, _, _, _, _, _, _, _, _, _, _, _, _, _, _, _, hs', _⟩ :=
      buildBlasOnce_ok be gpu s s' gpu' h
    exact ⟨by rw [hs']; rfl, by rw [hs']; rfl, hlen⟩
  · obtain ⟨hs', _⟩ := buildBlasSteady_ok gpu s s' gpu' h
    rw [hs']
    exact ⟨rfl, rfl, rfl⟩

theorem totalInstanceCount_pos {t : Tlas} (h : 0 < totalInstanceCount t) : 0 < t.length := by
  cases t with
  | nil => simp [totalInstanceCount] at h
  | cons _ _ => simp

/-- The two ways a call of `setRaytracingShaderData` completes: a cache hit after the first-use
step, or a top-level build followed by a lookup. -/
theorem setRaytracingShaderData_ok (be : Backend) (gpu : Gpu) (s s' : ProceduralScene)
    (gpu' : Gpu) (k : Nat) (v : ShaderResourceView)
    (h : setRaytracingShaderData be gpu s k = .ok (s', gpu', v)) :
    ∃ s1 gpu1,
      ((s.mBlasData ≠ [] ∧ s1 = s ∧ gpu1 = gpu) ∨
        (s.mBlasData = [] ∧ ∃ s0 gpu0, initGeomDesc be gpu s = .ok (s0, gpu0) ∧
          buildBlas be gpu0 s0 = .ok (s1, gpu1))) ∧
      ((∃ e, cacheFind s1.mTlasCache k = some e ∧ e.pSrv = some v ∧ s' = s1 ∧ gpu' = gpu1) ∨
        (cacheFind s1.mTlasCache k = none ∧ buildTlas be gpu1 s1 k = .ok (s', gpu') ∧
          ∃ e, cacheFind s'.mTlasCache k = some e ∧ e.pSrv = some v)) := by
  unfold setRaytracingShaderData at h
  simp only at h
  split at h
  · cases h
  · rename_i s1 gpu1 hfirst
    refine ⟨s1, gpu1, ?_, ?_⟩
    · cases hb : s.mBlasData with
      | nil =>
        right
        simp only [hb, List.isEmpty_nil, if_true] at hfirst
        split at hfirst
        · cases hfirst
        · rename_i s0 gpu0 hinit
          exact ⟨rfl, s0, gpu0, hinit, hfirst⟩
      | cons b rest =>
        left
        simp only [hb, List.isEmpty_cons, Bool.false_eq_true, if_false, Except.ok.injEq,
          Prod.mk.injEq] at hfirst
        exact ⟨by simp, hfirst.1.symm, hfirst.2.symm⟩
    · split at h
      · cases h
      · rename_i hlookup
        split at hlookup
        · cases hlookup
        · cases h
      · rename_i s2 gpu2 entry hlookup
        split at h
        · cases h
        · rename_i pSrv hsrv
          simp only [Except.ok.injEq, Prod.mk.injEq] at h
          obtain ⟨hs, hg, hv⟩ := h
          subst hs hg hv
          split at hlookup
          · rename_i e he
            simp only [Except.ok.injEq, Prod.mk.injEq, Option.some.injEq] at hlookup
            obtain ⟨h1, h2, h3⟩ := hlookup
            subst h1 h2 h3
            exact Or.inl ⟨_, he, hsrv, rfl, rfl⟩
          · rename_i hnone
            split at hlookup
            · cases hlookup
            · rename_i s3 gpu3 hbuild
              simp only [Except.ok.injEq, Prod.mk.injEq] at hlookup
              obtain ⟨h1, h2, h3⟩ := hlookup
              subst h1 h2
              exact Or.inr ⟨hnone, hbuild, _, h3, hsrv⟩

theorem setRaytracingShaderData_hit (be : Backend) (gpu : Gpu) (s : ProceduralScene) (k : Nat)
    (e : TlasData) (v : ShaderResourceView) (hdata : s.mBlasData ≠ [])
    (he : cacheFind s.mTlasCache k = some e) (hv : e.pSrv = some v) :
    setRaytracingShaderData be gpu s k = .ok (s, gpu, v) := by
  unfold setRaytracingShaderData
  cases hb : s.mBlasData with
  | nil => exact absurd hb hdata
  | cons b rest => simp [he, hv]

theorem fillInstanceDesc_nonempty (s : ProceduralScene) (prev out : List InstanceDesc) (k : Nat)
    (h : fillInstanceDesc s prev k = .ok out) (hout : out ≠ []) : s.mBlasData ≠ [] := by
  intro hempty
  unfold fillInstanceDesc at h
  split at h
  · cases h
  · simp only [hempty, fillLoop, Except.ok.injEq] at h
    apply hout
    rw [← h]
    simp

/-- C6: for a scene with at least one instance, when a call of `setRaytracingShaderData` with
ray-type count `k` completes and binds the view `v`, the next call with the same `k` completes
with the same scene state and the same command stream and allocation counter (so it issues no
command and creates no object) and binds the same view `v`, which is the view of the cache entry
for `k`. -/
theorem setRaytracingShaderData_idempotent (be : Backend) (gpu : Gpu) (s s' : ProceduralScene)
    (gpu' : Gpu) (k : Nat) (v : ShaderResourceView) (hscene : 0 < totalInstanceCount s.mTlas)
    (h : setRaytracingShaderData be gpu s k = .ok (s', gpu', v)) :
    setRaytracingShaderData be gpu' s' k = .ok (s', gpu', v) ∧
      ∃ e, cacheFind s'.mTlasCache k = some e ∧ e.pSrv = some v := by
  obtain ⟨s1, gpu1, hfirst, hrest⟩ := setRaytracingShaderData_ok be gpu s s' gpu' k v h
  have hdata1 : s1.mBlasData ≠ [] := by
    rcases hfirst with ⟨hne, hs1, _⟩ | ⟨hempty, s0, gpu0, hinit, hblas⟩
    · rw [hs1]; exact hne
    · have h0 := (initGeomDesc_frame be gpu s s0 gpu0 hinit).2.2.2 hempty
      have h1 := (buildBlas_frame be gpu0 s0 s1 gpu1 hblas).2.2
      have hpos := totalInstanceCount_pos hscene
      intro hnil
      rw [hnil] at h1
      simp at h1
      omega
  have hfinal : s'.mBlasData ≠ [] ∧ ∃ e, cacheFind s'.mTlasCache k = some e ∧ e.pSrv = some v := by
    rcases hrest with ⟨e, he, hv, hs', _⟩ | ⟨_, hbuild, e, he, hv⟩
    · rw [hs']; exact ⟨hdata1, e, he, hv⟩
    · obtain ⟨_, _, _, _, _, _, _, _, _, hdata, _⟩ := buildTlas_ok be gpu1 s1 s' gpu' k hbuild
      exact ⟨by rw [hdata]; exact hdata1, e, he, hv⟩
  obtain ⟨hdata, e, he, hv⟩ := hfinal
  exact ⟨setRaytracingShaderData_hit be gpu' s' k e v hdata he hv, e, he, hv⟩

/-- Witness for C6: scenario A of the specification, first call on a fresh scene. -/
theorem setRaytracingShaderData_idempotent_witness :
    0 < totalInstanceCount (setScene ProceduralScene.create scenarioA).mTlas ∧
      setRaytracingShaderData exampleBackend { cmds := [], nextId := 0 }
          (setScene ProceduralScene.create scenarioA) 1 =
        .ok ((getResult exampleBackend { cmds := [], nextId := 0 }
            (setScene ProceduralScene.create scenarioA) 1).1,
          (getResult exampleBackend { cmds := [], nextId := 0 }
            (setScene ProceduralScene.create scenarioA) 1).2.1,
          { id := 8, resource := 6, location := 458752 }) ∧
      setRaytracingShaderData exampleBackend
          (getResult exampleBackend { cmds := [], nextId := 0 }
            (setScene ProceduralScene.create scenarioA) 1).2.1
          (getResult exampleBackend { cmds := [], nextId := 0 }
            (setScene ProceduralScene.create scenarioA) 1).1 1 =
        .ok ((getResult exampleBackend { cmds := [], nextId := 0 }
            (setScene ProceduralScene.create scenarioA) 1).1,
          (getResult exampleBackend { cmds := [], nextId := 0 }
            (setScene ProceduralScene.create scenarioA) 1).2.1,
          { id := 8, resource := 6, location := 458752 }) ∧
      ∃ e, cacheFind (getResult exampleBackend { cmds := [], nextId := 0 }
          (setScene ProceduralScene.create scenarioA) 1).1.mTlasCache 1 = some e ∧
        e.pSrv = some { id := 8, resource := 6, location := 458752 } :=
  ⟨by decide, rfl,
    setRaytracingShaderData_idempotent exampleBackend { cmds := [], nextId := 0 }
      (setScene ProceduralScene.create scenarioA)
      (getResult exampleBackend { cmds := [], nextId := 0 }
        (setScene ProceduralScene.create scenarioA) 1).1
      (getResult exampleBackend { cmds := [], nextId := 0 }
        (setScene ProceduralScene.create scenarioA) 1).2.1
      1 { id := 8, resource := 6, location := 458752 } (by decide) rfl⟩


theorem firstStep_cache (be : Backend) (gpu : Gpu) (s s1 : ProceduralScene) (gpu1 : Gpu)
    (h : (s.mBlasData ≠ [] ∧ s1 = s ∧ gpu1 = gpu) ∨
      (s.mBlasData = [] ∧ ∃ s0 gpu0, initGeomDesc be gpu s = .ok (s0, gpu0) ∧
        buildBlas be gpu0 s0 = .ok (s1, gpu1))) :
    s1.mTlasCache = s.mTlasCache := by
  rcases h with ⟨_, hs1, _⟩ | ⟨_, s0, gpu0, hinit, hblas⟩
  · rw [hs1]
  · rw [(buildBlas_frame be gpu0 s0 s1 gpu1 hblas).1, (initGeomDesc_frame be gpu s s0 gpu0 hinit).1]

/-- C7: for distinct ray-type counts `k1 ≠ k2`, a completed `buildTlas` for `k2` and a completed
`setRaytracingShaderData` for `k2`, from any state, leave the cache lookup of `k1` as it was (same
result buffer, instance-descriptor buffer, view and update mode, or still no entry); and when
neither key is cached, `get(k1)` followed by `get(k2)` leaves two entries, that of `k1` as stored by
the first call, whose result buffers differ and whose views, the ones bound by the two calls,
differ. -/
theorem tlasCache_entries_independent (be : Backend) (k1 k2 : Nat) (hne : k1 ≠ k2)
    (gpu : Gpu) (s s' : ProceduralScene) (gpu' : Gpu)
    (hbuild : buildTlas be gpu s k2 = .ok (s', gpu'))
    (gpuA : Gpu) (sA sA' : ProceduralScene) (gpuA' : Gpu) (vA : ShaderResourceView)
    (hget : setRaytracingShaderData be gpuA sA k2 = .ok (sA', gpuA', vA))
    (gpu0 : Gpu) (s0 s1 : ProceduralScene) (gpu1 : Gpu) (v1 : ShaderResourceView)
    (s2 : ProceduralScene) (gpu2 : Gpu) (v2 : ShaderResourceView)
    (hmiss1 : cacheFind s0.mTlasCache k1 = none) (hmiss2 : cacheFind s0.mTlasCache k2 = none)
    (h1 : setRaytracingShaderData be gpu0 s0 k1 = .ok (s1, gpu1, v1))
    (h2 : setRaytracingShaderData be gpu1 s1 k2 = .ok (s2, gpu2, v2)) :
    cacheFind s'.mTlasCache k1 = cacheFind s.mTlasCache k1 ∧
      cacheFind sA'.mTlasCache k1 = cacheFind sA.mTlasCache k1 ∧
      ∃ (e1 e2 : TlasData) (b1 b2 : Buffer),
        cacheFind s1.mTlasCache k1 = some e1 ∧
        cacheFind s2.mTlasCache k1 = some e1 ∧
        cacheFind s2.mTlasCache k2 = some e2 ∧
        e1.pTlas = some b1 ∧ e2.pTlas = some b2 ∧ b1 ≠ b2 ∧
        e1.pSrv = some v1 ∧ e2.pSrv = some v2 ∧ v1 ≠ v2 := by
  -- a build for `k2` assigns the entry of `k2` only
  have hframe : ∀ (g : Gpu) (t t' : ProceduralScene) (g' : Gpu),
      buildTlas be g t k2 = .ok (t', g') →
        cacheFind t'.mTlasCache k1 = cacheFind t.mTlasCache k1 := by
    intro g t t' g' hb
    obtain ⟨entry, _, _, _, hcache, _⟩ := buildTlas_ok be g t t' g' k2 hb
    rw [hcache, cacheFind_cacheAssign_of_ne _ _ _ _ hne]
  have hgetframe : ∀ (g : Gpu) (t t' : ProceduralScene) (g' : Gpu) (v : ShaderResourceView),
      setRaytracingShaderData be g t k2 = .ok (t', g', v) →
        cacheFind t'.mTlasCache k1 = cacheFind t.mTlasCache k1 := by
    intro g t t' g' v hg
    obtain ⟨t1, g1, hfirst, hrest⟩ := setRaytracingShaderData_ok be g t t' g' k2 v hg
    have hc := firstStep_cache be g t t1 g1 hfirst
    rcases hrest with ⟨_, _, _, ht', _⟩ | ⟨_, hb, _⟩
    · rw [ht', hc]
    · rw [hframe g1 t1 t' g' hb, hc]
  refine ⟨hframe gpu s s' gpu' hbuild, hgetframe gpuA sA sA' gpuA' vA hget, ?_⟩
  -- the first call builds the entry of `k1`
  obtain ⟨t1, g1, hfirst1, hrest1⟩ := setRaytracingShaderData_ok be gpu0 s0 s1 gpu1 k1 v1 h1
  have hc1 := firstStep_cache be gpu0 s0 t1 g1 hfirst1
  rcases hrest1 with ⟨e, he, _⟩ | ⟨_, hb1, e1, he1, hv1⟩
  · rw [hc1, hmiss1] at he
    cases he
  obtain ⟨entry1, b1, i1, w1, hcache1, hp1, _, hw1, _, hdata1, _, hfill1, hne1, _, hfresh1, _⟩ :=
    buildTlas_ok be g1 t1 s1 gpu1 k1 hb1
  have hentry1 : e1 = entry1 := by
    rw [hcache1, cacheFind_cacheAssign_self] at he1
    exact (Option.some.inj he1).symm
  have hv1w : w1 = v1 := by
    rw [hentry1, hw1] at hv1
    exact Option.some.inj hv1
  obtain ⟨_, hb1lt, _, hw1lt⟩ := hfresh1 (by rw [hc1]; exact hmiss1)
  have hs1data : s1.mBlasData ≠ [] := by
    rw [hdata1]
    exact fillInstanceDesc_nonempty t1 _ _ k1 hfill1 hne1
  have hs1miss2 : cacheFind s1.mTlasCache k2 = none := by
    rw [hcache1, cacheFind_cacheAssign_of_ne _ _ _ _ (Ne.symm hne), hc1]
    exact hmiss2
  -- the second call builds the entry of `k2`
  obtain ⟨t2, g2, hfirst2, hrest2⟩ := setRaytracingShaderData_ok be gpu1 s1 s2 gpu2 k2 v2 h2
  rcases hfirst2 with ⟨_, ht2, hg2⟩ | ⟨hempty, _⟩
  swap
  · exact absurd hempty hs1data
  subst ht2 hg2
  rcases hrest2 with ⟨e, he, _⟩ | ⟨_, hb2, e2, he2, hv2⟩
  · rw [hs1miss2] at he
    cases he
  obtain ⟨entry2, b2, i2, w2, hcache2, hp2, _, hw2, _, _, _, _, _, _, hfresh2, _⟩ :=
    buildTlas_ok be g2 t2 s2 gpu2 k2 hb2
  have hentry2 : e2 = entry2 := by
    rw [hcache2, cacheFind_cacheAssign_self] at he2
    exact (Option.some.inj he2).symm
  have hv2w : w2 = v2 := by
    rw [hentry2, hw2] at hv2
    exact Option.some.inj hv2
  obtain ⟨hb2ge, _, hw2ge, _⟩ := hfresh2 hs1miss2
  refine ⟨e1, e2, b1, b2, he1, ?_, he2, by rw [hentry1]; exact hp1, by rw [hentry2]; exact hp2,
    ?_, hv1, hv2, ?_⟩
  · rw [hframe g2 t2 s2 gpu2 hb2]
    exact he1
  · intro hb
    rw [hb] at hb1lt
    omega
  · intro hv
    rw [← hv1w, ← hv2w] at hv
    rw [hv] at hw1lt
    omega

/-- Witness for C7: scenario B of the specification with ray-type counts 1 and 2. -/
theorem tlasCache_entries_independent_witness :
    (1 : Nat) ≠ 2 ∧
      buildTlas exampleBackend scenarioBAfterGet2.2.1 scenarioBAfterGet2.1 2 =
        .ok (scenarioBRebuilt.1, scenarioBRebuilt.2) ∧
      setRaytracingShaderData exampleBackend { cmds := [], nextId := 0 }
          (setScene ProceduralScene.create scenarioB) 2 =
        .ok (scenarioBGet2First.1, scenarioBGet2First.2.1, scenarioBGet2First.2.2) ∧
      cacheFind (setScene ProceduralScene.create scenarioB).mTlasCache 1 = none ∧
      cacheFind (setScene ProceduralScene.create scenarioB).mTlasCache 2 = none ∧
      setRaytracingShaderData exampleBackend { cmds := [], nextId := 0 }
          (setScene ProceduralScene.create scenarioB) 1 =
        .ok (scenarioBAfterGet1.1, scenarioBAfterGet1.2.1, scenarioBAfterGet1.2.2) ∧
      setRaytracingShaderData exampleBackend scenarioBAfterGet1.2.1 scenarioBAfterGet1.1 2 =
        .ok (scenarioBAfterGet2.1, scenarioBAfterGet2.2.1, scenarioBAfterGet2.2.2) ∧
      cacheFind scenarioBRebuilt.1.mTlasCache 1 = cacheFind scenarioBAfterGet2.1.mTlasCache 1 ∧
      cacheFind scenarioBGet2First.1.mTlasCache 1 =
        cacheFind (setScene ProceduralScene.create scenarioB).mTlasCache 1 ∧
      ∃ (e1 e2 : TlasData) (b1 b2 : Buffer),
        cacheFind scenarioBAfterGet1.1.mTlasCache 1 = some e1 ∧
        cacheFind scenarioBAfterGet2.1.mTlasCache 1 = some e1 ∧
        cacheFind scenarioBAfterGet2.1.mTlasCache 2 = some e2 ∧
        e1.pTlas = some b1 ∧ e2.pTlas = some b2 ∧ b1 ≠ b2 ∧
        e1.pSrv = some scenarioBAfterGet1.2.2 ∧ e2.pSrv = some scenarioBAfterGet2.2.2 ∧
        scenarioBAfterGet1.2.2 ≠ scenarioBAfterGet2.2.2 :=
  ⟨by decide, rfl, rfl, rfl, rfl, rfl, rfl,
    tlasCache_entries_independent exampleBackend 1 2 (by decide)
      scenarioBAfterGet2.2.1 scenarioBAfterGet2.1 scenarioBRebuilt.1 scenarioBRebuilt.2 rfl
      { cmds := [], nextId := 0 } (setScene ProceduralScene.create scenarioB)
      scenarioBGet2First.1 scenarioBGet2First.2.1 scenarioBGet2First.2.2 rfl
      { cmds := [], nextId := 0 } (setScene ProceduralScene.create scenarioB)
      scenarioBAfterGet1.1 scenarioBAfterGet1.2.1 scenarioBAfterGet1.2.2
      scenarioBAfterGet2.1 scenarioBAfterGet2.2.1 scenarioBAfterGet2.2.2 rfl rfl rfl rfl⟩

/-! ## Completion of the one-time pass -/

theorem foldl_postbuildWrite_buildLoop_of_ne (be : Backend) (sa da pa : Nat)
    (bds : List BlasData) (off target v : Nat)
    (hne : ∀ j, j < bds.length → u64 (pa + u64 (off + j * postBuildInfoSize)) ≠ target)
    (hoff : off < 18446744073709551616) :
    (buildLoop sa da pa bds off).foldl (postbuildWrite be target) v = v := by
  induction bds generalizing off v with
  | nil => rfl
  | cons b rest ih =>
    simp only [buildLoop, List.foldl_cons, firstBuildCommand, postbuildWrite,
      firstPostbuildDesc]
    have h0 := hne 0 (by simp)
    simp only [Nat.zero_mul, Nat.add_zero, u64_of_lt hoff] at h0
    rw [if_neg h0]
    apply ih _ _ _ (u64_lt _)
    intro j hj
    have := hne (j + 1) (by simpa using hj)
    rw [u64_u64_add]
    rw [show off + postBuildInfoSize + j * postBuildInfoSize =
      off + (j + 1) * postBuildInfoSize by ring]
    exact this

theorem foldl_postbuildWrite_buildLoop (be : Backend) (sa da pa : Nat)
    (bds : List BlasData) (off k v : Nat) (bd : BlasData)
    (hfit : off + bds.length * 8 ≤ 18446744073709551616)
    (hk : bds[k]? = some bd) :
    (buildLoop sa da pa bds off).foldl (postbuildWrite be (u64 (pa + (off + k * 8)))) v =
      u64 (be.postbuildSize (firstBuildDesc sa da bd)
        (firstPostbuildDesc pa (off + k * 8) bd).InfoType) := by
  induction bds generalizing off k v with
  | nil => simp at hk
  | cons b rest ih =>
    simp only [List.length_cons] at hfit
    have hoff : off < 18446744073709551616 := by omega
    simp only [buildLoop, List.foldl_cons, firstBuildCommand, postbuildWrite]
    cases k with
    | zero =>
      simp only [List.getElem?_cons_zero, Option.some.injEq] at hk
      subst hk
      simp only [Nat.zero_mul, Nat.add_zero, firstPostbuildDesc, if_true]
      apply foldl_postbuildWrite_buildLoop_of_ne _ _ _ _ _ _ _ _ _ (u64_lt _)
      intro j hj
      have h8 : postBuildInfoSize = 8 := rfl
      rw [h8]
      unfold u64
      omega
    | succ k =>
      simp only [List.getElem?_cons_succ] at hk
      have hklt := (List.getElem?_eq_some_iff.mp hk).1
      have hne : (firstPostbuildDesc pa off b).DestBuffer ≠ u64 (pa + (off + (k + 1) * 8)) := by
        show u64 (pa + off) ≠ u64 (pa + (off + (k + 1) * 8))
        unfold u64
        omega
      rw [if_neg hne]
      have hoff' : u64 (off + postBuildInfoSize) = off + 8 := by
        show u64 (off + 8) = off + 8
        apply u64_of_lt
        omega
      rw [hoff']
      have := ih (off + 8) k v (by omega) hk
      rw [show off + 8 + k * 8 = off + (k + 1) * 8 by ring] at this
      exact this

/-- The value read back from slot `k` after the builds of the one-time pass is the size reported
by build `k`, provided the slots do not wrap around the address space. -/
theorem readPostbuild_buildLoop (be : Backend) (pre : List Command) (sa da pa : Nat)
    (bds : List BlasData) (k : Nat) (bd : BlasData)
    (hfit : bds.length * 8 ≤ 18446744073709551616) (hk : bds[k]? = some bd) :
    readPostbuild be (pre ++ buildLoop sa da pa bds 0 ++ [Command.flush])
        (u64 (pa + (0 + k) * postBuildInfoSize)) =
      u64 (be.postbuildSize (firstBuildDesc sa da bd)
        (if bd.useCompaction then PostbuildInfoType.COMPACTED_SIZE
         else PostbuildInfoType.CURRENT_SIZE)) := by
  unfold readPostbuild
  rw [List.foldl_append, List.foldl_append]
  simp only [List.foldl_cons, List.foldl_nil, postbuildWrite]
  have h8 : (0 + k) * postBuildInfoSize = 0 + k * 8 := by
    show (0 + k) * 8 = 0 + k * 8
    omega
  rw [h8, foldl_postbuildWrite_buildLoop be sa da pa bds 0 k _ bd (by omega) hk]
  rfl

theorem readbackLoop_completes (be : Backend) (cmds : List Command) (addr : Nat)
    (bds : List BlasData) (i t : Nat)
    (h : ∀ k bd, bds[k]? = some bd →
      readPostbuild be cmds (u64 (addr + (i + k) * postBuildInfoSize)) ≤
        bd.prebuildInfo.ResultDataMaxSizeInBytes) :
    ∃ out total, readbackLoop be cmds addr bds i t = .ok (out, total) := by
  induction bds generalizing i t with
  | nil => exact ⟨[], t, rfl⟩
  | cons b rest ih =>
    have h0 := h 0 b (by simp)
    simp only [Nat.add_zero] at h0
    obtain ⟨out, total, hrest⟩ := ih (i + 1)
      (u64 (t + align_to 256 (readPostbuild be cmds (u64 (addr + i * postBuildInfoSize)))))
      (by
        intro k bd hk
        have := h (k + 1) bd (by simpa using hk)
        rw [show i + (k + 1) = i + 1 + k by omega] at this
        exact this)
    refine ⟨{ b with
        blasByteSize := readPostbuild be cmds (u64 (addr + i * postBuildInfoSize)) } :: out,
      total, ?_⟩
    rw [readbackLoop]
    simp only [D3D12_RAYTRACING_ACCELERATION_STRUCTURE_BYTE_ALIGNMENT, h0, if_true, hrest]

/-- The one-time pass completes when the backend respects its prebuild maximum and the slots of the
read-back buffer do not wrap around the address space. -/
theorem buildBlasOnce_completes (be : Backend) (gpu : Gpu) (s : ProceduralScene)
    (hbe : be.RespectsPrebuildMax) (hcount : s.mBlasData.length * 8 ≤ 18446744073709551616) :
    ∃ s' gpu', buildBlasOnce be gpu s = .ok (s', gpu') := by
  rcases hP : prepareLoop be s.mBlasUpdateMode s.mBlasData 0 0 with ⟨blas1, totalMax, totalScratch⟩
  rcases hS : growBuffer be gpu s.mpBlasScratch totalScratch with ⟨scratch, gpu1⟩
  rcases hD : Buffer.create be gpu1 totalMax BlobData.none with ⟨dest, gpu2⟩
  rcases hB : Buffer.create be gpu2 (u64 (blas1.length * postBuildInfoSize)) BlobData.none with
    ⟨pb, gpu3⟩
  have hblas1 : blas1 = (prepareLoop be s.mBlasUpdateMode s.mBlasData 0 0).1 := by rw [hP]
  have hlen1 : blas1.length = s.mBlasData.length := by
    rw [hblas1]; exact prepareLoop_length _ _ _ _ _
  -- every slot holds a size within the prebuild maximum of its record
  obtain ⟨blas2, total, hR⟩ := readbackLoop_completes be
    (gpu3.cmds ++ buildLoop scratch.gpuAddress dest.gpuAddress pb.gpuAddress blas1 0 ++
      [Command.flush]) pb.gpuAddress blas1 0 0
    (by
      intro k b1 hk
      rw [readPostbuild_buildLoop be gpu3.cmds _ _ _ blas1 k b1 (by rw [hlen1]; exact hcount) hk]
      have hklt : k < s.mBlasData.length := by
        rw [← hlen1]; exact (List.getElem?_eq_some_iff.mp hk).1
      have h1 := prepareLoop_getElem? be s.mBlasUpdateMode s.mBlasData 0 0 k _ (by decide)
        (by decide) (List.getElem?_eq_getElem hklt)
      rw [← hblas1, hk] at h1
      have hb1 := Option.some.inj h1
      have := hbe (firstBuildDesc scratch.gpuAddress dest.gpuAddress b1)
        (if b1.useCompaction then PostbuildInfoType.COMPACTED_SIZE
         else PostbuildInfoType.CURRENT_SIZE)
      have hinfo : b1.prebuildInfo = be.getPrebuildInfo b1.buildInputs := by
        rw [hb1]; rfl
      rw [hinfo]
      exact this)
  rcases hG : growBuffer be
    { cmds := gpu3.cmds ++ buildLoop scratch.gpuAddress dest.gpuAddress pb.gpuAddress blas1 0 ++
        [Command.flush], nextId := gpu3.nextId } s.mpBlas total with ⟨mpBlas, gpu6⟩
  rcases hC : compactLoop mpBlas.gpuAddress dest.gpuAddress blas2 0 with ⟨blas3, copies, off⟩
  have hoff : off = total := by
    have h1 := compactLoop_final mpBlas.gpuAddress dest.gpuAddress blas2 0 (by decide)
    rw [hC] at h1
    simp only at h1
    rw [h1, readbackLoop_total be _ _ _ _ _ _ _ (by decide) hR]
  simp only [buildBlasOnce, hP, hS, hD, hB, Gpu.issue, hR, hG, hC, hoff, assertAt, beq_self_eq_true,
    if_true]
  exact ⟨_, _, rfl⟩

/-- A top-level build for a key without cache entry completes when the Blas buffer exists, there
is one build record per Blas group, the 32-bit instance count is not zero and the backend keeps
the update scratch size within the build scratch size. -/
theorem buildTlas_completes (be : Backend) (gpu : Gpu) (s : ProceduralScene) (k : Nat)
    (mpBlas : Buffer) (hbe : be.UpdateScratchFits) (hb : s.mpBlas = some mpBlas)
    (hlen : s.mBlasData.length = s.mTlas.length)
    (hcount : u32 (totalInstanceCount s.mTlas) ≠ 0) (hmiss : cacheFind s.mTlasCache k = none) :
    ∃ s' gpu', buildTlas be gpu s k = .ok (s', gpu') := by
  have hfill := fillInstanceDesc_eq s s.mInstanceDescs k mpBlas hb (le_of_eq hlen)
  have hnum : (tlasInputs (instanceStream mpBlas.gpuAddress k s.mBlasData s.mTlas 0)).NumDescs ≠
      0 := by
    simp only [tlasInputs]
    rw [instanceStream_length _ _ _ _ _ hlen]
    exact hcount
  have hscratch : ∃ scratch info gpu1,
      tlasScratchStep be gpu s
        (tlasInputs (instanceStream mpBlas.gpuAddress k s.mBlasData s.mTlas 0)) =
        .ok (scratch, info, gpu1) := by
    unfold tlasScratchStep
    cases s.mpTlasScratch with
    | some b => exact ⟨_, _, _, rfl⟩
    | none =>
      simp only [Buffer.create, hbe _, if_true]
      exact ⟨_, _, _, rfl⟩
  obtain ⟨scratch, info, gpu1, hsc⟩ := hscratch
  have hinit : cachedOrDefault s k = TlasData.init := by simp [cachedOrDefault, hmiss]
  unfold buildTlas
  simp only [hfill, hsc, hinit, tlasBufferStep, TlasData.init, Buffer.create, hnum, if_false,
    Gpu.issue]
  exact ⟨_, _, rfl⟩


/-- The first call of `setRaytracingShaderData` on a scene without build records completes, when
the backend keeps its two guarantees, the key is not cached, the Blas groups are few enough for the
`int` index of `initGeomDesc` and the 32-bit instance count is not zero. -/
theorem setRaytracingShaderData_completes (be : Backend) (gpu : Gpu) (s : ProceduralScene)
    (k : Nat) (hbe1 : be.RespectsPrebuildMax) (hbe2 : be.UpdateScratchFits)
    (hempty : s.mBlasData = []) (hflag : s.mRebuildBlas = true)
    (hmiss : cacheFind s.mTlasCache k = none)
    (hindex : s.mTlas.length ≤ 2147483647)
    (hcount : u32 (totalInstanceCount s.mTlas) ≠ 0) :
    ∃ s' gpu' v, setRaytracingShaderData be gpu s k = .ok (s', gpu', v) := by
  have hgroups : s.mTlas.length * 8 ≤ 18446744073709551616 := by omega
  have hinit := initGeomDesc_eq be gpu s hempty hindex
  generalize hs0 : ({ s with
      mpGeometryBuffer := some (Buffer.create be gpu
        (u64 (sizeofAABB * (collectAABBs be s.mTlas []).length))
        (BlobData.aabbs (collectAABBs be s.mTlas []))).1
      mBlasData := blasRecordList (Buffer.create be gpu
        (u64 (sizeofAABB * (collectAABBs be s.mTlas []).length))
        (BlobData.aabbs (collectAABBs be s.mTlas []))).1.gpuAddress s.mTlas 0 } :
      ProceduralScene) = s0 at hinit
  generalize (Buffer.create be gpu (u64 (sizeofAABB * (collectAABBs be s.mTlas []).length))
      (BlobData.aabbs (collectAABBs be s.mTlas []))).2.issue
      (Command.resourceBarrier (Buffer.create be gpu
        (u64 (sizeofAABB * (collectAABBs be s.mTlas []).length))
        (BlobData.aabbs (collectAABBs be s.mTlas []))).1.id) = gpu0 at hinit
  have hs0flag : s0.mRebuildBlas = true := by rw [← hs0]; exact hflag
  have hs0len : s0.mBlasData.length = s.mTlas.length := by
    rw [← hs0]; exact blasRecordList_length _ _ _
  have hs0tlas : s0.mTlas = s.mTlas := by rw [← hs0]
  have hs0cache : s0.mTlasCache = s.mTlasCache := by rw [← hs0]
  obtain ⟨s1, gpu1, hblas⟩ := buildBlasOnce_completes be gpu0 s0 hbe1
    (by rw [hs0len]; exact hgroups)
  obtain ⟨_, _, _, mpBlas, _, _, _, hmp, hlen1, _⟩ := buildBlasOnce_trace be gpu0 s0 s1 gpu1 hblas
  have hframe := buildBlas_frame be gpu0 s0 s1 gpu1 (by
    unfold buildBlas
    rw [hs0flag]
    exact hblas)
  obtain ⟨s2, gpu2, htlas⟩ := buildTlas_completes be gpu1 s1 k mpBlas hbe2 hmp
    (by rw [hlen1, hs0len, hframe.2.1, hs0tlas])
    (by rw [hframe.2.1, hs0tlas]; exact hcount)
    (by rw [hframe.1, hs0cache]; exact hmiss)
  obtain ⟨entry, _, _, pSrv, hcache, _, _, hsrv, _⟩ := buildTlas_ok be gpu1 s1 s2 gpu2 k htlas
  have hfind : cacheFind s2.mTlasCache k = some entry := by
    rw [hcache, cacheFind_cacheAssign_self]
  have hmiss1 : cacheFind s1.mTlasCache k = none := by
    rw [hframe.1, hs0cache]; exact hmiss
  refine ⟨s2, gpu2, pSrv, ?_⟩
  unfold setRaytracingShaderData
  simp only [hempty, List.isEmpty_nil, if_true, hinit, buildBlas, hs0flag, hblas, hmiss1, htlas,
    hfind, hsrv]

/-! ## `updateRaytracingStats` -/

theorem statsLoop_eq (records : List BlasData) (stats : RayTracingStats)
    (hc : stats.blasCompactedCount < 18446744073709551616)
    (hm : stats.blasMemoryInBytes < 18446744073709551616) :
    statsLoop records stats =
      { blasCount := stats.blasCount
        blasCompactedCount := u64 (stats.blasCompactedCount + compactedCount records)
        blasMemoryInBytes := u64 (stats.blasMemoryInBytes + totalBlasMemory records) } := by
  induction records generalizing stats with
  | nil =>
    simp [statsLoop, compactedCount, totalBlasMemory, u64_of_lt hc, u64_of_lt hm]
  | cons b rest ih =>
    rw [statsLoop]
    cases hb : b.useCompaction with
    | true =>
      rw [ih _ (by simp only [if_true]; exact u64_lt _) (u64_lt _)]
      simp only [if_true, compactedCount, totalBlasMemory, List.filter_cons, hb, List.length_cons,
        List.map_cons, List.sum_cons, u64_u64_add]
      congr 2 <;> omega
    | false =>
      rw [ih _ (by simpa using hc) (u64_lt _)]
      simp only [Bool.false_eq_true, if_false, compactedCount, totalBlasMemory, List.filter_cons,
        hb, List.map_cons, List.sum_cons, u64_u64_add]
      congr 2
      omega

theorem compactedCount_le_length (records : List BlasData) :
    compactedCount records ≤ records.length :=
  List.length_filter_le _ _

/-- The one-time pass of `buildBlas` ends with the statistics of the records it leaves. -/
theorem buildBlasOnce_stats (be : Backend) (gpu : Gpu) (s s' : ProceduralScene) (gpu' : Gpu)
    (h : buildBlasOnce be gpu s = .ok (s', gpu')) :
    s'.mRTStats = (updateRaytracingStats s').mRTStats ∧ s'.mRebuildBlas = false ∧
      s'.mHasSkinnedMesh = s.mHasSkinnedMesh := by
  obtain ⟨_, _, _, _, _, _, _, _, _, _, _, _, _, _, _, _, _, _, _, hs', _⟩ :=
    buildBlasOnce_ok be gpu s s' gpu' h
  rw [hs']
  exact ⟨rfl, rfl, rfl⟩

theorem updateRaytracingStats_eq (s : ProceduralScene) :
    (updateRaytracingStats s).mRTStats =
      { blasCount := s.mBlasData.length
        blasCompactedCount := u64 (compactedCount s.mBlasData)
        blasMemoryInBytes := u64 (totalBlasMemory s.mBlasData) } := by
  simp only [updateRaytracingStats]
  rw [statsLoop_eq _ _ (by simp) (by simp)]
  simp

/-- The statistics are the exact count and the exact sum when these are below 2^64. -/
theorem updateRaytracingStats_exact (s : ProceduralScene)
    (hlen : s.mBlasData.length < 18446744073709551616)
    (hsum : totalBlasMemory s.mBlasData < 18446744073709551616) :
    (updateRaytracingStats s).mRTStats =
      { blasCount := s.mBlasData.length
        blasCompactedCount := compactedCount s.mBlasData
        blasMemoryInBytes := totalBlasMemory s.mBlasData } := by
  rw [updateRaytracingStats_eq, u64_of_lt hsum,
    u64_of_lt (lt_of_le_of_lt (compactedCount_le_length _) hlen)]

/-- A completed one-time pass of `buildBlas` leaves the statistics of the records it leaves. -/
theorem buildBlas_stats (be : Backend) (gpu gpu' : Gpu) (s s' : ProceduralScene)
    (hflag : s.mRebuildBlas = true) (h : buildBlas be gpu s = .ok (s', gpu')) :
    s'.mRTStats =
      { blasCount := s'.mBlasData.length
        blasCompactedCount := u64 (compactedCount s'.mBlasData)
        blasMemoryInBytes := u64 (totalBlasMemory s'.mBlasData) } := by
  simp only [buildBlas, hflag, if_true] at h
  rw [(buildBlasOnce_stats be gpu s s' gpu' h).1]
  exact updateRaytracingStats_eq s'

/-- C17: `updateRaytracingStats` sets `blasCount` to the number of build records,
`blasCompactedCount` to the number of records with `useCompaction = true` and `blasMemoryInBytes`
to the sum of the final sizes `blasByteSize`, the last two reduced modulo 2^64; the result is the
same whatever the statistics held before, and no other member of the scene, so no build record, is
modified. -/
theorem updateRaytracingStats_totals (s : ProceduralScene) (previous : RayTracingStats) :
    (updateRaytracingStats s).mRTStats =
        { blasCount := s.mBlasData.length
          blasCompactedCount := (compactedCount s.mBlasData) % 18446744073709551616
          blasMemoryInBytes := (totalBlasMemory s.mBlasData) % 18446744073709551616 } ∧
      updateRaytracingStats { s with mRTStats := previous } = updateRaytracingStats s ∧
      updateRaytracingStats s = { s with mRTStats := (updateRaytracingStats s).mRTStats } ∧
      (updateRaytracingStats s).mBlasData = s.mBlasData :=
  ⟨updateRaytracingStats_eq s, rfl, rfl, rfl⟩

/-- Counterexample for C17 as stated: with two records of 2^63 bytes each, the sum of the final
sizes is 2^64 and `blasMemoryInBytes` is 0. -/
theorem blasMemoryInBytes_wraps :
    (updateRaytracingStats
        { ProceduralScene.create with mBlasData := halfRangeRecords }).mRTStats.blasMemoryInBytes
        = 0 ∧
      totalBlasMemory halfRangeRecords = 18446744073709551616 := by
  constructor
  · rfl
  · rfl

/-! ## The one-time pass and the steady-state pass of `buildBlas` -/

/-- With the flags of the steady state and no dynamic content, `buildBlas` does nothing. -/
theorem buildBlas_static_noop (be : Backend) (gpu : Gpu) (t : ProceduralScene)
    (hflag : t.mRebuildBlas = false) (hstatic : t.mHasSkinnedMesh = false) :
    buildBlas be gpu t = .ok (t, gpu) := by
  simp [buildBlas, buildBlasSteady, hflag, hstatic]

/-- C12: for a scene with no dynamic content (`mHasSkinnedMesh = false`), a completed one-time pass
of `buildBlas` leaves the Blas scratch buffer null, the one-time flag cleared and the scene still
without dynamic content; every later invocation of `buildBlas`, on any command stream and after any
number of earlier ones, returns the same scene state and the same command stream (no command is
issued, no object is created). -/
theorem buildBlas_static_scene (be : Backend) (gpu : Gpu) (s s' : ProceduralScene) (gpu' : Gpu)
    (hflag : s.mRebuildBlas = true) (hstatic : s.mHasSkinnedMesh = false)
    (h : buildBlas be gpu s = .ok (s', gpu')) :
    s'.mpBlasScratch = none ∧ s'.mRebuildBlas = false ∧ s'.mHasSkinnedMesh = false ∧
      ∀ (be2 : Backend) (gpu2 : Gpu), buildBlas be2 gpu2 s' = .ok (s', gpu2) := by
  simp only [buildBlas, hflag, if_true] at h
  obtain ⟨hstats, hre, hdyn⟩ := buildBlasOnce_stats be gpu s s' gpu' h
  obtain ⟨scratch, _, _, _, _, _, hscratch, _⟩ := buildBlasOnce_trace be gpu s s' gpu' h
  rw [hstatic] at hscratch hdyn
  refine ⟨by simpa using hscratch, hre, hdyn, ?_⟩
  intro be2 gpu2
  exact buildBlas_static_noop be2 gpu2 s' hre hdyn

/-- Witness for C12: scenario B of the specification. -/
theorem buildBlas_static_scene_witness :
    (sceneWithGeometry exampleBackend scenarioB).1.mRebuildBlas = true ∧
      (sceneWithGeometry exampleBackend scenarioB).1.mHasSkinnedMesh = false ∧
      buildBlas exampleBackend (sceneWithGeometry exampleBackend scenarioB).2
          (sceneWithGeometry exampleBackend scenarioB).1 =
        .ok ((sceneWithBlas exampleBackend scenarioB).1,
          (sceneWithBlas exampleBackend scenarioB).2) ∧
      (sceneWithBlas exampleBackend scenarioB).1.mpBlasScratch = none ∧
      (sceneWithBlas exampleBackend scenarioB).1.mRebuildBlas = false ∧
      (sceneWithBlas exampleBackend scenarioB).1.mHasSkinnedMesh = false ∧
      ∀ (be2 : Backend) (gpu2 : Gpu),
        buildBlas be2 gpu2 (sceneWithBlas exampleBackend scenarioB).1 =
          .ok ((sceneWithBlas exampleBackend scenarioB).1, gpu2) :=
  ⟨rfl, rfl, rfl,
    buildBlas_static_scene exampleBackend (sceneWithGeometry exampleBackend scenarioB).2
      (sceneWithGeometry exampleBackend scenarioB).1 (sceneWithBlas exampleBackend scenarioB).1
      (sceneWithBlas exampleBackend scenarioB).2 rfl rfl rfl⟩

/-- C13: after a completed one-time pass of `buildBlas`, every build record has
`blasByteSize ≤ prebuildInfo.ResultDataMaxSizeInBytes` (the pass completes only when the assertion
of the read-back loop held for every Blas). -/
theorem buildBlas_size_within_prebuild (be : Backend) (gpu : Gpu) (s s' : ProceduralScene)
    (gpu' : Gpu) (hflag : s.mRebuildBlas = true) (h : buildBlas be gpu s = .ok (s', gpu')) :
    ∀ b ∈ s'.mBlasData, b.blasByteSize ≤ b.prebuildInfo.ResultDataMaxSizeInBytes := by
  simp only [buildBlas, hflag, if_true] at h
  obtain ⟨_, _, _, _, _, _, _, _, hlen, _, _, hrec⟩ := buildBlasOnce_trace be gpu s s' gpu' h
  intro b hb
  obtain ⟨k, hk, hkb⟩ := List.getElem_of_mem hb
  have hk1 : k < (prepareLoop be s.mBlasUpdateMode s.mBlasData 0 0).1.length := by
    rw [prepareLoop_length, ← hlen]
    exact hk
  obtain ⟨size, off, hfin, hle, _⟩ := hrec k _ (List.getElem?_eq_getElem hk1)
  rw [List.getElem?_eq_getElem hk, hkb] at hfin
  cases hfin
  exact hle

/-- Witness for C13: scenario B of the specification. -/
theorem buildBlas_size_within_prebuild_witness :
    (sceneWithGeometry exampleBackend scenarioB).1.mRebuildBlas = true ∧
      buildBlas exampleBackend (sceneWithGeometry exampleBackend scenarioB).2
          (sceneWithGeometry exampleBackend scenarioB).1 =
        .ok ((sceneWithBlas exampleBackend scenarioB).1,
          (sceneWithBlas exampleBackend scenarioB).2) ∧
      ∀ b ∈ (sceneWithBlas exampleBackend scenarioB).1.mBlasData,
        b.blasByteSize ≤ b.prebuildInfo.ResultDataMaxSizeInBytes :=
  ⟨rfl, rfl,
    buildBlas_size_within_prebuild exampleBackend (sceneWithGeometry exampleBackend scenarioB).2
      (sceneWithGeometry exampleBackend scenarioB).1 (sceneWithBlas exampleBackend scenarioB).1
      (sceneWithBlas exampleBackend scenarioB).2 rfl rfl⟩

/-! ## The steady-state pass -/

theorem hasFlag_or_self (flags flag : Nat) : hasFlag (flags ||| flag) flag = true := by
  simp only [hasFlag, beq_iff_eq]
  apply Nat.eq_of_testBit_eq
  intro i
  simp only [Nat.testBit_and, Nat.testBit_or]
  cases flags.testBit i <;> cases flag.testBit i <;> rfl

theorem hasFlag_blasBuildFlags_update (hasSkinnedMesh useCompaction : Bool) (m : UpdateMode) :
    hasFlag (blasBuildFlags hasSkinnedMesh useCompaction m) BUILD_FLAG_PERFORM_UPDATE = false := by
  cases hasSkinnedMesh <;> cases useCompaction <;> cases m <;> rfl

/-- The build flags of every record left by a completed one-time pass are those chosen by
`blasBuildFlags`; `PERFORM_UPDATE` is not among them. -/
theorem buildBlasOnce_flags (be : Backend) (gpu : Gpu) (s s' : ProceduralScene) (gpu' : Gpu)
    (h : buildBlasOnce be gpu s = .ok (s', gpu')) :
    ∀ b ∈ s'.mBlasData, hasFlag b.buildInputs.Flags BUILD_FLAG_PERFORM_UPDATE = false := by
  obtain ⟨_, _, _, _, _, _, _, _, hlen, _, _, hrec⟩ := buildBlasOnce_trace be gpu s s' gpu' h
  intro b hb
  obtain ⟨k, hk, hkb⟩ := List.getElem_of_mem hb
  have hk0 : k < s.mBlasData.length := by rw [← hlen]; exact hk
  have hprep := prepareLoop_getElem? be s.mBlasUpdateMode s.mBlasData 0 0 k _ (by decide)
    (by decide) (List.getElem?_eq_getElem hk0)
  obtain ⟨size, off, hfin, _⟩ := hrec k _ hprep
  rw [List.getElem?_eq_getElem hk, hkb] at hfin
  cases hfin
  exact hasFlag_blasBuildFlags_update _ _ _

theorem updateCommand_ok (blasAddress scratchAddress : Nat) (blas : BlasData) (c : Command)
    (h : updateCommand blasAddress scratchAddress blas = .ok c) :
    ∃ desc : BuildDesc, c = Command.build desc none ∧
      desc.DestAccelerationStructureData = u64 (blasAddress + blas.blasByteOffset) ∧
      desc.ScratchAccelerationStructureData = u64 (scratchAddress + blas.scratchByteOffset) ∧
      (blas.updateMode = UpdateMode.Refit →
        desc.SourceAccelerationStructureData = desc.DestAccelerationStructureData ∧
        desc.Inputs =
          { blas.buildInputs with
            Flags := blas.buildInputs.Flags ||| BUILD_FLAG_PERFORM_UPDATE }) ∧
      (blas.updateMode = UpdateMode.Rebuild →
        desc.SourceAccelerationStructureData = 0 ∧ desc.Inputs = blas.buildInputs) := by
  unfold updateCommand at h
  simp only at h
  split at h
  · rename_i hm
    cases h
    exact ⟨_, rfl, rfl, rfl, fun _ => ⟨rfl, rfl⟩, fun hr => by rw [hm] at hr; cases hr⟩
  · rename_i hm
    split at h
    · cases h
      exact ⟨_, rfl, rfl, rfl, fun hr => absurd hr hm, fun _ => ⟨rfl, rfl⟩⟩
    · cases h

/-- The commands of the update loop: none but build commands, one per dynamic record, in order. -/
theorem updateLoop_ok (blasAddress scratchAddress : Nat) (records : List BlasData)
    (cmds : List Command) (h : updateLoop blasAddress scratchAddress records = .ok cmds) :
    copiesOf cmds = [] ∧ buffersCreatedBy cmds = [] ∧
      (buildsOf cmds).length = (dynamicRecords records).length ∧
      ∀ (i : Nat) (b : BlasData), (dynamicRecords records)[i]? = some b →
        ∃ desc : BuildDesc, (buildsOf cmds)[i]? = some (desc, none) ∧
          updateCommand blasAddress scratchAddress b = .ok (Command.build desc none) := by
  induction records generalizing cmds with
  | nil =>
    simp only [updateLoop, Except.ok.injEq] at h
    subst h
    simp [copiesOf, buildsOf, buffersCreatedBy, dynamicRecords]
  | cons r rest ih =>
    rw [updateLoop] at h
    cases hr : r.hasSkinnedMesh with
    | false =>
      simp only [hr, Bool.not_false, if_true] at h
      have := ih cmds h
      simpa [dynamicRecords, List.filter_cons, hr] using this
    | true =>
      simp only [hr, Bool.not_true, Bool.false_eq_true, if_false] at h
      cases hc : updateCommand blasAddress scratchAddress r with
      | error e => simp [hc] at h
      | ok c =>
        simp only [hc] at h
        cases hl : updateLoop blasAddress scratchAddress rest with
        | error e => simp [hl] at h
        | ok cs =>
          simp only [hl, Except.ok.injEq] at h
          subst h
          obtain ⟨desc, hcd, _⟩ := updateCommand_ok _ _ _ _ hc
          subst hcd
          obtain ⟨h1, h2, h3, h4⟩ := ih cs hl
          refine ⟨by simpa [copiesOf] using h1, by simpa [buffersCreatedBy] using h2, ?_, ?_⟩
          · simp [buildsOf, dynamicRecords, List.filter_cons, hr] at h3 ⊢
            exact h3
          · intro i b hb
            simp only [dynamicRecords, List.filter_cons, hr, if_true] at hb
            cases i with
            | zero =>
              simp only [List.getElem?_cons_zero, Option.some.injEq] at hb
              subst hb
              exact ⟨desc, by simp [buildsOf], hc⟩
            | succ j =>
              simp only [List.getElem?_cons_succ] at hb
              obtain ⟨d, hd, hu⟩ := h4 j b hb
              exact ⟨d, by simpa [buildsOf] using hd, hu⟩
/-- The ways `buildBlasSteady` completes on a scene with dynamic content. -/
theorem buildBlasSteady_dynamic (gpu : Gpu) (s s' : ProceduralScene) (gpu' : Gpu)
    (hdyn : s.mHasSkinnedMesh = true) (h : buildBlasSteady gpu s = .ok (s', gpu')) :
    ∃ (mpBlas scratch : Buffer) (cmds : List Command),
      s.mpBlas = some mpBlas ∧ s.mpBlasScratch = some scratch ∧
      updateLoop mpBlas.gpuAddress scratch.gpuAddress s.mBlasData = .ok cmds ∧
      s' = s ∧ gpu'.nextId = gpu.nextId ∧
      gpu'.cmds = gpu.cmds ++ (Command.uavBarrier mpBlas.id :: Command.uavBarrier scratch.id ::
        (cmds ++ [Command.uavBarrier mpBlas.id])) := by
  unfold buildBlasSteady at h
  simp only [hdyn, Bool.true_eq_false, beq_iff_eq, if_false] at h
  split at h
  · rename_i mpBlas scratch hb hs
    split at h
    · cases h
    · rename_i cmds hl
      simp only [Except.ok.injEq, Prod.mk.injEq, Gpu.issue] at h
      refine ⟨mpBlas, scratch, cmds, hb, hs, hl, h.1.symm, by rw [← h.2], ?_⟩
      rw [← h.2]
      simp
  · cases h

/-- C11: in a steady-state pass of `buildBlas` that completes on the state left by a completed
one-time pass of a scene with dynamic content, the scene state is unchanged, no copy is issued and
no buffer is created; the build commands issued are exactly one per record flagged dynamic, in Blas
order (none for the other records), each without a post-build request; the build for a dynamic
record has the destination `mpBlas` address + `blasByteOffset` and the scratch address
`mpBlasScratch` address + `scratchByteOffset` (64-bit sums); for update mode Refit its source
address equals its destination address and its flags are the record's build flags with
`PERFORM_UPDATE` set; for update mode Rebuild its source address is 0 and its inputs are the
record's build inputs, which do not carry `PERFORM_UPDATE`. -/
theorem buildBlas_steady_commands (be be2 : Backend) (gpu0 gpu1 gpu gpu' : Gpu)
    (s0 s s' : ProceduralScene)
    (hflag : s0.mRebuildBlas = true) (hdyn : s0.mHasSkinnedMesh = true)
    (hpass : buildBlas be gpu0 s0 = .ok (s, gpu1))
    (h : buildBlas be2 gpu s = .ok (s', gpu')) :
    ∃ (mpBlas scratch : Buffer) (new : List Command),
      s.mpBlas = some mpBlas ∧ s.mpBlasScratch = some scratch ∧
      s' = s ∧ gpu'.cmds = gpu.cmds ++ new ∧ gpu'.nextId = gpu.nextId ∧
      copiesOf new = [] ∧ buffersCreatedBy new = [] ∧
      (buildsOf new).length = (dynamicRecords s.mBlasData).length ∧
      ∀ (i : Nat) (b : BlasData), (dynamicRecords s.mBlasData)[i]? = some b →
        ∃ desc : BuildDesc, (buildsOf new)[i]? = some (desc, none) ∧
          desc.DestAccelerationStructureData = u64 (mpBlas.gpuAddress + b.blasByteOffset) ∧
          desc.ScratchAccelerationStructureData =
            u64 (scratch.gpuAddress + b.scratchByteOffset) ∧
          (b.updateMode = UpdateMode.Refit →
            desc.SourceAccelerationStructureData = desc.DestAccelerationStructureData ∧
            desc.Inputs =
              { b.buildInputs with
                Flags := b.buildInputs.Flags ||| BUILD_FLAG_PERFORM_UPDATE } ∧
            hasFlag desc.Inputs.Flags BUILD_FLAG_PERFORM_UPDATE = true) ∧
          (b.updateMode = UpdateMode.Rebuild →
            desc.SourceAccelerationStructureData = 0 ∧ desc.Inputs = b.buildInputs ∧
            hasFlag desc.Inputs.Flags BUILD_FLAG_PERFORM_UPDATE = false) := by
  simp only [buildBlas, hflag, if_true] at hpass
  obtain ⟨_, hre, hdyn'⟩ := buildBlasOnce_stats be gpu0 s0 s gpu1 hpass
  have hflags := buildBlasOnce_flags be gpu0 s0 s gpu1 hpass
  rw [hdyn] at hdyn'
  simp only [buildBlas, hre, Bool.false_eq_true, if_false] at h
  obtain ⟨mpBlas, scratch, cmds, hb, hs, hl, hs', hid, hcmds⟩ :=
    buildBlasSteady_dynamic gpu s s' gpu' hdyn' h
  obtain ⟨h1, h2, h3, h4⟩ := updateLoop_ok _ _ _ _ hl
  refine ⟨mpBlas, scratch, _, hb, hs, hs', hcmds, hid, ?_, ?_, ?_, ?_⟩
  · simp only [copiesOf, copiesOf_append, h1, List.append_nil]
  · simp only [buffersCreatedBy, buffersCreatedBy_append, h2, List.append_nil]
  · simp only [buildsOf, buildsOf_append, List.append_nil]
    exact h3
  · intro i b hib
    obtain ⟨desc, hd, hu⟩ := h4 i b hib
    obtain ⟨desc', hc, hdest, hscr, hrefit, hrebuild⟩ := updateCommand_ok _ _ _ _ hu
    cases hc
    refine ⟨desc, ?_, hdest, hscr, ?_, ?_⟩
    · simp only [buildsOf, buildsOf_append, List.append_nil]
      exact hd
    · intro hm
      obtain ⟨e1, e2⟩ := hrefit hm
      refine ⟨e1, e2, ?_⟩
      rw [e2]
      exact hasFlag_or_self _ _
    · intro hm
      obtain ⟨e1, e2⟩ := hrebuild hm
      refine ⟨e1, e2, ?_⟩
      rw [e2]
      have hmem : b ∈ dynamicRecords s.mBlasData := List.getElem?_mem hib
      exact hflags b (List.mem_of_mem_filter hmem)

/-- Witness for C11: scenario B of the specification with its first Blas flagged dynamic, update
mode Refit. -/
theorem buildBlas_steady_commands_witness :
    (dynamicScene exampleBackend UpdateMode.Refit).1.mRebuildBlas = true ∧
      (dynamicScene exampleBackend UpdateMode.Refit).1.mHasSkinnedMesh = true ∧
      buildBlas exampleBackend (dynamicScene exampleBackend UpdateMode.Refit).2
          (dynamicScene exampleBackend UpdateMode.Refit).1 =
        .ok ((dynamicSceneBuilt exampleBackend UpdateMode.Refit).1,
          (dynamicSceneBuilt exampleBackend UpdateMode.Refit).2) ∧
      buildBlas exampleBackend (dynamicSceneBuilt exampleBackend UpdateMode.Refit).2
          (dynamicSceneBuilt exampleBackend UpdateMode.Refit).1 =
        .ok ((dynamicSceneSteady exampleBackend UpdateMode.Refit).1,
          (dynamicSceneSteady exampleBackend UpdateMode.Refit).2) ∧
      ∃ (mpBlas scratch : Buffer) (new : List Command),
        (dynamicSceneBuilt exampleBackend UpdateMode.Refit).1.mpBlas = some mpBlas ∧
        (dynamicSceneBuilt exampleBackend UpdateMode.Refit).1.mpBlasScratch = some scratch ∧
        (dynamicSceneSteady exampleBackend UpdateMode.Refit).1 =
          (dynamicSceneBuilt exampleBackend UpdateMode.Refit).1 ∧
        (dynamicSceneSteady exampleBackend UpdateMode.Refit).2.cmds =
          (dynamicSceneBuilt exampleBackend UpdateMode.Refit).2.cmds ++ new ∧
        (dynamicSceneSteady exampleBackend UpdateMode.Refit).2.nextId =
          (dynamicSceneBuilt exampleBackend UpdateMode.Refit).2.nextId ∧
        copiesOf new = [] ∧ buffersCreatedBy new = [] ∧
        (buildsOf new).length =
          (dynamicRecords (dynamicSceneBuilt exampleBackend UpdateMode.Refit).1.mBlasData).length ∧
        ∀ (i : Nat) (b : BlasData),
          (dynamicRecords (dynamicSceneBuilt exampleBackend UpdateMode.Refit).1.mBlasData)[i]? =
            some b →
          ∃ desc : BuildDesc, (buildsOf new)[i]? = some (desc, none) ∧
            desc.DestAccelerationStructureData = u64 (mpBlas.gpuAddress + b.blasByteOffset) ∧
            desc.ScratchAccelerationStructureData =
              u64 (scratch.gpuAddress + b.scratchByteOffset) ∧
            (b.updateMode = UpdateMode.Refit →
              desc.SourceAccelerationStructureData = desc.DestAccelerationStructureData ∧
              desc.Inputs =
                { b.buildInputs with
                  Flags := b.buildInputs.Flags ||| BUILD_FLAG_PERFORM_UPDATE } ∧
              hasFlag desc.Inputs.Flags BUILD_FLAG_PERFORM_UPDATE = true) ∧
            (b.updateMode = UpdateMode.Rebuild →
              desc.SourceAccelerationStructureData = 0 ∧ desc.Inputs = b.buildInputs ∧
              hasFlag desc.Inputs.Flags BUILD_FLAG_PERFORM_UPDATE = false) :=
  ⟨rfl, rfl, rfl, rfl,
    buildBlas_steady_commands exampleBackend exampleBackend
      (dynamicScene exampleBackend UpdateMode.Refit).2
      (dynamicSceneBuilt exampleBackend UpdateMode.Refit).2
      (dynamicSceneBuilt exampleBackend UpdateMode.Refit).2
      (dynamicSceneSteady exampleBackend UpdateMode.Refit).2
      (dynamicScene exampleBackend UpdateMode.Refit).1
      (dynamicSceneBuilt exampleBackend UpdateMode.Refit).1
      (dynamicSceneSteady exampleBackend UpdateMode.Refit).1 rfl rfl rfl rfl⟩

/-- The steady-state pass on the dynamic scenario B: with Refit one build with flags
`ALLOW_UPDATE | ALLOW_COMPACTION | PERFORM_UPDATE` and source = destination; with Rebuild (on a
backend whose builds report the prebuild maximum size) one build with no flag and source 0; with
Rebuild on the example backend, whose builds report 300 bytes, the assertion of line 328 fails. -/
theorem buildBlas_steady_examples :
    (buildsOf ((dynamicSceneSteady exampleBackend UpdateMode.Refit).2.cmds.drop
        (dynamicSceneBuilt exampleBackend UpdateMode.Refit).2.cmds.length)).map
        (fun p => (p.1.Inputs.Flags, p.1.DestAccelerationStructureData,
          p.1.SourceAccelerationStructureData, p.1.ScratchAccelerationStructureData, p.2)) =
      [(35, 327680, 327680, 131072, none)] ∧
    (buildsOf ((dynamicSceneSteady exactSizeBackend UpdateMode.Rebuild).2.cmds.drop
        (dynamicSceneBuilt exactSizeBackend UpdateMode.Rebuild).2.cmds.length)).map
        (fun p => (p.1.Inputs.Flags, p.1.DestAccelerationStructureData,
          p.1.SourceAccelerationStructureData, p.1.ScratchAccelerationStructureData, p.2)) =
      [(0, 327680, 0, 131072, none)] ∧
    buildBlas exampleBackend (dynamicSceneBuilt exampleBackend UpdateMode.Rebuild).2
        (dynamicSceneBuilt exampleBackend UpdateMode.Rebuild).1 = .error (.assertion 328) :=
  ⟨rfl, rfl, rfl⟩

/-! ## The order of the result-buffer offsets -/

/-- The offsets given by the first loop of the one-time pass, when the padded prebuild maximum
sizes, summed exactly, fit 64 bits: the range of a record ends before the offset of every later
record. -/
theorem prepareLoop_offsets (be : Backend) (m : UpdateMode) (bds : List BlasData)
    (hfit : ((prepareLoop be m bds 0 0).1.map
      (fun b => alignUp 256 b.prebuildInfo.ResultDataMaxSizeInBytes)).sum <
        18446744073709551616) :
    ∀ (k k' : Nat) (b b' : BlasData), k < k' → (prepareLoop be m bds 0 0).1[k]? = some b →
      (prepareLoop be m bds 0 0).1[k']? = some b' →
      b.blasByteOffset + b.prebuildInfo.ResultDataMaxSizeInBytes ≤ b'.blasByteOffset := by
  have hmapmap : paddedMaxSizes (prepareLoop be m bds 0 0).1 =
      ((prepareLoop be m bds 0 0).1.map
        (fun b => b.prebuildInfo.ResultDataMaxSizeInBytes)).map (align_to 256) := by
    simp [paddedMaxSizes, D3D12_RAYTRACING_ACCELERATION_STRUCTURE_BYTE_ALIGNMENT]
  have hfit' : (((prepareLoop be m bds 0 0).1.map
      (fun b => b.prebuildInfo.ResultDataMaxSizeInBytes)).map (alignUp 256)).sum <
      18446744073709551616 := by
    simpa [List.map_map] using hfit
  obtain ⟨hsum, hlayout⟩ := aligned_layout _ hfit'
  rw [← hmapmap] at hsum hlayout
  have hoff : ∀ (k : Nat) (b : BlasData), (prepareLoop be m bds 0 0).1[k]? = some b →
      b.blasByteOffset = ((paddedMaxSizes (prepareLoop be m bds 0 0).1).take k).sum := by
    intro k b hk
    have hklt : k < bds.length := by
      rw [← prepareLoop_length be m bds 0 0]; exact (List.getElem?_eq_some_iff.mp hk).1
    have h1 := prepareLoop_getElem? be m bds 0 0 k _ (by decide) (by decide)
      (List.getElem?_eq_getElem hklt)
    rw [hk] at h1
    have hb := Option.some.inj h1
    have hpre : ((paddedMaxSizes (prepareLoop be m bds 0 0).1).take k).sum <
        18446744073709551616 := lt_of_le_of_lt (sum_take_le _ _) hsum
    rw [hb]
    simp only [prepareBlas, Nat.zero_add]
    exact u64_of_lt hpre
  intro k k' b b' hkk' hk hk'
  rw [hoff k b hk, hoff k' b' hk']
  have hx : ((prepareLoop be m bds 0 0).1.map
      (fun b => b.prebuildInfo.ResultDataMaxSizeInBytes))[k]? =
      some b.prebuildInfo.ResultDataMaxSizeInBytes := by
    rw [List.getElem?_map, hk]; rfl
  exact (hlayout k _ hx).2.2 k' hkk'

/-- The final offsets of a completed one-time pass, when the padded final sizes, summed exactly,
fit 64 bits: the range of a record ends before the offset of every later record. -/
theorem buildBlasOnce_final_layout (be : Backend) (gpu : Gpu) (s s' : ProceduralScene)
    (gpu' : Gpu) (h : buildBlasOnce be gpu s = .ok (s', gpu'))
    (hfit : (s'.mBlasData.map (fun b => alignUp 256 b.blasByteSize)).sum <
      18446744073709551616) :
    ∀ (k k' : Nat) (bd bd' : BlasData), k < k' → s'.mBlasData[k]? = some bd →
      s'.mBlasData[k']? = some bd' → bd.blasByteOffset + bd.blasByteSize ≤ bd'.blasByteOffset := by
  obtain ⟨blas1, totalMax, totalScratch, scratch, gpu1, dest, gpu2, pb, gpu3, blas2, total,
    mpBlas, gpu6, hP, hS, hD, hB, hR, hG, hs', _⟩ := buildBlasOnce_ok be gpu s s' gpu' h
  have hdata : s'.mBlasData = (compactLoop mpBlas.gpuAddress dest.gpuAddress blas2 0).1 := by
    rw [hs']; rfl
  have hsizes : paddedBlasSizes s'.mBlasData = paddedBlasSizes blas2 := by
    rw [hdata, compactLoop_sizes]
  have hexact := paddedBlasSizes_of_fit s'.mBlasData hfit
  have hsum : (paddedBlasSizes s'.mBlasData).sum < 18446744073709551616 := by
    rw [hexact]; exact hfit
  have hlen3 : s'.mBlasData.length = blas2.length := by
    rw [hdata]; exact (compactLoop_length _ _ _ _).1
  have hrec : ∀ k bd, s'.mBlasData[k]? = some bd →
      bd.blasByteOffset = ((paddedBlasSizes s'.mBlasData).take k).sum ∧
        bd.blasByteSize ≤ align_to 256 bd.blasByteSize := by
    intro k bd hk
    have hklt : k < blas2.length := by
      rw [← hlen3]; exact (List.getElem?_eq_some_iff.mp hk).1
    have h2 : blas2[k]? = some blas2[k] := List.getElem?_eq_getElem hklt
    have h3 := (compactLoop_getElem? mpBlas.gpuAddress dest.gpuAddress blas2 0 k _
      (by decide) h2).1
    rw [← hdata, hk, Nat.zero_add, ← hsizes] at h3
    have hpre : ((paddedBlasSizes s'.mBlasData).take k).sum < 18446744073709551616 :=
      lt_of_le_of_lt (sum_take_le _ _) hsum
    rw [u64_of_lt hpre] at h3
    have hbd := Option.some.inj h3
    have hmem : alignUp 256 bd.blasByteSize ∈
        s'.mBlasData.map (fun b => alignUp 256 b.blasByteSize) :=
      List.mem_map.mpr ⟨bd, List.getElem?_mem hk, rfl⟩
    have hlt : alignUp 256 bd.blasByteSize < 18446744073709551616 :=
      lt_of_le_of_lt (List.single_le_sum (by simp) _ hmem) hfit
    refine ⟨by rw [hbd], ?_⟩
    rw [align_to_eq_alignUp hlt]
    exact le_alignUp _
  intro k k' bd bd' hkk' hk hk'
  obtain ⟨hoff, hle⟩ := hrec k bd hk
  have hpad := paddedBlasSizes_getElem? _ k bd hk
  rw [(hrec k' bd' hk').1, hoff]
  have := sum_take_mono _ _ hpad hkk'
  omega

/-- C14: in a completed one-time pass of `buildBlas`, when the padded prebuild maximum sizes
summed exactly fit 64 bits, the intermediate offsets (given by the first loop) are non-decreasing
in Blas order, and the offset of a Blas with a nonzero prebuild maximum size is strictly below the
offset of every later Blas; when the padded post-build sizes summed exactly fit 64 bits, the same
holds of the final offsets with the post-build sizes `blasByteSize`. -/
theorem buildBlas_offsets_increasing (be : Backend) (gpu : Gpu) (s s' : ProceduralScene)
    (gpu' : Gpu) (hflag : s.mRebuildBlas = true) (h : buildBlas be gpu s = .ok (s', gpu'))
    (hfitMax : ((prepareLoop be s.mBlasUpdateMode s.mBlasData 0 0).1.map
      (fun b => alignUp 256 b.prebuildInfo.ResultDataMaxSizeInBytes)).sum <
        18446744073709551616)
    (hfit : (s'.mBlasData.map (fun b => alignUp 256 b.blasByteSize)).sum <
      18446744073709551616) :
    (∀ (i j : Nat) (bi bj : BlasData), i < j →
      (prepareLoop be s.mBlasUpdateMode s.mBlasData 0 0).1[i]? = some bi →
      (prepareLoop be s.mBlasUpdateMode s.mBlasData 0 0).1[j]? = some bj →
      bi.blasByteOffset ≤ bj.blasByteOffset ∧
        (0 < bi.prebuildInfo.ResultDataMaxSizeInBytes →
          bi.blasByteOffset < bj.blasByteOffset)) ∧
    (∀ (i j : Nat) (bi bj : BlasData), i < j →
      s'.mBlasData[i]? = some bi → s'.mBlasData[j]? = some bj →
      bi.blasByteOffset ≤ bj.blasByteOffset ∧
        (0 < bi.blasByteSize → bi.blasByteOffset < bj.blasByteOffset)) := by
  simp only [buildBlas, hflag, if_true] at h
  constructor
  · intro i j bi bj hij hi hj
    have := prepareLoop_offsets be s.mBlasUpdateMode s.mBlasData hfitMax i j bi bj hij hi hj
    exact ⟨by omega, fun hpos => by omega⟩
  · intro i j bi bj hij hi hj
    have := buildBlasOnce_final_layout be gpu s s' gpu' h hfit i j bi bj hij hi hj
    exact ⟨by omega, fun hpos => by omega⟩

/-- Witness for C14: scenario B of the specification. -/
theorem buildBlas_offsets_increasing_witness :
    (sceneWithGeometry exampleBackend scenarioB).1.mRebuildBlas = true ∧
      buildBlas exampleBackend (sceneWithGeometry exampleBackend scenarioB).2
          (sceneWithGeometry exampleBackend scenarioB).1 =
        .ok ((sceneWithBlas exampleBackend scenarioB).1,
          (sceneWithBlas exampleBackend scenarioB).2) ∧
      ((prepareLoop exampleBackend (sceneWithGeometry exampleBackend scenarioB).1.mBlasUpdateMode
          (sceneWithGeometry exampleBackend scenarioB).1.mBlasData 0 0).1.map
        (fun b => alignUp 256 b.prebuildInfo.ResultDataMaxSizeInBytes)).sum <
          18446744073709551616 ∧
      ((sceneWithBlas exampleBackend scenarioB).1.mBlasData.map
        (fun b => alignUp 256 b.blasByteSize)).sum < 18446744073709551616 ∧
      (∀ (i j : Nat) (bi bj : BlasData), i < j →
        (prepareLoop exampleBackend (sceneWithGeometry exampleBackend scenarioB).1.mBlasUpdateMode
          (sceneWithGeometry exampleBackend scenarioB).1.mBlasData 0 0).1[i]? = some bi →
        (prepareLoop exampleBackend (sceneWithGeometry exampleBackend scenarioB).1.mBlasUpdateMode
          (sceneWithGeometry exampleBackend scenarioB).1.mBlasData 0 0).1[j]? = some bj →
        bi.blasByteOffset ≤ bj.blasByteOffset ∧
          (0 < bi.prebuildInfo.ResultDataMaxSizeInBytes →
            bi.blasByteOffset < bj.blasByteOffset)) ∧
      (∀ (i j : Nat) (bi bj : BlasData), i < j →
        (sceneWithBlas exampleBackend scenarioB).1.mBlasData[i]? = some bi →
        (sceneWithBlas exampleBackend scenarioB).1.mBlasData[j]? = some bj →
        bi.blasByteOffset ≤ bj.blasByteOffset ∧
          (0 < bi.blasByteSize → bi.blasByteOffset < bj.blasByteOffset)) :=
  ⟨rfl, rfl, by decide, by decide,
    buildBlas_offsets_increasing exampleBackend (sceneWithGeometry exampleBackend scenarioB).2
      (sceneWithGeometry exampleBackend scenarioB).1 (sceneWithBlas exampleBackend scenarioB).1
      (sceneWithBlas exampleBackend scenarioB).2 rfl rfl (by decide) (by decide)⟩

/-- Counterexample for C14 as stated: on a backend reporting sizes of 0 bytes, the two Blas of
scenario B get the same intermediate offset 0 and the same final offset 0; on a backend reporting
sizes of 2^63 bytes, the three Blas of a scene get the intermediate and final offsets
0, 2^63, 0, the third sum wrapping at 2^64. Both passes complete. -/
theorem blasByteOffset_not_increasing :
    intermediateOffsets zeroSizeBackend (sceneWithGeometry zeroSizeBackend scenarioB).1 = [0, 0] ∧
      buildBlas zeroSizeBackend (sceneWithGeometry zeroSizeBackend scenarioB).2
          (sceneWithGeometry zeroSizeBackend scenarioB).1 =
        .ok ((sceneWithBlas zeroSizeBackend scenarioB).1,
          (sceneWithBlas zeroSizeBackend scenarioB).2) ∧
      finalOffsets (sceneWithBlas zeroSizeBackend scenarioB).1 = [0, 0] ∧
      intermediateOffsets hugeResultBackend (sceneWithGeometry hugeResultBackend threeBlasScene).1 =
        [0, 9223372036854775808, 0] ∧
      buildBlas hugeResultBackend (sceneWithGeometry hugeResultBackend threeBlasScene).2
          (sceneWithGeometry hugeResultBackend threeBlasScene).1 =
        .ok ((sceneWithBlas hugeResultBackend threeBlasScene).1,
          (sceneWithBlas hugeResultBackend threeBlasScene).2) ∧
      finalOffsets (sceneWithBlas hugeResultBackend threeBlasScene).1 =
        [0, 9223372036854775808, 0] :=
  ⟨rfl, rfl, rfl, rfl, rfl, rfl⟩

/-! ## The geometry buffer of `initGeomDesc` -/

theorem collectGeometries_eq (be : Backend) (geoms : List Geometry) (acc : List DxAABB) :
    collectGeometries be geoms acc =
      acc ++ (primitivesOf geoms).map (convertBoundingBox2DxAABB be) := by
  induction geoms generalizing acc with
  | nil => simp [collectGeometries, primitivesOf]
  | cons g rest ih => simp [collectGeometries, primitivesOf, ih]

theorem collectAABBs_eq (be : Backend) (groups : List Blas) (acc : List DxAABB) :
    collectAABBs be groups acc =
      acc ++ (flattenedPrimitives groups).map (convertBoundingBox2DxAABB be) := by
  induction groups generalizing acc with
  | nil => simp [collectAABBs, flattenedPrimitives]
  | cons g rest ih => simp [collectAABBs, flattenedPrimitives, ih, collectGeometries_eq]

theorem primitivesOf_length (geoms : List Geometry) :
    (primitivesOf geoms).length = (geoms.map (fun g => g.mPrimitives.length)).sum := by
  induction geoms with
  | nil => rfl
  | cons g rest ih => simp [primitivesOf, ih]

theorem flattenedPrimitives_length (t : Tlas) :
    (flattenedPrimitives t).length = totalPrimitiveCount t := by
  induction t with
  | nil => rfl
  | cons b rest ih =>
    simp only [flattenedPrimitives, List.length_append, ih, primitivesOf_length,
      totalPrimitiveCount, List.map_cons, List.sum_cons]

theorem geomDescList_length (addr : Nat) (geoms : List Geometry) (off : Nat) :
    (geomDescList addr geoms off).length = geoms.length := by
  induction geoms generalizing off with
  | nil => rfl
  | cons g rest ih => simp [geomDescList, ih]

theorem blasRecordList_getElem? (addr : Nat) (groups : List Blas) (off k : Nat) (blas : Blas)
    (h : groups[k]? = some blas) :
    ∃ off', (blasRecordList addr groups off)[k]? =
      some { BlasData.init with geomDescs := geomDescList addr blas.mGeometries off' } := by
  induction groups generalizing off k with
  | nil => simp at h
  | cons g rest ih =>
    cases k with
    | zero =>
      simp only [List.getElem?_cons_zero, Option.some.injEq] at h
      subst h
      exact ⟨off, by simp [blasRecordList]⟩
    | succ j =>
      simp only [List.getElem?_cons_succ] at h
      obtain ⟨off', h'⟩ := ih (offsetAfter g.mGeometries off) j h
      exact ⟨off', by simpa [blasRecordList] using h'⟩

theorem manyBlasScene_length (n : Nat) : (manyBlasScene n).mTlas.length = n := by
  simp [manyBlasScene, setScene]

theorem manyBlasScene_primitives (n : Nat) : totalPrimitiveCount (manyBlasScene n).mTlas = n := by
  simp [manyBlasScene, setScene, totalPrimitiveCount, exampleBlas]

/-- C18 (as amended): for a scene of at most `2^31 - 1` Blas groups, `initGeomDesc`, run on a
state without build records (as its only call site does) and for a scene whose boxes fit the
64-bit address space, completes and creates one geometry buffer, initialised with one box per
primitive of the scene: the buffer holds `Σ primitiveCount` boxes, its size is that count times
`sizeof(D3D12_RAYTRACING_AABB)`, and its `n`-th box comes from the `n`-th primitive in flattened
Blas-major, geometry-minor, primitive order, with min corner = center − extent and max corner =
center + extent per component; and it leaves exactly one build record per Blas, in Blas order, the
`k`-th holding as many descriptors as the `k`-th Blas has geometries. -/
theorem initGeomDesc_geometry_buffer (be : Backend) (gpu : Gpu) (s : ProceduralScene)
    (hempty : s.mBlasData = [])
    (hfits : sizeofAABB * totalPrimitiveCount s.mTlas < 18446744073709551616)
    (hindex : s.mTlas.length ≤ 2147483647) :
    ∃ (s' : ProceduralScene) (gpu' : Gpu) (buffer : Buffer) (boxes : List DxAABB),
      initGeomDesc be gpu s = .ok (s', gpu') ∧
      s'.mpGeometryBuffer = some buffer ∧
      gpu'.cmds = gpu.cmds ++
        [Command.createBuffer buffer (BlobData.aabbs boxes), Command.resourceBarrier buffer.id] ∧
      boxes.length = totalPrimitiveCount s.mTlas ∧
      buffer.size = totalPrimitiveCount s.mTlas * sizeofAABB ∧
      (∀ (n : Nat) (p : BoundingBox), (flattenedPrimitives s.mTlas)[n]? = some p →
        ∃ box : DxAABB, boxes[n]? = some box ∧
          box.MinX = be.fsub p.center.x p.extent.x ∧
          box.MinY = be.fsub p.center.y p.extent.y ∧
          box.MinZ = be.fsub p.center.z p.extent.z ∧
          box.MaxX = be.fadd p.center.x p.extent.x ∧
          box.MaxY = be.fadd p.center.y p.extent.y ∧
          box.MaxZ = be.fadd p.center.z p.extent.z) ∧
      s'.mBlasData.length = s.mTlas.length ∧
      ∀ (k : Nat) (blas : Blas), s.mTlas[k]? = some blas →
        ∃ bd : BlasData, s'.mBlasData[k]? = some bd ∧
          bd.geomDescs.length = blas.mGeometries.length := by
  have hboxes : collectAABBs be s.mTlas [] =
      (flattenedPrimitives s.mTlas).map (convertBoundingBox2DxAABB be) := by
    rw [collectAABBs_eq]; rfl
  have hlen : (collectAABBs be s.mTlas []).length = totalPrimitiveCount s.mTlas := by
    rw [hboxes, List.length_map, flattenedPrimitives_length]
  refine ⟨_, _, _, collectAABBs be s.mTlas [], initGeomDesc_eq be gpu s hempty hindex, rfl, ?_,
    hlen, ?_, ?_, ?_, ?_⟩
  · simp [Buffer.create, Gpu.issue]
  · simp only [Buffer.create]
    rw [hlen, u64_of_lt hfits, Nat.mul_comm]
  · intro n p hp
    refine ⟨convertBoundingBox2DxAABB be p, ?_, rfl, rfl, rfl, rfl, rfl, rfl⟩
    rw [hboxes, List.getElem?_map, hp]
    rfl
  · exact blasRecordList_length _ _ _
  · intro k blas hk
    obtain ⟨off', hrec⟩ := blasRecordList_getElem? (Buffer.create be gpu
      (u64 (sizeofAABB * (collectAABBs be s.mTlas []).length))
      (BlobData.aabbs (collectAABBs be s.mTlas []))).1.gpuAddress s.mTlas 0 k blas hk
    exact ⟨_, hrec, geomDescList_length _ _ _⟩

/-- Witness for C18: the scene whose first Blas has two geometries. -/
theorem initGeomDesc_geometry_buffer_witness :
    (setScene ProceduralScene.create twoGeometryScene).mBlasData = [] ∧
      sizeofAABB * totalPrimitiveCount (setScene ProceduralScene.create twoGeometryScene).mTlas <
        18446744073709551616 ∧
      (setScene ProceduralScene.create twoGeometryScene).mTlas.length ≤ 2147483647 ∧
      ∃ (s' : ProceduralScene) (gpu' : Gpu) (buffer : Buffer) (boxes : List DxAABB),
        initGeomDesc exampleBackend { cmds := [], nextId := 0 }
            (setScene ProceduralScene.create twoGeometryScene) = .ok (s', gpu') ∧
        s'.mpGeometryBuffer = some buffer ∧
        gpu'.cmds =
          ({ cmds := [], nextId := 0 } : Gpu).cmds ++
            [Command.createBuffer buffer (BlobData.aabbs boxes),
              Command.resourceBarrier buffer.id] ∧
        boxes.length = totalPrimitiveCount (setScene ProceduralScene.create twoGeometryScene).mTlas ∧
        buffer.size =
          totalPrimitiveCount (setScene ProceduralScene.create twoGeometryScene).mTlas *
            sizeofAABB ∧
        (∀ (n : Nat) (p : BoundingBox),
          (flattenedPrimitives (setScene ProceduralScene.create twoGeometryScene).mTlas)[n]? =
            some p →
          ∃ box : DxAABB, boxes[n]? = some box ∧
            box.MinX = exampleBackend.fsub p.center.x p.extent.x ∧
            box.MinY = exampleBackend.fsub p.center.y p.extent.y ∧
            box.MinZ = exampleBackend.fsub p.center.z p.extent.z ∧
            box.MaxX = exampleBackend.fadd p.center.x p.extent.x ∧
            box.MaxY = exampleBackend.fadd p.center.y p.extent.y ∧
            box.MaxZ = exampleBackend.fadd p.center.z p.extent.z) ∧
        s'.mBlasData.length = (setScene ProceduralScene.create twoGeometryScene).mTlas.length ∧
        ∀ (k : Nat) (blas : Blas),
          (setScene ProceduralScene.create twoGeometryScene).mTlas[k]? = some blas →
          ∃ bd : BlasData, s'.mBlasData[k]? = some bd ∧
            bd.geomDescs.length = blas.mGeometries.length :=
  ⟨rfl, by decide, by decide,
    initGeomDesc_geometry_buffer exampleBackend { cmds := [], nextId := 0 }
      (setScene ProceduralScene.create twoGeometryScene) rfl (by decide) (by decide)⟩

/-- Counterexample to C18 as stated: a scene of `2^31 + 1` Blas groups, each the example Blas with
its one box, set on a fresh object. It has no build record yet and its `2^31 + 1` boxes fit the
64-bit address space, but `initGeomDesc` does not leave one build record per Blas: the `int` index
of its second loop nest is incremented past `2^31 - 1`, which is undefined, and the run ends
there. -/
theorem initGeomDesc_index_overflows :
    (manyBlasScene 2147483649).mBlasData = [] ∧
      (manyBlasScene 2147483649).mTlas.length = 2147483649 ∧
      sizeofAABB * totalPrimitiveCount (manyBlasScene 2147483649).mTlas < 18446744073709551616 ∧
      initGeomDesc exampleBackend { cmds := [], nextId := 0 } (manyBlasScene 2147483649) =
        .error Fault.signedOverflow :=
  ⟨rfl, manyBlasScene_length 2147483649,
    by rw [manyBlasScene_primitives]; decide,
    initGeomDesc_overflow exampleBackend { cmds := [], nextId := 0 } (manyBlasScene 2147483649)
      rfl (by rw [manyBlasScene_length]; decide)⟩

/-- The geometry buffer of the scene whose first Blas has two geometries: three boxes, 72 bytes,
each box the corners (4, 4, 4) and (6, 8, 10) of the example box; two records with two and one
descriptors. -/
theorem initGeomDesc_example :
    (sceneWithGeometry exampleBackend twoGeometryScene).2.cmds =
        [Command.createBuffer { id := 0, size := 72, gpuAddress := 65536 }
            (BlobData.aabbs
              [{ MinX := 4, MinY := 4, MinZ := 4, MaxX := 6, MaxY := 8, MaxZ := 10 },
               { MinX := 4, MinY := 4, MinZ := 4, MaxX := 6, MaxY := 8, MaxZ := 10 },
               { MinX := 4, MinY := 4, MinZ := 4, MaxX := 6, MaxY := 8, MaxZ := 10 }]),
          Command.resourceBarrier 0] ∧
      (sceneWithGeometry exampleBackend twoGeometryScene).1.mBlasData.map
        (fun b => b.geomDescs.length) = [2, 1] :=
  ⟨rfl, rfl⟩

/-! ## `buildTlas` on a key that is already cached -/

/-- What a completed `buildTlas` does for a key whose entry has a result buffer, an
instance-descriptor buffer and a view, when the scratch buffer exists: the state and the six
commands, whatever the update mode. -/
theorem buildTlas_cached (be : Backend) (gpu : Gpu) (s s' : ProceduralScene) (gpu' : Gpu)
    (k : Nat) (e : TlasData) (b i sc : Buffer) (v : ShaderResourceView)
    (he : cacheFind s.mTlasCache k = some e) (hb : e.pTlas = some b)
    (hi : e.pInstanceDescs = some i) (hv : e.pSrv = some v) (hsc : s.mpTlasScratch = some sc)
    (h : buildTlas be gpu s k = .ok (s', gpu')) :
    ∃ descs : List InstanceDesc,
      fillInstanceDesc s s.mInstanceDescs k = .ok descs ∧
      s' = { s with
             mInstanceDescs := descs
             mTlasCache := cacheAssign s.mTlasCache k { e with updateMode := s.mTlasUpdateMode } } ∧
      gpu'.nextId = gpu.nextId ∧
      gpu'.cmds = gpu.cmds ++
        [Command.uavBarrier b.id, Command.uavBarrier sc.id,
         Command.setBlob i.id 0 (u64 (u32 descs.length * sizeofInstanceDesc)) descs,
         Command.resourceBarrier i.id,
         Command.build
           { Inputs := { tlasInputs descs with descs := InputDescs.InstanceDescs i.gpuAddress }
             ScratchAccelerationStructureData := sc.gpuAddress
             DestAccelerationStructureData := b.gpuAddress
             SourceAccelerationStructureData := b.gpuAddress } none,
         Command.uavBarrier b.id] := by
  unfold buildTlas at h
  cases hfill : fillInstanceDesc s s.mInstanceDescs k with
  | error err => simp [hfill] at h
  | ok descs =>
    simp only [hfill, cachedOrDefault, he, tlasScratchStep, hsc, tlasBufferStep, hb, hi,
      tlasSrvStep, hv, Gpu.issue] at h
    split at h
    · cases h
    · simp only [Except.ok.injEq, Prod.mk.injEq] at h
      obtain ⟨hs, hg⟩ := h
      refine ⟨descs, rfl, ?_, ?_, ?_⟩
      · rw [← hs]
        cases s
        simp_all
      · rw [← hg]
      · rw [← hg]
        simp [tlasBuildDesc, tlasInputs, BUILD_FLAG_NONE, BUILD_FLAG_PERFORM_UPDATE]
/-- C19: when `buildTlas` completes for a ray-type count whose cache entry has a result buffer, an
instance-descriptor buffer and a view (as every entry stored by `buildTlas` has) and the scratch
buffer exists, the entry stored afterwards under that key has the same result buffer, the same
instance-descriptor buffer and the same view; the regenerated instance stream is copied into that
instance-descriptor buffer from offset 0 with a length of `NumDescs` records; no buffer and no view
is created (the commands issued create none and the allocation counter is unchanged). -/
theorem buildTlas_reuses_entry (be : Backend) (gpu : Gpu) (s s' : ProceduralScene) (gpu' : Gpu)
    (k : Nat) (e : TlasData) (b i sc : Buffer) (v : ShaderResourceView)
    (he : cacheFind s.mTlasCache k = some e) (hb : e.pTlas = some b)
    (hi : e.pInstanceDescs = some i) (hv : e.pSrv = some v) (hsc : s.mpTlasScratch = some sc)
    (h : buildTlas be gpu s k = .ok (s', gpu')) :
    ∃ (e' : TlasData) (new : List Command),
      cacheFind s'.mTlasCache k = some e' ∧
      e'.pTlas = some b ∧ e'.pInstanceDescs = some i ∧ e'.pSrv = some v ∧
      s'.mpTlasScratch = some sc ∧
      fillInstanceDesc s s.mInstanceDescs k = .ok s'.mInstanceDescs ∧
      gpu'.cmds = gpu.cmds ++ new ∧
      Command.setBlob i.id 0
        (u64 ((tlasInputs s'.mInstanceDescs).NumDescs * sizeofInstanceDesc)) s'.mInstanceDescs ∈
          new ∧
      buffersCreatedBy new = [] ∧
      (∀ srv : ShaderResourceView, Command.createSrv srv ∉ new) ∧
      gpu'.nextId = gpu.nextId := by
  obtain ⟨descs, hfill, hs', hid, hcmds⟩ :=
    buildTlas_cached be gpu s s' gpu' k e b i sc v he hb hi hv hsc h
  have hdescs : s'.mInstanceDescs = descs := by rw [hs']
  refine ⟨{ e with updateMode := s.mTlasUpdateMode }, _, ?_, hb, hi, hv, ?_, ?_, hcmds, ?_, ?_,
    ?_, hid⟩
  · rw [hs']
    exact cacheFind_cacheAssign_self _ _ _
  · rw [hs']
    exact hsc
  · rw [hdescs]
    exact hfill
  · rw [hdescs]
    simp [tlasInputs]
  · simp [buffersCreatedBy]
  · intro srv
    simp

/-- Witness for C19: a second `buildTlas(2)` on scenario B after `get(1)` and `get(2)`. -/
theorem buildTlas_reuses_entry_witness :
    cacheFind scenarioBAfterGet2.1.mTlasCache 2 =
        some { pTlas := some { id := 9, size := 2048, gpuAddress := 655360 }
               pSrv := some { id := 11, resource := 9, location := 655360 }
               pInstanceDescs := some { id := 10, size := 128, gpuAddress := 720896 }
               updateMode := UpdateMode.Rebuild } ∧
      scenarioBAfterGet2.1.mpTlasScratch = some { id := 5, size := 500, gpuAddress := 393216 } ∧
      buildTlas exampleBackend scenarioBAfterGet2.2.1 scenarioBAfterGet2.1 2 =
        .ok (scenarioBRebuilt.1, scenarioBRebuilt.2) ∧
      ∃ (e' : TlasData) (new : List Command),
        cacheFind scenarioBRebuilt.1.mTlasCache 2 = some e' ∧
        e'.pTlas = some { id := 9, size := 2048, gpuAddress := 655360 } ∧
        e'.pInstanceDescs = some { id := 10, size := 128, gpuAddress := 720896 } ∧
        e'.pSrv = some { id := 11, resource := 9, location := 655360 } ∧
        scenarioBRebuilt.1.mpTlasScratch = some { id := 5, size := 500, gpuAddress := 393216 } ∧
        fillInstanceDesc scenarioBAfterGet2.1 scenarioBAfterGet2.1.mInstanceDescs 2 =
          .ok scenarioBRebuilt.1.mInstanceDescs ∧
        scenarioBRebuilt.2.cmds = scenarioBAfterGet2.2.1.cmds ++ new ∧
        Command.setBlob ({ id := 10, size := 128, gpuAddress := 720896 } : Buffer).id 0
          (u64 ((tlasInputs scenarioBRebuilt.1.mInstanceDescs).NumDescs * sizeofInstanceDesc))
            scenarioBRebuilt.1.mInstanceDescs ∈ new ∧
        buffersCreatedBy new = [] ∧
        (∀ srv : ShaderResourceView, Command.createSrv srv ∉ new) ∧
        scenarioBRebuilt.2.nextId = scenarioBAfterGet2.2.1.nextId :=
  ⟨rfl, rfl, rfl,
    buildTlas_reuses_entry exampleBackend scenarioBAfterGet2.2.1 scenarioBAfterGet2.1
      scenarioBRebuilt.1 scenarioBRebuilt.2 2
      { pTlas := some { id := 9, size := 2048, gpuAddress := 655360 }
        pSrv := some { id := 11, resource := 9, location := 655360 }
        pInstanceDescs := some { id := 10, size := 128, gpuAddress := 720896 }
        updateMode := UpdateMode.Rebuild }
      { id := 9, size := 2048, gpuAddress := 655360 }
      { id := 10, size := 128, gpuAddress := 720896 }
      { id := 5, size := 500, gpuAddress := 393216 }
      { id := 11, resource := 9, location := 655360 } rfl rfl rfl rfl rfl rfl⟩

theorem append_two {α : Type} (l : List α) (a b : α) : l ++ [a] ++ [b] = l ++ [a, b] := by simp

theorem append_three {α : Type} (l : List α) (a b c : α) :
    l ++ [a] ++ [b] ++ [c] = l ++ [a, b, c] := by simp

theorem tlasScratchStep_cmds (be : Backend) (gpu : Gpu) (s : ProceduralScene)
    (inputs : BuildInputs) (scratch : Buffer) (info : PrebuildInfo) (gpu1 : Gpu)
    (h : tlasScratchStep be gpu s inputs = .ok (scratch, info, gpu1)) :
    ∃ new, gpu1.cmds = gpu.cmds ++ new ∧
      ∀ c ∈ new, (isGeometryBufferCreation c || isFlush c) = false := by
  unfold tlasScratchStep at h
  cases hsc : s.mpTlasScratch with
  | some b =>
    simp only [hsc, Except.ok.injEq, Prod.mk.injEq] at h
    rw [← h.2.2]
    exact ⟨[], by simp, by simp⟩
  | none =>
    simp only [hsc, Buffer.create] at h
    split at h
    · simp only [Except.ok.injEq, Prod.mk.injEq] at h
      rw [← h.2.2]
      exact ⟨_, rfl, by simp [isGeometryBufferCreation, isFlush]⟩
    · cases h

theorem tlasBufferStep_cmds (be : Backend) (gpu : Gpu) (tlas : TlasData) (mpTlasScratch : Buffer)
    (info : PrebuildInfo) (inputs : BuildInputs) (descs : List InstanceDesc)
    (pTlas pInstanceDescs : Buffer) (source : Nat) (gpu2 : Gpu)
    (h : tlasBufferStep be gpu tlas mpTlasScratch info inputs descs =
      .ok (pTlas, pInstanceDescs, source, gpu2)) :
    ∃ new, gpu2.cmds = gpu.cmds ++ new ∧
      ∀ c ∈ new, (isGeometryBufferCreation c || isFlush c) = false := by
  unfold tlasBufferStep at h
  cases hp : tlas.pTlas with
  | none =>
    cases hi : tlas.pInstanceDescs with
    | some b => simp [hp, hi] at h
    | none =>
      simp only [hp, hi, Buffer.create, Except.ok.injEq, Prod.mk.injEq] at h
      rw [← h.2.2.2]
      exact ⟨_, append_two _ _ _, by simp [isGeometryBufferCreation, isFlush]⟩
  | some b =>
    cases hi : tlas.pInstanceDescs with
    | none => simp [hp, hi] at h
    | some i =>
      simp only [hp, hi, Gpu.issue, Except.ok.injEq, Prod.mk.injEq] at h
      rw [← h.2.2.2]
      exact ⟨_, append_three _ _ _ _, by simp [isGeometryBufferCreation, isFlush]⟩

theorem tlasSrvStep_cmds (gpu : Gpu) (tlas : TlasData) (pTlas : Buffer) :
    ∃ new, (tlasSrvStep gpu tlas pTlas).2.cmds = gpu.cmds ++ new ∧
      ∀ c ∈ new, (isGeometryBufferCreation c || isFlush c) = false := by
  unfold tlasSrvStep
  cases hv : tlas.pSrv with
  | none => exact ⟨[_], rfl, by simp [isGeometryBufferCreation, isFlush]⟩
  | some v => exact ⟨[], by simp, by simp⟩

/-- A completed `buildTlas` creates no geometry buffer and issues no flush, and leaves the members
of the first-use step alone. -/
theorem buildTlas_cmds (be : Backend) (gpu : Gpu) (s s' : ProceduralScene) (gpu' : Gpu) (k : Nat)
    (h : buildTlas be gpu s k = .ok (s', gpu')) :
    (∃ new, gpu'.cmds = gpu.cmds ++ new ∧
      ∀ c ∈ new, (isGeometryBufferCreation c || isFlush c) = false) ∧
    s'.mpGeometryBuffer = s.mpGeometryBuffer ∧ s'.mpBlas = s.mpBlas ∧
    s'.mpBlasScratch = s.mpBlasScratch ∧ s'.mRebuildBlas = s.mRebuildBlas ∧
    s'.mRTStats = s.mRTStats := by
  unfold buildTlas at h
  cases hfill : fillInstanceDesc s s.mInstanceDescs k with
  | error e => simp [hfill] at h
  | ok descs =>
    simp only [hfill] at h
    split at h
    · cases h
    · rename_i mpTlasScratch info gpu1 hscratch
      split at h
      · cases h
      · rename_i pTlas pInstanceDescs source gpu2 hbuffer
        split at h
        · cases h
        · rename_i hnum
          simp only [Except.ok.injEq, Prod.mk.injEq, Gpu.issue] at h
          obtain ⟨hs', hgpu'⟩ := h
          obtain ⟨n1, h1, q1⟩ := tlasScratchStep_cmds be gpu s _ _ _ _ hscratch
          obtain ⟨n2, h2, q2⟩ := tlasBufferStep_cmds be gpu1 _ _ _ _ _ _ _ _ _ hbuffer
          obtain ⟨n3, h3, q3⟩ := tlasSrvStep_cmds
            { cmds := gpu2.cmds ++ [Command.resourceBarrier pInstanceDescs.id] ++
                [Command.build (tlasBuildDesc (tlasInputs descs) mpTlasScratch pTlas
                  pInstanceDescs source) none] ++ [Command.uavBarrier pTlas.id],
              nextId := gpu2.nextId }
            { cachedOrDefault s k with updateMode := s.mTlasUpdateMode } pTlas
          simp only at h3
          refine ⟨⟨n1 ++ n2 ++ [Command.resourceBarrier pInstanceDescs.id,
            Command.build (tlasBuildDesc (tlasInputs descs) mpTlasScratch pTlas
              pInstanceDescs source) none, Command.uavBarrier pTlas.id] ++ n3, ?_, ?_⟩,
            by rw [← hs'], by rw [← hs'], by rw [← hs'], by rw [← hs'], by rw [← hs']⟩
          · rw [← hgpu', h3, h2, h1]
            simp
          · intro c hc
            simp only [List.mem_append, List.mem_cons, List.mem_singleton,
              List.not_mem_nil, or_false] at hc
            rcases hc with ((hc | hc) | hc) | hc
            · exact q1 c hc
            · exact q2 c hc
            · rcases hc with rfl | rfl | rfl <;> rfl
            · exact q3 c hc
theorem quiet_counts (l : List Command)
    (h : ∀ c ∈ l, (isGeometryBufferCreation c || isFlush c) = false) :
    geometryBufferCount l = 0 ∧ flushCount l = 0 := by
  unfold geometryBufferCount flushCount
  rw [List.countP_eq_zero, List.countP_eq_zero]
  constructor
  · intro c hc
    have := h c hc
    simp only [Bool.or_eq_false_iff] at this
    simp [this.1]
  · intro c hc
    have := h c hc
    simp only [Bool.or_eq_false_iff] at this
    simp [this.2]

theorem geometryBufferCount_append (l₁ l₂ : List Command) :
    geometryBufferCount (l₁ ++ l₂) = geometryBufferCount l₁ + geometryBufferCount l₂ :=
  List.countP_append _ _ _

theorem flushCount_append (l₁ l₂ : List Command) :
    flushCount (l₁ ++ l₂) = flushCount l₁ + flushCount l₂ :=
  List.countP_append _ _ _

theorem buildLoop_quiet (sa da pa : Nat) (bds : List BlasData) (off : Nat) :
    ∀ c ∈ buildLoop sa da pa bds off, (isGeometryBufferCreation c || isFlush c) = false := by
  induction bds generalizing off with
  | nil => simp [buildLoop]
  | cons b rest ih =>
    intro c hc
    simp only [buildLoop, List.mem_cons] at hc
    rcases hc with rfl | hc
    · rfl
    · exact ih _ c hc

theorem compactLoop_quiet (a d : Nat) (bds : List BlasData) (off : Nat) :
    ∀ c ∈ (compactLoop a d bds off).2.1,
      (isGeometryBufferCreation c || isFlush c) = false := by
  induction bds generalizing off with
  | nil => simp [compactLoop]
  | cons b rest ih =>
    intro c hc
    rw [compactLoop_cons] at hc
    simp only [List.mem_cons] at hc
    rcases hc with rfl | hc
    · rfl
    · exact ih _ c hc

theorem growBuffer_quiet (be : Backend) (gpu : Gpu) (cur : Option Buffer) (size : Nat) :
    ∃ c, (growBuffer be gpu cur size).2.cmds = gpu.cmds ++ [c] ∧
      (isGeometryBufferCreation c || isFlush c) = false := by
  unfold growBuffer
  cases cur with
  | none => exact ⟨_, rfl, rfl⟩
  | some b =>
    by_cases hlt : b.size < size
    · simp only [hlt, if_true]
      exact ⟨_, rfl, rfl⟩
    · simp only [hlt, if_false]
      exact ⟨_, rfl, rfl⟩

/-- The commands of a completed one-time pass: one flush, between commands that are neither a flush
nor the creation of a geometry buffer. -/
theorem buildBlasOnce_cmds (be : Backend) (gpu : Gpu) (s s' : ProceduralScene) (gpu' : Gpu)
    (h : buildBlasOnce be gpu s = .ok (s', gpu')) :
    ∃ new, gpu'.cmds = gpu.cmds ++ new ∧ geometryBufferCount new = 0 ∧ flushCount new = 1 := by
  obtain ⟨blas1, totalMax, totalScratch, scratch, gpu1, dest, gpu2, pb, gpu3, blas2, total,
    mpBlas, gpu6, hP, hS, hD, hB, hR, hG, hs', hgpu'⟩ := buildBlasOnce_ok be gpu s s' gpu' h
  obtain ⟨c1, hc1, q1⟩ := growBuffer_quiet be gpu s.mpBlasScratch totalScratch
  obtain ⟨c2, hc2, q2⟩ := growBuffer_quiet be
    { cmds := gpu3.cmds ++ buildLoop scratch.gpuAddress dest.gpuAddress pb.gpuAddress blas1 0 ++
        [Command.flush], nextId := gpu3.nextId } s.mpBlas total
  rw [hS] at hc1
  rw [hG] at hc2
  simp only at hc1 hc2
  have hgpu2 : gpu2.cmds = gpu1.cmds ++ [Command.createBuffer dest BlobData.none] := by
    have h1 := congrArg Prod.fst hD
    have h2 := congrArg Prod.snd hD
    simp only [Buffer.create] at h1 h2
    rw [← h2, ← h1]
  have hgpu3 : gpu3.cmds = gpu2.cmds ++ [Command.createBuffer pb BlobData.none] := by
    have h1 := congrArg Prod.fst hB
    have h2 := congrArg Prod.snd hB
    simp only [Buffer.create] at h1 h2
    rw [← h2, ← h1]
  refine ⟨([c1, Command.createBuffer dest BlobData.none, Command.createBuffer pb BlobData.none] ++
      buildLoop scratch.gpuAddress dest.gpuAddress pb.gpuAddress blas1 0) ++ [Command.flush] ++
      ([c2, Command.uavBarrier dest.id] ++
        (compactLoop mpBlas.gpuAddress dest.gpuAddress blas2 0).2.1 ++
        [Command.uavBarrier mpBlas.id]), ?_, ?_, ?_⟩
  · rw [hgpu']
    simp only
    rw [hc2, hgpu3, hgpu2, hc1]
    simp
  · have hpre := quiet_counts ([c1, Command.createBuffer dest BlobData.none,
        Command.createBuffer pb BlobData.none] ++
        buildLoop scratch.gpuAddress dest.gpuAddress pb.gpuAddress blas1 0) (by
      intro c hc
      simp only [List.mem_append, List.mem_cons, List.not_mem_nil, or_false] at hc
      rcases hc with (rfl | rfl | rfl) | hc
      · exact q1
      · rfl
      · rfl
      · exact buildLoop_quiet _ _ _ _ _ c hc)
    have hpost := quiet_counts ([c2, Command.uavBarrier dest.id] ++
        (compactLoop mpBlas.gpuAddress dest.gpuAddress blas2 0).2.1 ++
        [Command.uavBarrier mpBlas.id]) (by
      intro c hc
      simp only [List.mem_append, List.mem_cons, List.not_mem_nil, or_false] at hc
      rcases hc with ((rfl | rfl) | hc) | rfl
      · exact q2
      · rfl
      · exact compactLoop_quiet _ _ _ _ c hc
      · rfl)
    rw [geometryBufferCount_append, geometryBufferCount_append, hpre.1, hpost.1]
    rfl
  · have hpre := quiet_counts ([c1, Command.createBuffer dest BlobData.none,
        Command.createBuffer pb BlobData.none] ++
        buildLoop scratch.gpuAddress dest.gpuAddress pb.gpuAddress blas1 0) (by
      intro c hc
      simp only [List.mem_append, List.mem_cons, List.not_mem_nil, or_false] at hc
      rcases hc with (rfl | rfl | rfl) | hc
      · exact q1
      · rfl
      · rfl
      · exact buildLoop_quiet _ _ _ _ _ c hc)
    have hpost := quiet_counts ([c2, Command.uavBarrier dest.id] ++
        (compactLoop mpBlas.gpuAddress dest.gpuAddress blas2 0).2.1 ++
        [Command.uavBarrier mpBlas.id]) (by
      intro c hc
      simp only [List.mem_append, List.mem_cons, List.not_mem_nil, or_false] at hc
      rcases hc with ((rfl | rfl) | hc) | rfl
      · exact q2
      · rfl
      · exact compactLoop_quiet _ _ _ _ c hc
      · rfl)
    rw [flushCount_append, flushCount_append, hpre.2, hpost.2]
    rfl
/-- A completed call of `setRaytracingShaderData` on a state that has build records skips the
first-use step: no geometry buffer is created, no flush is issued, and the members written by
`initGeomDesc` and `buildBlas` are unchanged. -/
theorem setRaytracingShaderData_later (be : Backend) (gpu : Gpu) (s s' : ProceduralScene)
    (gpu' : Gpu) (k : Nat) (v : ShaderResourceView) (hdata : s.mBlasData ≠ [])
    (h : setRaytracingShaderData be gpu s k = .ok (s', gpu', v)) :
    (∃ new, gpu'.cmds = gpu.cmds ++ new ∧
      ∀ c ∈ new, (isGeometryBufferCreation c || isFlush c) = false) ∧
    s'.mBlasData = s.mBlasData ∧ s'.mpGeometryBuffer = s.mpGeometryBuffer ∧
    s'.mpBlas = s.mpBlas ∧ s'.mpBlasScratch = s.mpBlasScratch ∧
    s'.mRebuildBlas = s.mRebuildBlas ∧ s'.mRTStats = s.mRTStats := by
  obtain ⟨s1, gpu1, hfirst, hrest⟩ := setRaytracingShaderData_ok be gpu s s' gpu' k v h
  rcases hfirst with ⟨_, hs1, hg1⟩ | ⟨hempty, _⟩
  swap
  · exact absurd hempty hdata
  subst hs1
  subst hg1
  rcases hrest with ⟨_, _, _, hs', hg'⟩ | ⟨_, hb, _⟩
  · subst hs'
    subst hg'
    exact ⟨⟨[], by simp, by simp⟩, rfl, rfl, rfl, rfl, rfl, rfl⟩
  · obtain ⟨hc, h1, h2, h3, h4, h5⟩ := buildTlas_cmds be gpu1 s1 s' gpu' k hb
    obtain ⟨_, _, _, _, _, _, _, _, _, hd, _⟩ := buildTlas_ok be gpu1 s1 s' gpu' k hb
    exact ⟨hc, hd, h1, h2, h3, h4, h5⟩

/-- A completed sequence of calls on a state that has build records skips the first-use step in
every call. -/
theorem getSequence_later (be : Backend) (ks : List Nat) (gpu : Gpu) (s s' : ProceduralScene)
    (gpu' : Gpu) (hdata : s.mBlasData ≠ [])
    (h : getSequence be gpu s ks = .ok (s', gpu')) :
    (∃ new, gpu'.cmds = gpu.cmds ++ new ∧
      ∀ c ∈ new, (isGeometryBufferCreation c || isFlush c) = false) ∧
    s'.mBlasData = s.mBlasData ∧ s'.mpGeometryBuffer = s.mpGeometryBuffer ∧
    s'.mpBlas = s.mpBlas ∧ s'.mpBlasScratch = s.mpBlasScratch ∧
    s'.mRebuildBlas = s.mRebuildBlas ∧ s'.mRTStats = s.mRTStats := by
  induction ks generalizing gpu s with
  | nil =>
    simp only [getSequence, Except.ok.injEq, Prod.mk.injEq] at h
    obtain ⟨hs, hg⟩ := h
    subst hs
    subst hg
    exact ⟨⟨[], by simp, by simp⟩, rfl, rfl, rfl, rfl, rfl, rfl⟩
  | cons k rest ih =>
    rw [getSequence] at h
    split at h
    · cases h
    · rename_i s1 gpu1 v hget
      obtain ⟨⟨n1, hn1, q1⟩, a1, a2, a3, a4, a5, a6⟩ :=
        setRaytracingShaderData_later be gpu s s1 gpu1 k v hdata hget
      obtain ⟨⟨n2, hn2, q2⟩, b1, b2, b3, b4, b5, b6⟩ :=
        ih gpu1 s1 (by rw [a1]; exact hdata) h
      refine ⟨⟨n1 ++ n2, by rw [hn2, hn1, List.append_assoc], ?_⟩, by rw [b1, a1], by rw [b2, a2],
        by rw [b3, a3], by rw [b4, a4], by rw [b5, a5], by rw [b6, a6]⟩
      intro c hc
      rcases List.mem_append.mp hc with hc | hc
      · exact q1 c hc
      · exact q2 c hc

/-- The first completed call of `setRaytracingShaderData` on a scene not yet used (no build record,
one-time flag set, empty cache) creates one geometry buffer and issues one flush, and leaves build
records and the one-time flag cleared. -/
theorem setRaytracingShaderData_first (be : Backend) (gpu : Gpu) (s s' : ProceduralScene)
    (gpu' : Gpu) (k : Nat) (v : ShaderResourceView) (hempty : s.mBlasData = [])
    (hflag : s.mRebuildBlas = true) (hcache : s.mTlasCache = [])
    (h : setRaytracingShaderData be gpu s k = .ok (s', gpu', v)) :
    (∃ new, gpu'.cmds = gpu.cmds ++ new ∧ geometryBufferCount new = 1 ∧ flushCount new = 1) ∧
    s'.mBlasData ≠ [] ∧ s'.mRebuildBlas = false ∧ s'.mpGeometryBuffer ≠ none := by
  obtain ⟨s1, gpu1, hfirst, hrest⟩ := setRaytracingShaderData_ok be gpu s s' gpu' k v h
  have hc1 := firstStep_cache be gpu s s1 gpu1 hfirst
  rcases hfirst with ⟨hne, _, _⟩ | ⟨_, s0, gpu0, hinit, hblas⟩
  · exact absurd hempty hne
  rcases hrest with ⟨e, he, _⟩ | ⟨_, hb, _⟩
  · rw [hc1, hcache] at he
    simp [cacheFind] at he
  have hinit' := hinit
  rw [initGeomDesc_eq be gpu s hempty (initGeomDesc_groups be gpu s s0 gpu0 hempty hinit)]
    at hinit'
  simp only [Except.ok.injEq, Prod.mk.injEq] at hinit'
  obtain ⟨hs0, hg0⟩ := hinit'
  have hflag0 : s0.mRebuildBlas = true := by rw [← hs0]; exact hflag
  have hgeo0 : s0.mpGeometryBuffer ≠ none := by rw [← hs0]; simp
  have hcmds0 : ∃ buf boxes, gpu0.cmds = gpu.cmds ++
      [Command.createBuffer buf (BlobData.aabbs boxes), Command.resourceBarrier buf.id] := by
    rw [← hg0]
    exact ⟨(Buffer.create be gpu (u64 (sizeofAABB * (collectAABBs be s.mTlas []).length))
      (BlobData.aabbs (collectAABBs be s.mTlas []))).1, collectAABBs be s.mTlas [],
      by simp [Buffer.create, Gpu.issue]⟩
  obtain ⟨buf, boxes, hcmds0⟩ := hcmds0
  simp only [buildBlas, hflag0, if_true] at hblas
  obtain ⟨n1, hn1, g1, f1⟩ := buildBlasOnce_cmds be gpu0 s0 s1 gpu1 hblas
  obtain ⟨_, hre1, _⟩ := buildBlasOnce_stats be gpu0 s0 s1 gpu1 hblas
  have hgeo1 : s1.mpGeometryBuffer = s0.mpGeometryBuffer := by
    obtain ⟨_, _, _, _, _, _, _, _, _, _, _, _, _, _, _, _, _, _, _, hs1, _⟩ :=
      buildBlasOnce_ok be gpu0 s0 s1 gpu1 hblas
    rw [hs1]
    rfl
  obtain ⟨⟨n2, hn2, q2⟩, t1, _, _, t4, _⟩ := buildTlas_cmds be gpu1 s1 s' gpu' k hb
  obtain ⟨_, _, _, _, _, _, _, _, _, hd, _, hfill, hne, _⟩ := buildTlas_ok be gpu1 s1 s' gpu' k hb
  obtain ⟨g2, f2⟩ := quiet_counts n2 q2
  refine ⟨⟨[Command.createBuffer buf (BlobData.aabbs boxes), Command.resourceBarrier buf.id] ++
      n1 ++ n2, ?_, ?_, ?_⟩, ?_, by rw [t4, hre1], by rw [t1, hgeo1]; exact hgeo0⟩
  · rw [hn2, hn1, hcmds0]
    simp
  · rw [geometryBufferCount_append, geometryBufferCount_append, g1, g2]
    rfl
  · rw [flushCount_append, flushCount_append, f1, f2]
    rfl
  · rw [hd]
    exact fillInstanceDesc_nonempty s1 _ _ k hfill hne

/-- C20: over a completed sequence of `setRaytracingShaderData` calls `k :: ks`, with any ray-type
counts, on a scene not yet used (no build record, one-time flag set, empty cache), the first call
creates exactly one geometry buffer (the allocation of `initGeomDesc`) and issues exactly one
blocking flush (the synchronisation point of the one-time pass of `buildBlas`), and the later calls
together create no geometry buffer, issue no flush, and leave the geometry buffer, the build
records, the Blas buffer, the statistics and the cleared one-time flag as the first call left
them. -/
theorem firstUse_runs_once (be : Backend) (gpu : Gpu) (s s1 s' : ProceduralScene)
    (gpu1 gpu' : Gpu) (k : Nat) (ks : List Nat) (v : ShaderResourceView)
    (hempty : s.mBlasData = []) (hflag : s.mRebuildBlas = true) (hcache : s.mTlasCache = [])
    (hfirst : setRaytracingShaderData be gpu s k = .ok (s1, gpu1, v))
    (hlater : getSequence be gpu1 s1 ks = .ok (s', gpu')) :
    ∃ first later : List Command,
      gpu1.cmds = gpu.cmds ++ first ∧ gpu'.cmds = gpu1.cmds ++ later ∧
      geometryBufferCount first = 1 ∧ flushCount first = 1 ∧
      geometryBufferCount later = 0 ∧ flushCount later = 0 ∧
      s1.mpGeometryBuffer ≠ none ∧ s1.mBlasData ≠ [] ∧ s1.mRebuildBlas = false ∧
      s'.mpGeometryBuffer = s1.mpGeometryBuffer ∧ s'.mBlasData = s1.mBlasData ∧
      s'.mpBlas = s1.mpBlas ∧ s'.mRTStats = s1.mRTStats ∧ s'.mRebuildBlas = false := by
  obtain ⟨⟨first, hf, gf, ff⟩, hd1, hre1, hgeo1⟩ :=
    setRaytracingShaderData_first be gpu s s1 gpu1 k v hempty hflag hcache hfirst
  obtain ⟨⟨later, hl, ql⟩, b1, b2, b3, _, b5, b6⟩ :=
    getSequence_later be ks gpu1 s1 s' gpu' hd1 hlater
  obtain ⟨gl, fl⟩ := quiet_counts later ql
  exact ⟨first, later, hf, hl, gf, ff, gl, fl, hgeo1, hd1, hre1, b2, b1, b3, b6, by rw [b5, hre1]⟩
/-- Witness for C20: `get(1)`, then `get(2)` and `get(1)`, on scenario B of the specification. -/
theorem firstUse_runs_once_witness :
    (setScene ProceduralScene.create scenarioB).mBlasData = [] ∧
      (setScene ProceduralScene.create scenarioB).mRebuildBlas = true ∧
      (setScene ProceduralScene.create scenarioB).mTlasCache = [] ∧
      setRaytracingShaderData exampleBackend { cmds := [], nextId := 0 }
          (setScene ProceduralScene.create scenarioB) 1 =
        .ok (scenarioBAfterGet1.1, scenarioBAfterGet1.2.1, scenarioBAfterGet1.2.2) ∧
      getSequence exampleBackend scenarioBAfterGet1.2.1 scenarioBAfterGet1.1 [2, 1] =
        .ok ((getSequenceResult exampleBackend scenarioBAfterGet1.2.1 scenarioBAfterGet1.1
            [2, 1]).1,
          (getSequenceResult exampleBackend scenarioBAfterGet1.2.1 scenarioBAfterGet1.1
            [2, 1]).2) ∧
      ∃ first later : List Command,
        scenarioBAfterGet1.2.1.cmds = ({ cmds := [], nextId := 0 } : Gpu).cmds ++ first ∧
        (getSequenceResult exampleBackend scenarioBAfterGet1.2.1 scenarioBAfterGet1.1
          [2, 1]).2.cmds = scenarioBAfterGet1.2.1.cmds ++ later ∧
        geometryBufferCount first = 1 ∧ flushCount first = 1 ∧
        geometryBufferCount later = 0 ∧ flushCount later = 0 ∧
        scenarioBAfterGet1.1.mpGeometryBuffer ≠ none ∧ scenarioBAfterGet1.1.mBlasData ≠ [] ∧
        scenarioBAfterGet1.1.mRebuildBlas = false ∧
        (getSequenceResult exampleBackend scenarioBAfterGet1.2.1 scenarioBAfterGet1.1
          [2, 1]).1.mpGeometryBuffer = scenarioBAfterGet1.1.mpGeometryBuffer ∧
        (getSequenceResult exampleBackend scenarioBAfterGet1.2.1 scenarioBAfterGet1.1
          [2, 1]).1.mBlasData = scenarioBAfterGet1.1.mBlasData ∧
        (getSequenceResult exampleBackend scenarioBAfterGet1.2.1 scenarioBAfterGet1.1
          [2, 1]).1.mpBlas = scenarioBAfterGet1.1.mpBlas ∧
        (getSequenceResult exampleBackend scenarioBAfterGet1.2.1 scenarioBAfterGet1.1
          [2, 1]).1.mRTStats = scenarioBAfterGet1.1.mRTStats ∧
        (getSequenceResult exampleBackend scenarioBAfterGet1.2.1 scenarioBAfterGet1.1
          [2, 1]).1.mRebuildBlas = false :=
  ⟨rfl, rfl, rfl, rfl, rfl,
    firstUse_runs_once exampleBackend { cmds := [], nextId := 0 }
      (setScene ProceduralScene.create scenarioB) scenarioBAfterGet1.1
      (getSequenceResult exampleBackend scenarioBAfterGet1.2.1 scenarioBAfterGet1.1 [2, 1]).1
      scenarioBAfterGet1.2.1
      (getSequenceResult exampleBackend scenarioBAfterGet1.2.1 scenarioBAfterGet1.1 [2, 1]).2
      1 [2, 1] scenarioBAfterGet1.2.2 rfl rfl rfl rfl rfl⟩

/-! ## The cache over sequences of calls -/

theorem cacheComplete_cacheAssign (c : List (Nat × TlasData)) (k : Nat) (e : TlasData)
    (hc : cacheComplete c = true)
    (he : (e.pTlas.isSome && e.pInstanceDescs.isSome && e.pSrv.isSome) = true) :
    cacheComplete (cacheAssign c k e) = true := by
  induction c with
  | nil => simpa [cacheComplete, cacheAssign] using he
  | cons p rest ih =>
    obtain ⟨k0, v0⟩ := p
    simp only [cacheComplete, List.all_cons, Bool.and_eq_true] at hc
    by_cases hk : k0 = k
    · simp only [cacheAssign, hk, if_true, cacheComplete, List.all_cons, Bool.and_eq_true]
      simp only [Bool.and_eq_true] at he
      exact ⟨he, hc.2⟩
    · simp only [cacheAssign, hk, if_false, cacheComplete, List.all_cons, Bool.and_eq_true]
      exact ⟨hc.1, by simpa [cacheComplete] using ih hc.2⟩

theorem cacheComplete_find (c : List (Nat × TlasData)) (k : Nat) (e : TlasData)
    (hc : cacheComplete c = true) (h : cacheFind c k = some e) :
    ∃ (b i : Buffer) (v : ShaderResourceView),
      e.pTlas = some b ∧ e.pInstanceDescs = some i ∧ e.pSrv = some v := by
  induction c with
  | nil => simp [cacheFind] at h
  | cons p rest ih =>
    obtain ⟨k0, v0⟩ := p
    simp only [cacheComplete, List.all_cons, Bool.and_eq_true] at hc
    by_cases hk : k0 = k
    · simp only [cacheFind, hk, if_true, Option.some.injEq] at h
      subst h
      obtain ⟨⟨⟨h1, h2⟩, h3⟩, _⟩ := hc
      exact ⟨_, _, _, (Option.eq_some_of_isSome h1), (Option.eq_some_of_isSome h2),
        (Option.eq_some_of_isSome h3)⟩
    · simp only [cacheFind, hk, if_false] at h
      exact ih hc.2 h

/-- What a completed call of `setRaytracingShaderData` does to the cache: complete entries stay
complete, entries present stay as they are, and the requested key has an entry with the bound
view. -/
theorem setRaytracingShaderData_cache (be : Backend) (gpu : Gpu) (s s' : ProceduralScene)
    (gpu' : Gpu) (k : Nat) (v : ShaderResourceView)
    (h : setRaytracingShaderData be gpu s k = .ok (s', gpu', v)) :
    (cacheComplete s.mTlasCache = true → cacheComplete s'.mTlasCache = true) ∧
    (∀ k0 e0, cacheFind s.mTlasCache k0 = some e0 → cacheFind s'.mTlasCache k0 = some e0) ∧
    ∃ e, cacheFind s'.mTlasCache k = some e ∧ e.pSrv = some v := by
  obtain ⟨s1, gpu1, hfirst, hrest⟩ := setRaytracingShaderData_ok be gpu s s' gpu' k v h
  have hc1 := firstStep_cache be gpu s s1 gpu1 hfirst
  rcases hrest with ⟨e, he, hv, hs', _⟩ | ⟨hmiss, hb, e, he, hv⟩
  · subst hs'
    rw [hc1]
    exact ⟨fun hc => hc, fun _ _ h0 => h0, e, by rw [← hc1]; exact he, hv⟩
  · obtain ⟨entry, b, i, w, hcache, hp, hi, hw, _⟩ := buildTlas_ok be gpu1 s1 s' gpu' k hb
    refine ⟨?_, ?_, e, he, hv⟩
    · intro hc
      rw [hcache, hc1]
      exact cacheComplete_cacheAssign _ _ _ hc (by simp [hp, hi, hw])
    · intro k0 e0 h0
      have hne : k0 ≠ k := by
        intro hk
        rw [hk, ← hc1, hmiss] at h0
        cases h0
      rw [hcache, cacheFind_cacheAssign_of_ne _ _ _ _ hne, hc1]
      exact h0

theorem getSequence_cache (be : Backend) (ks : List Nat) (gpu : Gpu) (s s' : ProceduralScene)
    (gpu' : Gpu) (h : getSequence be gpu s ks = .ok (s', gpu')) :
    (cacheComplete s.mTlasCache = true → cacheComplete s'.mTlasCache = true) ∧
    (∀ k0 e0, cacheFind s.mTlasCache k0 = some e0 → cacheFind s'.mTlasCache k0 = some e0) ∧
    ∀ k ∈ ks, ∃ e, cacheFind s'.mTlasCache k = some e := by
  induction ks generalizing gpu s with
  | nil =>
    simp only [getSequence, Except.ok.injEq, Prod.mk.injEq] at h
    obtain ⟨hs, _⟩ := h
    subst hs
    exact ⟨fun hc => hc, fun _ _ h0 => h0, by simp⟩
  | cons k rest ih =>
    rw [getSequence] at h
    split at h
    · cases h
    · rename_i s1 gpu1 v hget
      obtain ⟨a1, a2, e, he, _⟩ := setRaytracingShaderData_cache be gpu s s1 gpu1 k v hget
      obtain ⟨b1, b2, b3⟩ := ih gpu1 s1 h
      refine ⟨fun hc => b1 (a1 hc), fun k0 e0 h0 => b2 k0 e0 (a2 k0 e0 h0), ?_⟩
      intro k0 hk0
      rcases List.mem_cons.mp hk0 with rfl | hk0
      · exact ⟨e, b2 _ e he⟩
      · exact b3 k0 hk0

/-- C16: after a completed sequence of `setRaytracingShaderData` calls on a scene whose cache
entries all have a result buffer, an instance-descriptor buffer and a view (an empty cache
included), the cache has an entry for every ray-type count of the sequence, every entry that was
present is still present and unchanged, and every entry has a result buffer, an
instance-descriptor buffer and a view; and after a completed `buildTlas(k)` from any state the
lookup of `k` finds an entry whose view is not null. -/
theorem tlasCache_grows (be : Backend) (gpu : Gpu) (s s' : ProceduralScene) (gpu' : Gpu)
    (ks : List Nat) (hinv : cacheComplete s.mTlasCache = true)
    (hseq : getSequence be gpu s ks = .ok (s', gpu'))
    (gpuB : Gpu) (sB sB' : ProceduralScene) (gpuB' : Gpu) (kB : Nat)
    (hbuild : buildTlas be gpuB sB kB = .ok (sB', gpuB')) :
    (∀ k ∈ ks, ∃ e, cacheFind s'.mTlasCache k = some e) ∧
    (∀ (k : Nat) (e : TlasData), cacheFind s.mTlasCache k = some e →
      cacheFind s'.mTlasCache k = some e) ∧
    cacheComplete s'.mTlasCache = true ∧
    (∀ (k : Nat) (e : TlasData), cacheFind s'.mTlasCache k = some e →
      ∃ (b i : Buffer) (v : ShaderResourceView),
        e.pTlas = some b ∧ e.pInstanceDescs = some i ∧ e.pSrv = some v) ∧
    ∃ (e : TlasData) (v : ShaderResourceView),
      cacheFind sB'.mTlasCache kB = some e ∧ e.pSrv = some v := by
  obtain ⟨h1, h2, h3⟩ := getSequence_cache be ks gpu s s' gpu' hseq
  obtain ⟨entry, _, _, w, hcache, _, _, hw, _⟩ := buildTlas_ok be gpuB sB sB' gpuB' kB hbuild
  refine ⟨h3, h2, h1 hinv, fun k e he => cacheComplete_find _ k e (h1 hinv) he, entry, w, ?_, hw⟩
  rw [hcache]
  exact cacheFind_cacheAssign_self _ _ _

/-- Witness for C16: the calls `get(1)`, `get(2)`, `get(1)` on scenario B of the specification,
and the second `buildTlas(2)` after `get(1)` and `get(2)`. -/
theorem tlasCache_grows_witness :
    cacheComplete (setScene ProceduralScene.create scenarioB).mTlasCache = true ∧
      getSequence exampleBackend { cmds := [], nextId := 0 }
          (setScene ProceduralScene.create scenarioB) [1, 2, 1] =
        .ok ((getSequenceResult exampleBackend { cmds := [], nextId := 0 }
            (setScene ProceduralScene.create scenarioB) [1, 2, 1]).1,
          (getSequenceResult exampleBackend { cmds := [], nextId := 0 }
            (setScene ProceduralScene.create scenarioB) [1, 2, 1]).2) ∧
      buildTlas exampleBackend scenarioBAfterGet2.2.1 scenarioBAfterGet2.1 2 =
        .ok (scenarioBRebuilt.1, scenarioBRebuilt.2) ∧
      (∀ k ∈ [1, 2, 1], ∃ e,
        cacheFind (getSequenceResult exampleBackend { cmds := [], nextId := 0 }
          (setScene ProceduralScene.create scenarioB) [1, 2, 1]).1.mTlasCache k = some e) ∧
      (∀ (k : Nat) (e : TlasData),
        cacheFind (setScene ProceduralScene.create scenarioB).mTlasCache k = some e →
        cacheFind (getSequenceResult exampleBackend { cmds := [], nextId := 0 }
          (setScene ProceduralScene.create scenarioB) [1, 2, 1]).1.mTlasCache k = some e) ∧
      cacheComplete (getSequenceResult exampleBackend { cmds := [], nextId := 0 }
        (setScene ProceduralScene.create scenarioB) [1, 2, 1]).1.mTlasCache = true ∧
      (∀ (k : Nat) (e : TlasData),
        cacheFind (getSequenceResult exampleBackend { cmds := [], nextId := 0 }
          (setScene ProceduralScene.create scenarioB) [1, 2, 1]).1.mTlasCache k = some e →
        ∃ (b i : Buffer) (v : ShaderResourceView),
          e.pTlas = some b ∧ e.pInstanceDescs = some i ∧ e.pSrv = some v) ∧
      ∃ (e : TlasData) (v : ShaderResourceView),
        cacheFind scenarioBRebuilt.1.mTlasCache 2 = some e ∧ e.pSrv = some v :=
  ⟨rfl, rfl, rfl,
    tlasCache_grows exampleBackend { cmds := [], nextId := 0 }
      (setScene ProceduralScene.create scenarioB)
      (getSequenceResult exampleBackend { cmds := [], nextId := 0 }
        (setScene ProceduralScene.create scenarioB) [1, 2, 1]).1
      (getSequenceResult exampleBackend { cmds := [], nextId := 0 }
        (setScene ProceduralScene.create scenarioB) [1, 2, 1]).2
      [1, 2, 1] rfl rfl scenarioBAfterGet2.2.1 scenarioBAfterGet2.1 scenarioBRebuilt.1
      scenarioBRebuilt.2 2 rfl⟩

/-! ## The counts after `addBlas` -/

/-- The function `addBlas` appends the group and leaves both counts as they were. -/
theorem addBlas_counts (s : ProceduralScene) (blas : Blas) :
    (addBlas s blas).mTlas = s.mTlas ++ [blas] ∧
      getMeshCount (addBlas s blas) = getMeshCount s ∧
      getInstanceCount (addBlas s blas) = getInstanceCount s :=
  ⟨rfl, rfl, rfl⟩

/-- C22, the code at the failing input: after `create` and `addBlas` of a Blas group with one
geometry and one instance, `getMeshCount` and `getInstanceCount` return 0 while the scene holds one
geometry and one instance; after `setScene` of scenario A followed by the same `addBlas` they
return 1 and 1 while the scene holds two geometries and two instances. -/
theorem addBlas_leaves_counts_stale :
    getMeshCount (addBlas ProceduralScene.create exampleBlas) = 0 ∧
      totalGeometryCount (addBlas ProceduralScene.create exampleBlas).mTlas = 1 ∧
      getInstanceCount (addBlas ProceduralScene.create exampleBlas) = 0 ∧
      totalInstanceCount (addBlas ProceduralScene.create exampleBlas).mTlas = 1 ∧
      runOperations exampleBackend { cmds := [], nextId := 0 } ProceduralScene.create
          [Operation.setScene scenarioA, Operation.addBlas exampleBlas] =
        .ok (addBlas (setScene ProceduralScene.create scenarioA) exampleBlas,
          { cmds := [], nextId := 0 }) ∧
      getMeshCount (addBlas (setScene ProceduralScene.create scenarioA) exampleBlas) = 1 ∧
      totalGeometryCount (addBlas (setScene ProceduralScene.create scenarioA) exampleBlas).mTlas
        = 2 ∧
      getInstanceCount (addBlas (setScene ProceduralScene.create scenarioA) exampleBlas) = 1 ∧
      totalInstanceCount (addBlas (setScene ProceduralScene.create scenarioA) exampleBlas).mTlas
        = 2 :=
  ⟨rfl, rfl, rfl, rfl, rfl, rfl, rfl, rfl, rfl⟩

/-! ## Build flags of the one-time pass and the steady-state pass -/

theorem hasFlag_blasBuildFlags_allowUpdate (hasSkinnedMesh useCompaction : Bool)
    (m : UpdateMode) :
    hasFlag (blasBuildFlags hasSkinnedMesh useCompaction m) BUILD_FLAG_ALLOW_UPDATE =
      (hasSkinnedMesh && m == UpdateMode.Refit) := by
  cases hasSkinnedMesh <;> cases useCompaction <;> cases m <;> rfl

/-- C25: after a completed one-time pass of `buildBlas`, for the `k`-th record with its build and
copy commands: a record that is dynamic with update mode Refit (the steady-state pass updates it in
place with `PERFORM_UPDATE`) was built with `ALLOW_UPDATE`; a record that is dynamic with update
mode Rebuild (the steady-state pass rebuilds it in place, without `PERFORM_UPDATE`) has
`useCompaction = false`, was built without `ALLOW_COMPACTION` and was copied with `CLONE`; a record
that is not dynamic was built without `ALLOW_UPDATE`; and the command the steady-state pass issues
for a dynamic record carries `PERFORM_UPDATE` exactly for update mode Refit. -/
theorem buildBlas_flags_consistent (be : Backend) (gpu : Gpu) (s s' : ProceduralScene)
    (gpu' : Gpu) (hflag : s.mRebuildBlas = true) (h : buildBlas be gpu s = .ok (s', gpu')) :
    ∀ (k : Nat) (b : BlasData), s'.mBlasData[k]? = some b →
      ∃ (desc : BuildDesc) (pb : PostbuildInfoDesc) (dst src : Nat) (mode : CopyMode),
        (buildsOf (gpu'.cmds.drop gpu.cmds.length))[k]? = some (desc, some pb) ∧
        (copiesOf (gpu'.cmds.drop gpu.cmds.length))[k]? = some (dst, src, mode) ∧
        desc.Inputs = b.buildInputs ∧
        (b.hasSkinnedMesh = true → b.updateMode = UpdateMode.Refit →
          hasFlag desc.Inputs.Flags BUILD_FLAG_ALLOW_UPDATE = true) ∧
        (b.hasSkinnedMesh = true → b.updateMode = UpdateMode.Rebuild →
          b.useCompaction = false ∧
          hasFlag desc.Inputs.Flags BUILD_FLAG_ALLOW_COMPACTION = false ∧
          mode = CopyMode.CLONE) ∧
        (b.hasSkinnedMesh = false →
          hasFlag desc.Inputs.Flags BUILD_FLAG_ALLOW_UPDATE = false) ∧
        ∀ (blasAddress scratchAddress : Nat) (update : BuildDesc),
          updateCommand blasAddress scratchAddress b = .ok (Command.build update none) →
          (hasFlag update.Inputs.Flags BUILD_FLAG_PERFORM_UPDATE = true ↔
            b.updateMode = UpdateMode.Refit) := by
  simp only [buildBlas, hflag, if_true] at h
  obtain ⟨_, _, _, _, _, _, _, _, hlen, _, _, hrec⟩ := buildBlasOnce_trace be gpu s s' gpu' h
  intro k b hk
  have hk0 : k < s.mBlasData.length := by
    rw [← hlen]; exact (List.getElem?_eq_some_iff.mp hk).1
  have hprep := prepareLoop_getElem? be s.mBlasUpdateMode s.mBlasData 0 0 k _ (by decide)
    (by decide) (List.getElem?_eq_getElem hk0)
  obtain ⟨size, off, hfin, _, hbuild, hcopy⟩ := hrec k _ hprep
  rw [hk] at hfin
  have hb := Option.some.inj hfin
  refine ⟨_, _, _, _, _, hbuild, hcopy, ?_, ?_, ?_, ?_, ?_⟩
  · rw [hb]; rfl
  · intro hdyn hmode
    rw [hb] at hdyn hmode
    simp only [prepareBlas] at hdyn hmode
    simp only [firstBuildDesc, prepareBlas, hasFlag_blasBuildFlags_allowUpdate, hdyn, hmode]
    rfl
  · intro hdyn hmode
    rw [hb] at hdyn hmode ⊢
    simp only [prepareBlas] at hdyn hmode
    simp only [firstBuildDesc, prepareBlas, hasFlag_blasBuildFlags, hdyn, hmode]
    exact ⟨rfl, rfl, rfl⟩
  · intro hdyn
    rw [hb] at hdyn
    simp only [prepareBlas] at hdyn
    simp only [firstBuildDesc, prepareBlas, hasFlag_blasBuildFlags_allowUpdate, hdyn]
    rfl
  · intro blasAddress scratchAddress update hu
    obtain ⟨d, hd, _, _, hrefit, hrebuild⟩ := updateCommand_ok _ _ _ _ hu
    cases hd
    cases hm : b.updateMode with
    | Refit =>
      simp only [iff_true]
      rw [(hrefit hm).2]
      exact hasFlag_or_self _ _
    | Rebuild =>
      have hne : (hasFlag update.Inputs.Flags BUILD_FLAG_PERFORM_UPDATE = true) = False := by
        rw [(hrebuild hm).2, hb]
        simp only [prepareBlas, hasFlag_blasBuildFlags_update]
        simp
      rw [hne]
      simp
/-- Witness for C25: scenario B of the specification with its first Blas flagged dynamic, update
mode Refit. -/
theorem buildBlas_flags_consistent_witness :
    (dynamicScene exampleBackend UpdateMode.Refit).1.mRebuildBlas = true ∧
      buildBlas exampleBackend (dynamicScene exampleBackend UpdateMode.Refit).2
          (dynamicScene exampleBackend UpdateMode.Refit).1 =
        .ok ((dynamicSceneBuilt exampleBackend UpdateMode.Refit).1,
          (dynamicSceneBuilt exampleBackend UpdateMode.Refit).2) ∧
      ∀ (k : Nat) (b : BlasData),
        (dynamicSceneBuilt exampleBackend UpdateMode.Refit).1.mBlasData[k]? = some b →
        ∃ (desc : BuildDesc) (pb : PostbuildInfoDesc) (dst src : Nat) (mode : CopyMode),
          (buildsOf ((dynamicSceneBuilt exampleBackend UpdateMode.Refit).2.cmds.drop
            (dynamicScene exampleBackend UpdateMode.Refit).2.cmds.length))[k]? =
              some (desc, some pb) ∧
          (copiesOf ((dynamicSceneBuilt exampleBackend UpdateMode.Refit).2.cmds.drop
            (dynamicScene exampleBackend UpdateMode.Refit).2.cmds.length))[k]? =
              some (dst, src, mode) ∧
          desc.Inputs = b.buildInputs ∧
          (b.hasSkinnedMesh = true → b.updateMode = UpdateMode.Refit →
            hasFlag desc.Inputs.Flags BUILD_FLAG_ALLOW_UPDATE = true) ∧
          (b.hasSkinnedMesh = true → b.updateMode = UpdateMode.Rebuild →
            b.useCompaction = false ∧
            hasFlag desc.Inputs.Flags BUILD_FLAG_ALLOW_COMPACTION = false ∧
            mode = CopyMode.CLONE) ∧
          (b.hasSkinnedMesh = false →
            hasFlag desc.Inputs.Flags BUILD_FLAG_ALLOW_UPDATE = false) ∧
          ∀ (blasAddress scratchAddress : Nat) (update : BuildDesc),
            updateCommand blasAddress scratchAddress b = .ok (Command.build update none) →
            (hasFlag update.Inputs.Flags BUILD_FLAG_PERFORM_UPDATE = true ↔
              b.updateMode = UpdateMode.Refit) :=
  ⟨rfl, rfl,
    buildBlas_flags_consistent exampleBackend (dynamicScene exampleBackend UpdateMode.Refit).2
      (dynamicScene exampleBackend UpdateMode.Refit).1
      (dynamicSceneBuilt exampleBackend UpdateMode.Refit).1
      (dynamicSceneBuilt exampleBackend UpdateMode.Refit).2 rfl rfl⟩

/-- The one-time pass on the dynamic scenario B: with Refit the dynamic Blas is built with
`ALLOW_COMPACTION | ALLOW_UPDATE` and the static one with `ALLOW_COMPACTION`, both copied with
`COMPACT`; with Rebuild the dynamic Blas is built with no flag and copied with `CLONE`. -/
theorem buildBlas_flags_examples :
    ((buildsOf ((dynamicSceneBuilt exampleBackend UpdateMode.Refit).2.cmds.drop
        (dynamicScene exampleBackend UpdateMode.Refit).2.cmds.length)).map
        (fun p => p.1.Inputs.Flags) = [3, 2]) ∧
    ((copiesOf ((dynamicSceneBuilt exampleBackend UpdateMode.Refit).2.cmds.drop
        (dynamicScene exampleBackend UpdateMode.Refit).2.cmds.length)).map
        (fun p => p.2.2) = [CopyMode.COMPACT, CopyMode.COMPACT]) ∧
    ((buildsOf ((dynamicSceneBuilt exactSizeBackend UpdateMode.Rebuild).2.cmds.drop
        (dynamicScene exactSizeBackend UpdateMode.Rebuild).2.cmds.length)).map
        (fun p => p.1.Inputs.Flags) = [0, 2]) ∧
    ((copiesOf ((dynamicSceneBuilt exactSizeBackend UpdateMode.Rebuild).2.cmds.drop
        (dynamicScene exactSizeBackend UpdateMode.Rebuild).2.cmds.length)).map
        (fun p => p.2.2) = [CopyMode.CLONE, CopyMode.COMPACT]) :=
  ⟨rfl, rfl, rfl, rfl⟩

/-! ## States reachable through the public interface -/

theorem blasRecordList_static (addr : Nat) (groups : List Blas) (off : Nat) :
    ∀ b ∈ blasRecordList addr groups off, b.hasSkinnedMesh = false := by
  induction groups generalizing off with
  | nil => simp [blasRecordList]
  | cons g rest ih =>
    intro b hb
    simp only [blasRecordList, List.mem_cons] at hb
    rcases hb with rfl | hb
    · rfl
    · exact ih _ b hb

theorem compactedCount_of_all (records : List BlasData)
    (h : ∀ b ∈ records, b.useCompaction = true) : compactedCount records = records.length := by
  unfold compactedCount
  rw [List.filter_eq_self.mpr h]

/-- A completed `buildTlas` leaves the dynamic flag of the scene alone. -/
theorem buildTlas_keeps_dynamic_flag (be : Backend) (gpu : Gpu) (s s' : ProceduralScene)
    (gpu' : Gpu) (k : Nat) (h : buildTlas be gpu s k = .ok (s', gpu')) :
    s'.mHasSkinnedMesh = s.mHasSkinnedMesh := by
  unfold buildTlas at h
  cases hfill : fillInstanceDesc s s.mInstanceDescs k with
  | error e => simp [hfill] at h
  | ok descs =>
    simp only [hfill] at h
    split at h
    · cases h
    · split at h
      · cases h
      · split at h
        · cases h
        · simp only [Except.ok.injEq, Prod.mk.injEq] at h
          rw [← h.1]

/-- A completed one-time pass on a scene without dynamic content and without dynamic records
establishes the invariant. -/
theorem buildBlasOnce_static (be : Backend) (gpu : Gpu) (s s' : ProceduralScene) (gpu' : Gpu)
    (hstatic : s.mHasSkinnedMesh = false)
    (hrecords : ∀ b ∈ s.mBlasData, b.hasSkinnedMesh = false)
    (h : buildBlasOnce be gpu s = .ok (s', gpu')) :
    s'.mHasSkinnedMesh = false ∧
      (∀ b ∈ s'.mBlasData, b.hasSkinnedMesh = false ∧ b.useCompaction = true) ∧
      s'.mRTStats.blasCount = s'.mBlasData.length ∧
      s'.mRTStats.blasCompactedCount = u64 s'.mBlasData.length ∧
      s'.mpBlasScratch = none ∧ s'.mRebuildBlas = false := by
  obtain ⟨hstats, hre, hdyn⟩ := buildBlasOnce_stats be gpu s s' gpu' h
  obtain ⟨scratch, _, _, _, _, _, hscratch, _, hlen, _, _, hrec⟩ :=
    buildBlasOnce_trace be gpu s s' gpu' h
  have hall : ∀ b ∈ s'.mBlasData, b.hasSkinnedMesh = false ∧ b.useCompaction = true := by
    intro b hb
    obtain ⟨k, hk, hkb⟩ := List.getElem_of_mem hb
    have hk0 : k < s.mBlasData.length := by rw [← hlen]; exact hk
    have hprep := prepareLoop_getElem? be s.mBlasUpdateMode s.mBlasData 0 0 k _ (by decide)
      (by decide) (List.getElem?_eq_getElem hk0)
    obtain ⟨size, off, hfin, _⟩ := hrec k _ hprep
    rw [List.getElem?_eq_getElem hk, hkb] at hfin
    have hb' := Option.some.inj hfin
    have h0 := hrecords _ (List.getElem_mem hk0)
    rw [hb']
    simp only [prepareBlas, h0]
    exact ⟨trivial, rfl⟩
  rw [hstatic] at hscratch hdyn
  refine ⟨hdyn, hall, ?_, ?_, by simpa using hscratch, hre⟩
  · rw [hstats, updateRaytracingStats_eq]
  · rw [hstats, updateRaytracingStats_eq]
    simp only
    rw [compactedCount_of_all _ (fun b hb => (hall b hb).2)]

/-- A completed call of `setRaytracingShaderData` keeps the invariant. -/
theorem setRaytracingShaderData_static (be : Backend) (gpu : Gpu) (s s' : ProceduralScene)
    (gpu' : Gpu) (k : Nat) (v : ShaderResourceView) (hinv : StaticInvariant s)
    (h : setRaytracingShaderData be gpu s k = .ok (s', gpu', v)) : StaticInvariant s' := by
  obtain ⟨i1, i2, i3, i4, i5, i6⟩ := hinv
  obtain ⟨s1, gpu1, hfirst, hrest⟩ := setRaytracingShaderData_ok be gpu s s' gpu' k v h
  have hinv1 : StaticInvariant s1 := by
    rcases hfirst with ⟨_, hs1, _⟩ | ⟨hempty, s0, gpu0, hinit, hblas⟩
    · rw [hs1]
      exact ⟨i1, i2, i3, i4, i5, i6⟩
    · have hinit' := hinit
      rw [initGeomDesc_eq be gpu s hempty (initGeomDesc_groups be gpu s s0 gpu0 hempty hinit)]
        at hinit'
      simp only [Except.ok.injEq, Prod.mk.injEq] at hinit'
      obtain ⟨hs0, _⟩ := hinit'
      have hflag0 : s0.mRebuildBlas = true := by rw [← hs0]; exact (i6 hempty).1
      have hstatic0 : s0.mHasSkinnedMesh = false := by rw [← hs0]; exact i1
      have hrec0 : ∀ b ∈ s0.mBlasData, b.hasSkinnedMesh = false := by
        rw [← hs0]
        exact blasRecordList_static _ _ _
      have hc1 := firstStep_cache be gpu s s1 gpu1 (Or.inr ⟨hempty, s0, gpu0, hinit, hblas⟩)
      simp only [buildBlas, hflag0, if_true] at hblas
      obtain ⟨a1, a2, a3, a4, a5, a6⟩ :=
        buildBlasOnce_static be gpu0 s0 s1 gpu1 hstatic0 hrec0 hblas
      refine ⟨a1, a2, a3, a4, a5, ?_⟩
      intro hnil
      -- the call completed, so the top-level build found instances and hence build records
      exfalso
      rcases hrest with ⟨e, he, _⟩ | ⟨_, hb, _⟩
      · rw [hc1, (i6 hempty).2] at he
        simp [cacheFind] at he
      · obtain ⟨_, _, _, _, _, _, _, _, _, hd, _, hfill, hne, _⟩ :=
          buildTlas_ok be gpu1 s1 s' gpu' k hb
        exact fillInstanceDesc_nonempty s1 _ _ k hfill hne hnil
  rcases hrest with ⟨_, _, _, hs', _⟩ | ⟨_, hb, _⟩
  · rw [hs']
    exact hinv1
  · obtain ⟨j1, j2, j3, j4, j5, j6⟩ := hinv1
    obtain ⟨_, _, _, t3, t4, t5⟩ := buildTlas_cmds be gpu1 s1 s' gpu' k hb
    obtain ⟨_, _, _, _, _, _, _, _, _, hd, _⟩ := buildTlas_ok be gpu1 s1 s' gpu' k hb
    have hdyn := buildTlas_keeps_dynamic_flag be gpu1 s1 s' gpu' k hb
    have hnonempty : s'.mBlasData ≠ [] := by
      obtain ⟨_, _, _, _, _, _, _, _, _, _, _, hfill, hne, _⟩ :=
        buildTlas_ok be gpu1 s1 s' gpu' k hb
      rw [hd]
      exact fillInstanceDesc_nonempty s1 _ _ k hfill hne
    exact ⟨by rw [hdyn, j1], by rw [hd]; exact j2, by rw [t5, hd, j3], by rw [t5, hd, j4],
      by rw [t3, j5], fun hnil => absurd hnil hnonempty⟩
theorem create_static : StaticInvariant ProceduralScene.create :=
  ⟨rfl, by simp [ProceduralScene.create], rfl, rfl, rfl, fun _ => ⟨rfl, rfl⟩⟩

theorem runOperation_static (be : Backend) (gpu : Gpu) (s s' : ProceduralScene) (gpu' : Gpu)
    (op : Operation) (hinv : StaticInvariant s)
    (h : runOperation be gpu s op = .ok (s', gpu')) : StaticInvariant s' := by
  cases op with
  | addBlas blas =>
    simp only [runOperation, Except.ok.injEq, Prod.mk.injEq] at h
    rw [← h.1]
    exact hinv
  | setScene tlas =>
    simp only [runOperation, Except.ok.injEq, Prod.mk.injEq] at h
    rw [← h.1]
    exact hinv
  | setRaytracingShaderData k =>
    simp only [runOperation] at h
    split at h
    · cases h
    · rename_i s1 gpu1 v hget
      simp only [Except.ok.injEq, Prod.mk.injEq] at h
      rw [← h.1]
      exact setRaytracingShaderData_static be gpu s s1 gpu1 k v hinv hget
  | raytrace k x y z =>
    simp only [runOperation, raytrace] at h
    split at h
    · cases h
    · rename_i s1 gpu1 v n hray
      simp only [Except.ok.injEq, Prod.mk.injEq] at h
      rw [← h.1]
      split at hray
      · cases hray
      · rename_i s2 gpu2 v2 hget
        simp only [Except.ok.injEq, Prod.mk.injEq] at hray
        rw [← hray.1]
        exact setRaytracingShaderData_static be gpu s s2 gpu2 k v2 hinv hget

theorem runOperations_static (be : Backend) (ops : List Operation) (gpu : Gpu)
    (s s' : ProceduralScene) (gpu' : Gpu) (hinv : StaticInvariant s)
    (h : runOperations be gpu s ops = .ok (s', gpu')) : StaticInvariant s' := by
  induction ops generalizing gpu s with
  | nil =>
    simp only [runOperations, Except.ok.injEq, Prod.mk.injEq] at h
    rw [← h.1]
    exact hinv
  | cons op rest ih =>
    rw [runOperations] at h
    split at h
    · cases h
    · rename_i s1 gpu1 hop
      exact ih gpu1 s1 (runOperation_static be gpu s s1 gpu1 op hinv hop) h

/-- C26: in every state reached from a new scene by a completed sequence of `addBlas`, `setScene`,
`setRaytracingShaderData` and `raytrace` calls (the build records fitting a 64-bit count), the
scene-wide dynamic flag is false and no build record is flagged dynamic; every build record has
`useCompaction = true`; the statistics satisfy `blasCompactedCount = blasCount`; the Blas scratch
buffer is null; `setRaytracingShaderData` calls `buildBlas` only without build records, and then
the one-time flag is still set, so the steady-state pass is not entered; and were it entered it
would return at its guard, with the same state and command stream. -/
theorem reachable_scene_static (be : Backend) (gpu0 : Gpu) (ops : List Operation)
    (s : ProceduralScene) (gpu : Gpu)
    (hrun : runOperations be gpu0 ProceduralScene.create ops = .ok (s, gpu))
    (hcount : s.mBlasData.length < 18446744073709551616) :
    s.mHasSkinnedMesh = false ∧
      (∀ b ∈ s.mBlasData, b.hasSkinnedMesh = false) ∧
      dynamicRecords s.mBlasData = [] ∧
      (∀ b ∈ s.mBlasData, b.useCompaction = true) ∧
      s.mRTStats.blasCount = s.mBlasData.length ∧
      s.mRTStats.blasCompactedCount = s.mRTStats.blasCount ∧
      s.mpBlasScratch = none ∧
      (s.mBlasData = [] → s.mRebuildBlas = true) ∧
      ∀ gpu2 : Gpu, buildBlasSteady gpu2 s = .ok (s, gpu2) := by
  obtain ⟨i1, i2, i3, i4, i5, i6⟩ :=
    runOperations_static be ops gpu0 ProceduralScene.create s gpu create_static hrun
  refine ⟨i1, fun b hb => (i2 b hb).1, ?_, fun b hb => (i2 b hb).2, i3, ?_, i5,
    fun hnil => (i6 hnil).1, ?_⟩
  · unfold dynamicRecords
    rw [List.filter_eq_nil_iff]
    intro b hb
    simp [(i2 b hb).1]
  · rw [i4, i3, u64_of_lt hcount]
  · intro gpu2
    simp [buildBlasSteady, i1]

/-- Witness for C26: `setScene` of scenario B, `get(1)`, `addBlas` and `raytrace` with two ray
types. -/
theorem reachable_scene_static_witness :
    runOperations exampleBackend { cmds := [], nextId := 0 } ProceduralScene.create
        exampleOperations =
      .ok ((runResult exampleBackend exampleOperations).1,
        (runResult exampleBackend exampleOperations).2) ∧
    (runResult exampleBackend exampleOperations).1.mBlasData.length < 18446744073709551616 ∧
    (runResult exampleBackend exampleOperations).1.mHasSkinnedMesh = false ∧
    (∀ b ∈ (runResult exampleBackend exampleOperations).1.mBlasData, b.hasSkinnedMesh = false) ∧
    dynamicRecords (runResult exampleBackend exampleOperations).1.mBlasData = [] ∧
    (∀ b ∈ (runResult exampleBackend exampleOperations).1.mBlasData, b.useCompaction = true) ∧
    (runResult exampleBackend exampleOperations).1.mRTStats.blasCount =
      (runResult exampleBackend exampleOperations).1.mBlasData.length ∧
    (runResult exampleBackend exampleOperations).1.mRTStats.blasCompactedCount =
      (runResult exampleBackend exampleOperations).1.mRTStats.blasCount ∧
    (runResult exampleBackend exampleOperations).1.mpBlasScratch = none ∧
    ((runResult exampleBackend exampleOperations).1.mBlasData = [] →
      (runResult exampleBackend exampleOperations).1.mRebuildBlas = true) ∧
    ∀ gpu2 : Gpu,
      buildBlasSteady gpu2 (runResult exampleBackend exampleOperations).1 =
        .ok ((runResult exampleBackend exampleOperations).1, gpu2) :=
  ⟨rfl, by decide,
    reachable_scene_static exampleBackend { cmds := [], nextId := 0 } exampleOperations
      (runResult exampleBackend exampleOperations).1
      (runResult exampleBackend exampleOperations).2 rfl (by decide)⟩

/-- The state reached by the example sequence: two build records (the group added afterwards has
none), both compacted, statistics 2 and 2, two cache entries. -/
theorem reachable_scene_example :
    (runResult exampleBackend exampleOperations).1.mBlasData.map
        (fun b => (b.hasSkinnedMesh, b.useCompaction)) = [(false, true), (false, true)] ∧
      (runResult exampleBackend exampleOperations).1.mRTStats.blasCount = 2 ∧
      (runResult exampleBackend exampleOperations).1.mRTStats.blasCompactedCount = 2 ∧
      (runResult exampleBackend exampleOperations).1.mTlas.length = 3 ∧
      (runResult exampleBackend exampleOperations).1.mTlasCache.map (fun p => p.1) = [1, 2] :=
  ⟨rfl, rfl, rfl, rfl, rfl⟩

/-! ## The instance-count precondition of `buildTlas` -/

theorem totalInstanceCount_eq_zero (t : Tlas) (h : totalInstanceCount t = 0) :
    ∀ g ∈ t, g.mInstances = [] := by
  induction t with
  | nil => simp
  | cons g rest ih =>
    simp only [totalInstanceCount, List.map_cons, List.sum_cons, Nat.add_eq_zero_iff] at h
    intro g' hg'
    rcases List.mem_cons.mp hg' with rfl | hg'
    · exact List.length_eq_zero.mp h.1
    · exact ih h.2 g' hg'

theorem fillLoop_no_instances (a rc : Nat) (t : Tlas) (h : ∀ g ∈ t, g.mInstances = [])
    (bds : List BlasData) (i c : Nat) (acc out : List InstanceDesc)
    (hok : fillLoop a rc t bds i c acc = .ok out) : out = acc := by
  induction bds generalizing i c acc with
  | nil =>
    simp only [fillLoop, Except.ok.injEq] at hok
    exact hok.symm
  | cons bd rest ih =>
    rw [fillLoop] at hok
    cases hg : t[i]? with
    | none => simp [hg] at hok
    | some g =>
      simp only [hg] at hok
      have hnil : g.mInstances = [] := h g (List.getElem?_mem hg)
      rw [hnil] at hok
      simp only [instanceLoop] at hok
      exact ih _ _ _ hok

theorem fillInstanceDesc_no_instances (s : ProceduralScene) (prev out : List InstanceDesc)
    (k : Nat) (hzero : totalInstanceCount s.mTlas = 0)
    (hok : fillInstanceDesc s prev k = .ok out) : out = [] := by
  unfold fillInstanceDesc at hok
  split at hok
  · cases hok
  · have := fillLoop_no_instances _ _ _ (totalInstanceCount_eq_zero _ hzero) _ _ _ _ _ hok
    rw [this]
    simp

theorem tlasScratchStep_builds (be : Backend) (gpu : Gpu) (s : ProceduralScene)
    (inputs : BuildInputs) (scratch : Buffer) (info : PrebuildInfo) (gpu1 : Gpu)
    (h : tlasScratchStep be gpu s inputs = .ok (scratch, info, gpu1)) :
    ∃ new, gpu1.cmds = gpu.cmds ++ new ∧ buildsOf new = [] := by
  unfold tlasScratchStep at h
  cases hsc : s.mpTlasScratch with
  | some b =>
    simp only [hsc, Except.ok.injEq, Prod.mk.injEq] at h
    rw [← h.2.2]
    exact ⟨[], by simp, rfl⟩
  | none =>
    simp only [hsc, Buffer.create] at h
    split at h
    · simp only [Except.ok.injEq, Prod.mk.injEq] at h
      rw [← h.2.2]
      exact ⟨_, rfl, rfl⟩
    · cases h

theorem tlasBufferStep_builds (be : Backend) (gpu : Gpu) (tlas : TlasData) (mpTlasScratch : Buffer)
    (info : PrebuildInfo) (inputs : BuildInputs) (descs : List InstanceDesc)
    (pTlas pInstanceDescs : Buffer) (source : Nat) (gpu2 : Gpu)
    (h : tlasBufferStep be gpu tlas mpTlasScratch info inputs descs =
      .ok (pTlas, pInstanceDescs, source, gpu2)) :
    ∃ new, gpu2.cmds = gpu.cmds ++ new ∧ buildsOf new = [] := by
  unfold tlasBufferStep at h
  cases hp : tlas.pTlas with
  | none =>
    cases hi : tlas.pInstanceDescs with
    | some b => simp [hp, hi] at h
    | none =>
      simp only [hp, hi, Buffer.create, Except.ok.injEq, Prod.mk.injEq] at h
      rw [← h.2.2.2]
      exact ⟨_, append_two _ _ _, rfl⟩
  | some b =>
    cases hi : tlas.pInstanceDescs with
    | none => simp [hp, hi] at h
    | some i =>
      simp only [hp, hi, Gpu.issue, Except.ok.injEq, Prod.mk.injEq] at h
      rw [← h.2.2.2]
      exact ⟨_, append_three _ _ _ _, rfl⟩

/-- When the blocks of `buildTlas` before its assertion complete and the 32-bit number of instance
records is 0, the call stops at the assertion of line 390. -/
theorem buildTlas_at_assertion (be : Backend) (gpu : Gpu) (s : ProceduralScene) (k : Nat)
    (descs : List InstanceDesc) (sc : Buffer) (info : PrebuildInfo) (gpu1 : Gpu)
    (p i : Buffer) (src : Nat) (gpu2 : Gpu)
    (hfill : fillInstanceDesc s s.mInstanceDescs k = .ok descs)
    (hsc : tlasScratchStep be gpu s (tlasInputs descs) = .ok (sc, info, gpu1))
    (hbuf : tlasBufferStep be gpu1 { cachedOrDefault s k with updateMode := s.mTlasUpdateMode }
      sc info (tlasInputs descs) descs = .ok (p, i, src, gpu2))
    (hnum : (tlasInputs descs).NumDescs = 0) :
    buildTlas be gpu s k = .error (.assertion 390) := by
  unfold buildTlas
  simp only [hfill, hsc, hbuf, hnum, if_true]

/-- For a state with its Blas buffer, a build record per Blas group and no entry for the key, on a
backend whose update scratch size fits the build scratch size: when the instance count is a
multiple of 2^32, `buildTlas` stops at the assertion of line 390. -/
theorem buildTlas_zero_NumDescs (be : Backend) (gpu : Gpu) (s : ProceduralScene) (k : Nat)
    (mpBlas : Buffer) (hbe : be.UpdateScratchFits) (hb : s.mpBlas = some mpBlas)
    (hlen : s.mBlasData.length = s.mTlas.length)
    (hcount : u32 (totalInstanceCount s.mTlas) = 0) (hmiss : cacheFind s.mTlasCache k = none) :
    buildTlas be gpu s k = .error (.assertion 390) := by
  have hfill := fillInstanceDesc_eq s s.mInstanceDescs k mpBlas hb (le_of_eq hlen)
  have hnum : (tlasInputs (instanceStream mpBlas.gpuAddress k s.mBlasData s.mTlas 0)).NumDescs =
      0 := by
    simp only [tlasInputs]
    rw [instanceStream_length _ _ _ _ _ hlen]
    exact hcount
  have hscratch : ∃ scratch info gpu1,
      tlasScratchStep be gpu s
        (tlasInputs (instanceStream mpBlas.gpuAddress k s.mBlasData s.mTlas 0)) =
        .ok (scratch, info, gpu1) := by
    unfold tlasScratchStep
    cases s.mpTlasScratch with
    | some b => exact ⟨_, _, _, rfl⟩
    | none =>
      simp only [Buffer.create, hbe _, if_true]
      exact ⟨_, _, _, rfl⟩
  obtain ⟨scratch, info, gpu1, hsc⟩ := hscratch
  have hinit : cachedOrDefault s k = TlasData.init := by simp [cachedOrDefault, hmiss]
  unfold buildTlas
  simp only [hfill, hsc, hinit, tlasBufferStep, TlasData.init, Buffer.create, hnum, if_true]

theorem exampleBackend_updateScratchFits : exampleBackend.UpdateScratchFits := by
  intro inputs
  simp [Backend.getPrebuildInfo, exampleBackend, u64]

/-- C21 (as amended): for a scene with no instance and every ray-type count, `buildTlas` does not
complete, from any state, so no state with an entry under the key results; when the blocks before
its assertion complete, they have issued no build command, the number of instance records is 0 and
the call stops at the assertion of line 390 (`inputs.NumDescs != 0`). Conversely, for a state with
its Blas buffer and a build record per Blas group whose instance count is not a multiple of 2^32,
the number of instance records is not 0, and for a key without entry, on a backend whose update
scratch size fits the build scratch size, `buildTlas` completes. -/
theorem buildTlas_instance_precondition (be : Backend) (gpu : Gpu) (k : Nat)
    (sA : ProceduralScene) (hzero : totalInstanceCount sA.mTlas = 0)
    (sB : ProceduralScene) (mpBlas : Buffer) (hb : sB.mpBlas = some mpBlas)
    (hlen : sB.mBlasData.length = sB.mTlas.length)
    (hcount : u32 (totalInstanceCount sB.mTlas) ≠ 0)
    (hbe : be.UpdateScratchFits) (hmiss : cacheFind sB.mTlasCache k = none) :
    (∃ e, buildTlas be gpu sA k = .error e) ∧
    (∀ (descs : List InstanceDesc) (sc : Buffer) (info : PrebuildInfo) (gpu1 : Gpu)
        (p i : Buffer) (src : Nat) (gpu2 : Gpu),
      fillInstanceDesc sA sA.mInstanceDescs k = .ok descs →
      tlasScratchStep be gpu sA (tlasInputs descs) = .ok (sc, info, gpu1) →
      tlasBufferStep be gpu1
        { cachedOrDefault sA k with updateMode := sA.mTlasUpdateMode } sc info
        (tlasInputs descs) descs = .ok (p, i, src, gpu2) →
      (tlasInputs descs).NumDescs = 0 ∧
        (∃ new, gpu2.cmds = gpu.cmds ++ new ∧ buildsOf new = []) ∧
        buildTlas be gpu sA k = .error (.assertion 390)) ∧
    (∃ descs, fillInstanceDesc sB sB.mInstanceDescs k = .ok descs ∧
      (tlasInputs descs).NumDescs ≠ 0) ∧
    ∃ s' gpu', buildTlas be gpu sB k = .ok (s', gpu') := by
  refine ⟨?_, ?_, ?_, buildTlas_completes be gpu sB k mpBlas hbe hb hlen hcount hmiss⟩
  · cases hr : buildTlas be gpu sA k with
    | error e => exact ⟨e, rfl⟩
    | ok r =>
      exfalso
      obtain ⟨s', gpu'⟩ := r
      obtain ⟨_, _, _, _, _, _, _, _, _, _, _, hfill, hne, _⟩ :=
        buildTlas_ok be gpu sA s' gpu' k hr
      exact hne (fillInstanceDesc_no_instances sA _ _ k hzero hfill)
  · intro descs sc info gpu1 p i src gpu2 hfill hsc hbuf
    have hnil := fillInstanceDesc_no_instances sA _ _ k hzero hfill
    have hnum : (tlasInputs descs).NumDescs = 0 := by
      rw [hnil]
      rfl
    obtain ⟨n1, h1, b1⟩ := tlasScratchStep_builds be gpu sA _ _ _ _ hsc
    obtain ⟨n2, h2, b2⟩ := tlasBufferStep_builds be gpu1 _ _ _ _ _ _ _ _ _ hbuf
    refine ⟨hnum, ⟨n1 ++ n2, by rw [h2, h1, List.append_assoc], ?_⟩,
      buildTlas_at_assertion be gpu sA k descs sc info gpu1 p i src gpu2 hfill hsc hbuf hnum⟩
    rw [buildsOf_append, b1, b2]
    rfl
  · refine ⟨_, fillInstanceDesc_eq sB sB.mInstanceDescs k mpBlas hb (le_of_eq hlen), ?_⟩
    simp only [tlasInputs]
    rw [instanceStream_length _ _ _ _ _ hlen]
    exact hcount

/-- Witness for C21: the scene of one Blas without instance after `buildBlas`, and scenario B of
the specification after `buildBlas`. -/
theorem buildTlas_instance_precondition_witness :
    totalInstanceCount (sceneWithBlas exampleBackend noInstanceScene).1.mTlas = 0 ∧
      (sceneWithBlas exampleBackend scenarioB).1.mpBlas =
        some { id := 4, size := 1024, gpuAddress := 327680 } ∧
      (sceneWithBlas exampleBackend scenarioB).1.mBlasData.length =
        (sceneWithBlas exampleBackend scenarioB).1.mTlas.length ∧
      u32 (totalInstanceCount (sceneWithBlas exampleBackend scenarioB).1.mTlas) ≠ 0 ∧
      exampleBackend.UpdateScratchFits ∧
      cacheFind (sceneWithBlas exampleBackend scenarioB).1.mTlasCache 1 = none ∧
      (∃ e, buildTlas exampleBackend (sceneWithBlas exampleBackend noInstanceScene).2
        (sceneWithBlas exampleBackend noInstanceScene).1 1 = .error e) ∧
      (∀ (descs : List InstanceDesc) (sc : Buffer) (info : PrebuildInfo) (gpu1 : Gpu)
          (p i : Buffer) (src : Nat) (gpu2 : Gpu),
        fillInstanceDesc (sceneWithBlas exampleBackend noInstanceScene).1
          (sceneWithBlas exampleBackend noInstanceScene).1.mInstanceDescs 1 = .ok descs →
        tlasScratchStep exampleBackend (sceneWithBlas exampleBackend noInstanceScene).2
          (sceneWithBlas exampleBackend noInstanceScene).1 (tlasInputs descs) =
            .ok (sc, info, gpu1) →
        tlasBufferStep exampleBackend gpu1
          { cachedOrDefault (sceneWithBlas exampleBackend noInstanceScene).1 1 with
            updateMode := (sceneWithBlas exampleBackend noInstanceScene).1.mTlasUpdateMode }
          sc info (tlasInputs descs) descs = .ok (p, i, src, gpu2) →
        (tlasInputs descs).NumDescs = 0 ∧
          (∃ new, gpu2.cmds = (sceneWithBlas exampleBackend noInstanceScene).2.cmds ++ new ∧
            buildsOf new = []) ∧
          buildTlas exampleBackend (sceneWithBlas exampleBackend noInstanceScene).2
            (sceneWithBlas exampleBackend noInstanceScene).1 1 = .error (.assertion 390)) ∧
      (∃ descs, fillInstanceDesc (sceneWithBlas exampleBackend scenarioB).1
          (sceneWithBlas exampleBackend scenarioB).1.mInstanceDescs 1 = .ok descs ∧
        (tlasInputs descs).NumDescs ≠ 0) ∧
      ∃ s' gpu', buildTlas exampleBackend (sceneWithBlas exampleBackend noInstanceScene).2
        (sceneWithBlas exampleBackend scenarioB).1 1 = .ok (s', gpu') :=
  ⟨rfl, rfl, rfl, by decide, exampleBackend_updateScratchFits, rfl,
    buildTlas_instance_precondition exampleBackend (sceneWithBlas exampleBackend noInstanceScene).2
      1 (sceneWithBlas exampleBackend noInstanceScene).1 rfl
      (sceneWithBlas exampleBackend scenarioB).1 { id := 4, size := 1024, gpuAddress := 327680 }
      rfl rfl (by decide) exampleBackend_updateScratchFits rfl⟩

/-- Scenes without instance: for one Blas without instance, and for a scene without Blas, the first
`setRaytracingShaderData` stops at the assertion of line 390; so does `buildTlas` after
`buildBlas`. -/
theorem emptyScene_examples :
    setRaytracingShaderData exampleBackend { cmds := [], nextId := 0 }
        (setScene ProceduralScene.create noInstanceScene) 1 = .error (.assertion 390) ∧
      setRaytracingShaderData exampleBackend { cmds := [], nextId := 0 }
        (setScene ProceduralScene.create []) 1 = .error (.assertion 390) ∧
      buildTlas exampleBackend (sceneWithBlas exampleBackend noInstanceScene).2
        (sceneWithBlas exampleBackend noInstanceScene).1 1 = .error (.assertion 390) ∧
      (sceneWithBlas exampleBackend noInstanceScene).1.mRebuildBlas = false :=
  ⟨rfl, rfl, rfl, rfl⟩

/-- Counterexample for C21 as stated: a state with its Blas buffer, one build record for its one
Blas group and 2^32 instances; the 32-bit number of instance records is 0 and `buildTlas` stops at
the assertion of line 390. -/
theorem buildTlas_rejects_full_range :
    totalInstanceCount (replicatedScene 4294967296).mTlas = 4294967296 ∧
      buildTlas exampleBackend { cmds := [], nextId := 0 } (replicatedScene 4294967296) 1 =
        .error (.assertion 390) := by
  have htotal : ∀ n, totalInstanceCount (replicatedScene n).mTlas = n := by
    intro n
    simp [replicatedScene, totalInstanceCount]
  refine ⟨htotal _, ?_⟩
  exact buildTlas_zero_NumDescs exampleBackend _ _ 1 { id := 0, size := 0, gpuAddress := 65536 }
    exampleBackend_updateScratchFits rfl rfl (by rw [htotal]; rfl) rfl

/-! ## Intermediate buffer, read-back slots and final buffer of the one-time pass -/

/-- A second view of a completed one-time pass: the intermediate buffer and its size, and for the
`k`-th record the size read back from its slot, the final offset as a running sum, and the build
and copy commands. -/
theorem buildBlasOnce_slots (be : Backend) (gpu : Gpu) (s s' : ProceduralScene) (gpu' : Gpu)
    (h : buildBlasOnce be gpu s = .ok (s', gpu')) :
    ∃ scratch dest pb mpBlas : Buffer,
      dest ∈ buffersCreatedBy (gpu'.cmds.drop gpu.cmds.length) ∧
      dest.size = (prepareLoop be s.mBlasUpdateMode s.mBlasData 0 0).2.1 ∧
      s'.mpBlas = some mpBlas ∧
      u64 (paddedBlasSizes s'.mBlasData).sum ≤ mpBlas.size ∧
      s'.mBlasData.length = s.mBlasData.length ∧
      ∀ (k : Nat) (b1 : BlasData),
        (prepareLoop be s.mBlasUpdateMode s.mBlasData 0 0).1[k]? = some b1 →
        ∃ size : Nat,
          s'.mBlasData[k]? =
            some { b1 with
                   blasByteSize := size
                   blasByteOffset := u64 ((paddedBlasSizes s'.mBlasData).take k).sum } ∧
          size ≤ b1.prebuildInfo.ResultDataMaxSizeInBytes ∧
          (s.mBlasData.length * 8 ≤ 18446744073709551616 →
            size = u64 (be.postbuildSize
              (firstBuildDesc scratch.gpuAddress dest.gpuAddress b1)
              (firstPostbuildDesc pb.gpuAddress (u64 (k * postBuildInfoSize)) b1).InfoType)) ∧
          (buildsOf (gpu'.cmds.drop gpu.cmds.length))[k]? =
            some (firstBuildDesc scratch.gpuAddress dest.gpuAddress b1,
              some (firstPostbuildDesc pb.gpuAddress (u64 (k * postBuildInfoSize)) b1)) ∧
          (copiesOf (gpu'.cmds.drop gpu.cmds.length))[k]? =
            some (u64 (mpBlas.gpuAddress + u64 ((paddedBlasSizes s'.mBlasData).take k).sum),
              u64 (dest.gpuAddress + b1.blasByteOffset),
              if b1.useCompaction then CopyMode.COMPACT else CopyMode.CLONE) := by
  obtain ⟨blas1, totalMax, totalScratch, scratch, gpu1, dest, gpu2, pb, gpu3, blas2, total,
    mpBlas, gpu6, hP, hS, hD, hB, hR, hG, hs', hgpu'⟩ := buildBlasOnce_ok be gpu s s' gpu' h
  obtain ⟨_, _, c1, hS3, hS4, hS5, _⟩ := growBuffer_spec be gpu s.mpBlasScratch totalScratch
  obtain ⟨hG1, _, c2, hG3, hG4, hG5, _⟩ := growBuffer_spec be
    { cmds := gpu3.cmds ++ buildLoop scratch.gpuAddress dest.gpuAddress pb.gpuAddress blas1 0 ++
        [Command.flush], nextId := gpu3.nextId } s.mpBlas total
  rw [hS] at hS3
  rw [hG] at hG1 hG3
  simp only at hS3 hG1 hG3
  have hgpu2 : gpu2.cmds = gpu1.cmds ++ [Command.createBuffer dest BlobData.none] := by
    have h1 := congrArg Prod.fst hD
    have h2 := congrArg Prod.snd hD
    simp only [Buffer.create] at h1 h2
    rw [← h2, ← h1]
  have hdsize : dest.size = totalMax := by
    have h1 := congrArg Prod.fst hD
    simp only [Buffer.create] at h1
    rw [← h1]
  have hgpu3 : gpu3.cmds = gpu2.cmds ++ [Command.createBuffer pb BlobData.none] := by
    have h1 := congrArg Prod.fst hB
    have h2 := congrArg Prod.snd hB
    simp only [Buffer.create] at h1 h2
    rw [← h2, ← h1]
  have hcmds : gpu'.cmds = gpu.cmds ++ ([c1] ++ [Command.createBuffer dest BlobData.none] ++
      [Command.createBuffer pb BlobData.none] ++
      buildLoop scratch.gpuAddress dest.gpuAddress pb.gpuAddress blas1 0 ++ [Command.flush] ++
      [c2] ++ [Command.uavBarrier dest.id] ++
      (compactLoop mpBlas.gpuAddress dest.gpuAddress blas2 0).2.1 ++
      [Command.uavBarrier mpBlas.id]) := by
    rw [hgpu', hG3, hgpu3, hgpu2, hS3]
    simp
  have hnew := congrArg (List.drop gpu.cmds.length) hcmds
  rw [List.drop_left] at hnew
  have hbuilds : buildsOf (gpu'.cmds.drop gpu.cmds.length) =
      buildsOf (buildLoop scratch.gpuAddress dest.gpuAddress pb.gpuAddress blas1 0) := by
    rw [hnew]
    simp only [buildsOf_append, hS4, hG4, buildsOf_compactLoop, buildsOf, List.nil_append,
      List.append_nil]
  have hcopies : copiesOf (gpu'.cmds.drop gpu.cmds.length) =
      copiesOf (compactLoop mpBlas.gpuAddress dest.gpuAddress blas2 0).2.1 := by
    rw [hnew]
    simp only [copiesOf_append, hS5, hG5, copiesOf_buildLoop, copiesOf, List.nil_append,
      List.append_nil]
  have hdata : s'.mBlasData = (compactLoop mpBlas.gpuAddress dest.gpuAddress blas2 0).1 := by
    rw [hs']; rfl
  have hsizes : paddedBlasSizes s'.mBlasData = paddedBlasSizes blas2 := by
    rw [hdata, compactLoop_sizes]
  have hlen2 : blas2.length = blas1.length := readbackLoop_length be _ _ _ _ _ _ _ hR
  have hlen1 : blas1.length = s.mBlasData.length := by
    have := prepareLoop_length be s.mBlasUpdateMode s.mBlasData 0 0
    rw [hP] at this; exact this
  have htotal : total = u64 (paddedBlasSizes s'.mBlasData).sum := by
    rw [readbackLoop_total be _ _ _ _ _ _ _ (by decide) hR, Nat.zero_add, hsizes]
  refine ⟨scratch, dest, pb, mpBlas, ?_, ?_, ?_, ?_, ?_, ?_⟩
  · rw [hnew]
    simp only [buffersCreatedBy_append, buffersCreatedBy, List.mem_append, List.mem_cons,
      List.mem_singleton, true_or, or_true]
  · rw [hP]; exact hdsize
  · rw [hs']; rfl
  · rw [← htotal]; exact hG1
  · rw [hdata, (compactLoop_length _ _ _ _).1, hlen2, hlen1]
  · intro k b1 hk
    rw [hP] at hk
    simp only at hk
    obtain ⟨hr1, hr2⟩ := readbackLoop_getElem? be _ _ _ _ _ _ _ hR k b1 hk
    obtain ⟨hc1, _⟩ := compactLoop_getElem? mpBlas.gpuAddress dest.gpuAddress blas2 0 k _
      (by decide) hr1
    refine ⟨readPostbuild be
        (gpu3.cmds ++ buildLoop scratch.gpuAddress dest.gpuAddress pb.gpuAddress blas1 0 ++
          [Command.flush]) (u64 (pb.gpuAddress + (0 + k) * postBuildInfoSize)), ?_, hr2, ?_, ?_,
      ?_⟩
    · rw [hsizes, hdata, hc1]
      simp only [Nat.zero_add]
    · intro hslots
      rw [readPostbuild_buildLoop be gpu3.cmds _ _ _ blas1 k b1 (by rw [hlen1]; exact hslots) hk]
      rfl
    · rw [hbuilds, buildsOf_buildLoop_getElem? _ _ _ _ 0 k b1 (by decide) hk, Nat.zero_add]
    · rw [hsizes, hcopies, copiesOf_compactLoop_getElem? _ _ _ 0 k _ (by decide) hr1]
      simp only [Nat.zero_add]
/-- C23 (as amended): in a completed one-time pass of `buildBlas` (with at most 2^61 build records,
so that the read-back slots are distinct), for every Blas `k` the copy command reads from the
destination address of build `k`, which is the address of the intermediate buffer plus the
intermediate `blasByteOffset`, the running 64-bit sum of the padded prebuild maximum sizes of the
Blas before it; the post-build request of build `k` writes to slot `k × 8` of the read-back buffer
and the final `blasByteSize` of record `k` is the size build `k` reported there; the copy writes to
the final offset, and the record holds the final offset (the running 64-bit sum of the padded final
sizes) after the copy command has taken the intermediate one. -/
theorem buildBlas_copy_reads_build (be : Backend) (gpu : Gpu) (s s' : ProceduralScene)
    (gpu' : Gpu) (hflag : s.mRebuildBlas = true) (h : buildBlas be gpu s = .ok (s', gpu'))
    (hslots : s.mBlasData.length * 8 ≤ 18446744073709551616) :
    ∃ dest pbBuffer mpBlas : Buffer,
      dest ∈ buffersCreatedBy (gpu'.cmds.drop gpu.cmds.length) ∧ s'.mpBlas = some mpBlas ∧
      ∀ (k : Nat) (b1 : BlasData),
        (prepareLoop be s.mBlasUpdateMode s.mBlasData 0 0).1[k]? = some b1 →
        ∃ (desc : BuildDesc) (pb : PostbuildInfoDesc) (final : BlasData) (mode : CopyMode),
          (buildsOf (gpu'.cmds.drop gpu.cmds.length))[k]? = some (desc, some pb) ∧
          (copiesOf (gpu'.cmds.drop gpu.cmds.length))[k]? =
            some (u64 (mpBlas.gpuAddress + final.blasByteOffset),
              desc.DestAccelerationStructureData, mode) ∧
          desc.DestAccelerationStructureData = u64 (dest.gpuAddress + b1.blasByteOffset) ∧
          b1.blasByteOffset =
            u64 ((paddedMaxSizes (prepareLoop be s.mBlasUpdateMode s.mBlasData 0 0).1).take
              k).sum ∧
          pb.DestBuffer = u64 (pbBuffer.gpuAddress + u64 (k * postBuildInfoSize)) ∧
          s'.mBlasData[k]? = some final ∧
          final.blasByteSize = u64 (be.postbuildSize desc pb.InfoType) ∧
          final.blasByteOffset = u64 ((paddedBlasSizes s'.mBlasData).take k).sum := by
  simp only [buildBlas, hflag, if_true] at h
  obtain ⟨scratch, dest, pb, mpBlas, hdest, _, hmp, _, hlen, hrec⟩ :=
    buildBlasOnce_slots be gpu s s' gpu' h
  refine ⟨dest, pb, mpBlas, hdest, hmp, ?_⟩
  intro k b1 hk
  obtain ⟨size, hfin, _, hsize, hbuild, hcopy⟩ := hrec k b1 hk
  have hklt : k < s.mBlasData.length := by
    rw [← prepareLoop_length be s.mBlasUpdateMode s.mBlasData 0 0]
    exact (List.getElem?_eq_some_iff.mp hk).1
  have hprep := prepareLoop_getElem? be s.mBlasUpdateMode s.mBlasData 0 0 k _ (by decide)
    (by decide) (List.getElem?_eq_getElem hklt)
  rw [hk] at hprep
  have hb1 := Option.some.inj hprep
  refine ⟨_, _, _, _, hbuild, hcopy, rfl, ?_, rfl, hfin, hsize hslots, rfl⟩
  rw [hb1]
  simp only [prepareBlas, Nat.zero_add]

/-- Witness for C23: scenario B of the specification. -/
theorem buildBlas_copy_reads_build_witness :
    (sceneWithGeometry exampleBackend scenarioB).1.mRebuildBlas = true ∧
      buildBlas exampleBackend (sceneWithGeometry exampleBackend scenarioB).2
          (sceneWithGeometry exampleBackend scenarioB).1 =
        .ok ((sceneWithBlas exampleBackend scenarioB).1,
          (sceneWithBlas exampleBackend scenarioB).2) ∧
      (sceneWithGeometry exampleBackend scenarioB).1.mBlasData.length * 8 ≤
        18446744073709551616 ∧
      ∃ dest pbBuffer mpBlas : Buffer,
        dest ∈ buffersCreatedBy ((sceneWithBlas exampleBackend scenarioB).2.cmds.drop
          (sceneWithGeometry exampleBackend scenarioB).2.cmds.length) ∧
        (sceneWithBlas exampleBackend scenarioB).1.mpBlas = some mpBlas ∧
        ∀ (k : Nat) (b1 : BlasData),
          (prepareLoop exampleBackend (sceneWithGeometry exampleBackend scenarioB).1.mBlasUpdateMode
            (sceneWithGeometry exampleBackend scenarioB).1.mBlasData 0 0).1[k]? = some b1 →
          ∃ (desc : BuildDesc) (pb : PostbuildInfoDesc) (final : BlasData) (mode : CopyMode),
            (buildsOf ((sceneWithBlas exampleBackend scenarioB).2.cmds.drop
              (sceneWithGeometry exampleBackend scenarioB).2.cmds.length))[k]? =
                some (desc, some pb) ∧
            (copiesOf ((sceneWithBlas exampleBackend scenarioB).2.cmds.drop
              (sceneWithGeometry exampleBackend scenarioB).2.cmds.length))[k]? =
                some (u64 (mpBlas.gpuAddress + final.blasByteOffset),
                  desc.DestAccelerationStructureData, mode) ∧
            desc.DestAccelerationStructureData = u64 (dest.gpuAddress + b1.blasByteOffset) ∧
            b1.blasByteOffset =
              u64 ((paddedMaxSizes (prepareLoop exampleBackend
                (sceneWithGeometry exampleBackend scenarioB).1.mBlasUpdateMode
                (sceneWithGeometry exampleBackend scenarioB).1.mBlasData 0 0).1).take k).sum ∧
            pb.DestBuffer = u64 (pbBuffer.gpuAddress + u64 (k * postBuildInfoSize)) ∧
            (sceneWithBlas exampleBackend scenarioB).1.mBlasData[k]? = some final ∧
            final.blasByteSize = u64 (exampleBackend.postbuildSize desc pb.InfoType) ∧
            final.blasByteOffset =
              u64 ((paddedBlasSizes (sceneWithBlas exampleBackend scenarioB).1.mBlasData).take
                k).sum :=
  ⟨rfl, rfl, by decide,
    buildBlas_copy_reads_build exampleBackend (sceneWithGeometry exampleBackend scenarioB).2
      (sceneWithGeometry exampleBackend scenarioB).1 (sceneWithBlas exampleBackend scenarioB).1
      (sceneWithBlas exampleBackend scenarioB).2 rfl rfl (by decide)⟩

/-- Counterexample for C23 as stated: on a backend reporting a prebuild maximum size of 2^63 bytes,
the third of three Blas is built at, and copied from, the base address 196608 of the intermediate
buffer, offset 0, while the padded prebuild maximum sizes of the two Blas before it sum to 2^64. -/
theorem copy_source_offset_wraps :
    buildBlas hugeResultBackend (sceneWithGeometry hugeResultBackend threeBlasScene).2
        (sceneWithGeometry hugeResultBackend threeBlasScene).1 =
      .ok ((sceneWithBlas hugeResultBackend threeBlasScene).1,
        (sceneWithBlas hugeResultBackend threeBlasScene).2) ∧
    ((paddedMaxSizes
      (prepareLoop hugeResultBackend
        (sceneWithGeometry hugeResultBackend threeBlasScene).1.mBlasUpdateMode
        (sceneWithGeometry hugeResultBackend threeBlasScene).1.mBlasData 0 0).1).take 2).sum =
      18446744073709551616 ∧
    (buffersCreatedBy ((sceneWithBlas hugeResultBackend threeBlasScene).2.cmds.drop
      (sceneWithGeometry hugeResultBackend threeBlasScene).2.cmds.length))[1]? =
      some { id := 2, size := 9223372036854775808, gpuAddress := 196608 } ∧
    (buildsOf ((sceneWithBlas hugeResultBackend threeBlasScene).2.cmds.drop
      (sceneWithGeometry hugeResultBackend threeBlasScene).2.cmds.length)).map
        (fun p => p.1.DestAccelerationStructureData) =
      [196608, 9223372036854972416, 196608] ∧
    (copiesOf ((sceneWithBlas hugeResultBackend threeBlasScene).2.cmds.drop
      (sceneWithGeometry hugeResultBackend threeBlasScene).2.cmds.length)).map
        (fun p => p.2.1) =
      [196608, 9223372036854972416, 196608] :=
  ⟨rfl, rfl, rfl, rfl, rfl⟩
/-! ## Final sizes against intermediate sizes -/

theorem alignUp_mono {v w : Nat} (h : v ≤ w) : alignUp 256 v ≤ alignUp 256 w := by
  unfold alignUp; omega

theorem sum_take_le_of_pointwise (l₁ l₂ : List Nat) (hlen : l₁.length = l₂.length)
    (h : ∀ (k a b : Nat), l₁[k]? = some a → l₂[k]? = some b → a ≤ b) (n : Nat) :
    (l₁.take n).sum ≤ (l₂.take n).sum := by
  induction l₁ generalizing l₂ n with
  | nil => simp
  | cons a rest ih =>
    cases l₂ with
    | nil => simp at hlen
    | cons b rest₂ =>
      cases n with
      | zero => simp
      | succ n =>
        simp only [List.take_succ_cons, List.sum_cons]
        have h0 := h 0 a b (by simp) (by simp)
        have := ih rest₂ (by simpa using hlen)
          (fun k x y hx hy => h (k + 1) x y (by simpa using hx) (by simpa using hy)) n
        omega

theorem sum_le_of_pointwise (l₁ l₂ : List Nat) (hlen : l₁.length = l₂.length)
    (h : ∀ (k a b : Nat), l₁[k]? = some a → l₂[k]? = some b → a ≤ b) : l₁.sum ≤ l₂.sum := by
  have := sum_take_le_of_pointwise l₁ l₂ hlen h l₁.length
  rw [List.take_length] at this
  rw [hlen, List.take_length] at this
  exact this

/-- C24 (as amended): in a completed one-time pass of `buildBlas` (in which every post-build size
is at most the prebuild maximum size) whose padded prebuild maximum sizes, summed exactly, fit 64
bits: the intermediate buffer is created with the size `Σ align_to(256, ResultDataMaxSizeInBytes)`,
the total of the final buffer `Σ align_to(256, blasByteSize)` is at most that size, and the final
offset of every Blas is at most its intermediate offset. -/
theorem buildBlas_final_within_intermediate (be : Backend) (gpu : Gpu) (s s' : ProceduralScene)
    (gpu' : Gpu) (hflag : s.mRebuildBlas = true) (h : buildBlas be gpu s = .ok (s', gpu'))
    (hfitMax : ((prepareLoop be s.mBlasUpdateMode s.mBlasData 0 0).1.map
      (fun b => alignUp 256 b.prebuildInfo.ResultDataMaxSizeInBytes)).sum <
        18446744073709551616) :
    ∃ dest : Buffer,
      dest ∈ buffersCreatedBy (gpu'.cmds.drop gpu.cmds.length) ∧
      dest.size = (paddedMaxSizes (prepareLoop be s.mBlasUpdateMode s.mBlasData 0 0).1).sum ∧
      (paddedBlasSizes s'.mBlasData).sum ≤ dest.size ∧
      ∀ (k : Nat) (b1 final : BlasData),
        (prepareLoop be s.mBlasUpdateMode s.mBlasData 0 0).1[k]? = some b1 →
        s'.mBlasData[k]? = some final →
        final.blasByteSize ≤ b1.prebuildInfo.ResultDataMaxSizeInBytes ∧
          final.blasByteOffset ≤ b1.blasByteOffset := by
  simp only [buildBlas, hflag, if_true] at h
  obtain ⟨scratch, dest, pb, mpBlas, hdest, hdsize, _, _, hlen, hrec⟩ :=
    buildBlasOnce_slots be gpu s s' gpu' h
  have hlen1 := prepareLoop_length be s.mBlasUpdateMode s.mBlasData 0 0
  -- the padded prebuild maximum sizes are exact
  have hmax : ∀ b ∈ (prepareLoop be s.mBlasUpdateMode s.mBlasData 0 0).1,
      alignUp 256 b.prebuildInfo.ResultDataMaxSizeInBytes < 18446744073709551616 := by
    intro b hb
    exact lt_of_le_of_lt (List.single_le_sum (by simp) _
      (List.mem_map.mpr ⟨b, hb, rfl⟩)) hfitMax
  have hexact : paddedMaxSizes (prepareLoop be s.mBlasUpdateMode s.mBlasData 0 0).1 =
      (prepareLoop be s.mBlasUpdateMode s.mBlasData 0 0).1.map
        (fun b => alignUp 256 b.prebuildInfo.ResultDataMaxSizeInBytes) := by
    unfold paddedMaxSizes
    apply List.map_congr_left
    intro b hb
    exact align_to_eq_alignUp (hmax b hb)
  have hsum : (paddedMaxSizes (prepareLoop be s.mBlasUpdateMode s.mBlasData 0 0).1).sum <
      18446744073709551616 := by
    rw [hexact]; exact hfitMax
  -- record by record, the padded final size is at most the padded prebuild maximum size
  have hpoint : ∀ (k a b : Nat), (paddedBlasSizes s'.mBlasData)[k]? = some a →
      (paddedMaxSizes (prepareLoop be s.mBlasUpdateMode s.mBlasData 0 0).1)[k]? = some b →
      a ≤ b := by
    intro k a b ha hb
    simp only [paddedMaxSizes, List.getElem?_map, Option.map_eq_some'] at hb
    obtain ⟨b1, hb1, hbeq⟩ := hb
    obtain ⟨size, hfin, hle, _⟩ := hrec k b1 hb1
    simp only [paddedBlasSizes, List.getElem?_map, hfin, Option.map_some',
      Option.some.injEq] at ha
    rw [← ha, ← hbeq]
    have hm := hmax b1 (List.getElem?_mem hb1)
    have hs : alignUp 256 size ≤ alignUp 256 b1.prebuildInfo.ResultDataMaxSizeInBytes :=
      alignUp_mono hle
    show align_to 256 size ≤ align_to 256 b1.prebuildInfo.ResultDataMaxSizeInBytes
    rw [align_to_eq_alignUp hm, align_to_eq_alignUp (lt_of_le_of_lt hs hm)]
    exact hs
  have hlens : (paddedBlasSizes s'.mBlasData).length =
      (paddedMaxSizes (prepareLoop be s.mBlasUpdateMode s.mBlasData 0 0).1).length := by
    simp [paddedBlasSizes, paddedMaxSizes, hlen, hlen1]
  have htotals := prepareLoop_totals be s.mBlasUpdateMode s.mBlasData 0 0 (by decide) (by decide)
  have hsize : dest.size =
      (paddedMaxSizes (prepareLoop be s.mBlasUpdateMode s.mBlasData 0 0).1).sum := by
    rw [hdsize, htotals]
    simp only [Nat.zero_add]
    exact u64_of_lt hsum
  refine ⟨dest, hdest, hsize, ?_, ?_⟩
  · rw [hsize]
    exact sum_le_of_pointwise _ _ hlens hpoint
  · intro k b1 final hk hfinal
    obtain ⟨size, hfin, hle, _⟩ := hrec k b1 hk
    rw [hfinal] at hfin
    have hf := Option.some.inj hfin
    have hklt : k < s.mBlasData.length := by
      rw [← hlen1]; exact (List.getElem?_eq_some_iff.mp hk).1
    have hprep := prepareLoop_getElem? be s.mBlasUpdateMode s.mBlasData 0 0 k _ (by decide)
      (by decide) (List.getElem?_eq_getElem hklt)
    rw [hk] at hprep
    have hb1 := Option.some.inj hprep
    have hoff1 : b1.blasByteOffset =
        ((paddedMaxSizes (prepareLoop be s.mBlasUpdateMode s.mBlasData 0 0).1).take k).sum := by
      rw [hb1]
      simp only [prepareBlas, Nat.zero_add]
      exact u64_of_lt (lt_of_le_of_lt (sum_take_le _ _) hsum)
    have hpre := sum_take_le_of_pointwise _ _ hlens hpoint k
    have hoff2 : final.blasByteOffset = ((paddedBlasSizes s'.mBlasData).take k).sum := by
      rw [hf]
      exact u64_of_lt (lt_of_le_of_lt hpre (lt_of_le_of_lt (sum_take_le _ _) hsum))
    refine ⟨by rw [hf]; exact hle, ?_⟩
    rw [hoff1, hoff2]
    exact hpre

/-- Witness for C24: scenario B of the specification. -/
theorem buildBlas_final_within_intermediate_witness :
    (sceneWithGeometry exampleBackend scenarioB).1.mRebuildBlas = true ∧
      buildBlas exampleBackend (sceneWithGeometry exampleBackend scenarioB).2
          (sceneWithGeometry exampleBackend scenarioB).1 =
        .ok ((sceneWithBlas exampleBackend scenarioB).1,
          (sceneWithBlas exampleBackend scenarioB).2) ∧
      ((prepareLoop exampleBackend (sceneWithGeometry exampleBackend scenarioB).1.mBlasUpdateMode
          (sceneWithGeometry exampleBackend scenarioB).1.mBlasData 0 0).1.map
        (fun b => alignUp 256 b.prebuildInfo.ResultDataMaxSizeInBytes)).sum <
          18446744073709551616 ∧
      ∃ dest : Buffer,
        dest ∈ buffersCreatedBy ((sceneWithBlas exampleBackend scenarioB).2.cmds.drop
          (sceneWithGeometry exampleBackend scenarioB).2.cmds.length) ∧
        dest.size = (paddedMaxSizes (prepareLoop exampleBackend
          (sceneWithGeometry exampleBackend scenarioB).1.mBlasUpdateMode
          (sceneWithGeometry exampleBackend scenarioB).1.mBlasData 0 0).1).sum ∧
        (paddedBlasSizes (sceneWithBlas exampleBackend scenarioB).1.mBlasData).sum ≤ dest.size ∧
        ∀ (k : Nat) (b1 final : BlasData),
          (prepareLoop exampleBackend (sceneWithGeometry exampleBackend scenarioB).1.mBlasUpdateMode
            (sceneWithGeometry exampleBackend scenarioB).1.mBlasData 0 0).1[k]? = some b1 →
          (sceneWithBlas exampleBackend scenarioB).1.mBlasData[k]? = some final →
          final.blasByteSize ≤ b1.prebuildInfo.ResultDataMaxSizeInBytes ∧
            final.blasByteOffset ≤ b1.blasByteOffset :=
  ⟨rfl, rfl, by decide,
    buildBlas_final_within_intermediate exampleBackend
      (sceneWithGeometry exampleBackend scenarioB).2
      (sceneWithGeometry exampleBackend scenarioB).1 (sceneWithBlas exampleBackend scenarioB).1
      (sceneWithBlas exampleBackend scenarioB).2 rfl rfl (by decide)⟩

/-- Counterexample for C24 as stated: on a backend reporting a prebuild maximum size of 2^63 bytes
and a post-build size of 300 bytes, the pass completes with every post-build size below its
prebuild maximum; for scenario B the intermediate buffer is created with size 0 (2^63 + 2^63
wraps) while the padded final sizes are 512 and 512, 1024 in total; for three Blas the third has intermediate offset 0 and final
offset 1024. -/
theorem final_exceeds_intermediate :
    buildBlas wideMaxBackend (sceneWithGeometry wideMaxBackend scenarioB).2
        (sceneWithGeometry wideMaxBackend scenarioB).1 =
      .ok ((sceneWithBlas wideMaxBackend scenarioB).1,
        (sceneWithBlas wideMaxBackend scenarioB).2) ∧
    (sceneWithBlas wideMaxBackend scenarioB).1.mBlasData.map
        (fun b => (b.blasByteSize, b.prebuildInfo.ResultDataMaxSizeInBytes)) =
      [(300, 9223372036854775808), (300, 9223372036854775808)] ∧
    (buffersCreatedBy ((sceneWithBlas wideMaxBackend scenarioB).2.cmds.drop
      (sceneWithGeometry wideMaxBackend scenarioB).2.cmds.length))[1]? =
      some { id := 2, size := 0, gpuAddress := 196608 } ∧
    (buildsOf ((sceneWithBlas wideMaxBackend scenarioB).2.cmds.drop
      (sceneWithGeometry wideMaxBackend scenarioB).2.cmds.length)).map
        (fun p => p.1.DestAccelerationStructureData) = [196608, 9223372036854972416] ∧
    paddedBlasSizes (sceneWithBlas wideMaxBackend scenarioB).1.mBlasData = [512, 512] ∧
    buildBlas wideMaxBackend (sceneWithGeometry wideMaxBackend threeBlasScene).2
        (sceneWithGeometry wideMaxBackend threeBlasScene).1 =
      .ok ((sceneWithBlas wideMaxBackend threeBlasScene).1,
        (sceneWithBlas wideMaxBackend threeBlasScene).2) ∧
    intermediateOffsets wideMaxBackend (sceneWithGeometry wideMaxBackend threeBlasScene).1 =
      [0, 9223372036854775808, 0] ∧
    finalOffsets (sceneWithBlas wideMaxBackend threeBlasScene).1 = [0, 512, 1024] :=
  ⟨rfl, rfl, rfl, rfl, rfl, rfl, rfl, rfl⟩

/-! ## The top-level update mode is never changed -/

theorem initGeomDesc_updateMode (be : Backend) (gpu : Gpu) (s s' : ProceduralScene) (gpu' : Gpu)
    (h : initGeomDesc be gpu s = .ok (s', gpu')) : s'.mTlasUpdateMode = s.mTlasUpdateMode := by
  unfold initGeomDesc at h
  simp only [Buffer.create, Gpu.issue] at h
  split at h
  · cases h
  · simp only [Except.ok.injEq, Prod.mk.injEq] at h
    rw [← h.1]

theorem buildBlas_updateMode (be : Backend) (gpu : Gpu) (s s' : ProceduralScene) (gpu' : Gpu)
    (h : buildBlas be gpu s = .ok (s', gpu')) : s'.mTlasUpdateMode = s.mTlasUpdateMode := by
  unfold buildBlas at h
  split at h
  · obtain ⟨_, _, _, _, _, _, _, _, _, _, _, _, _, _, _, _, _, _, _, hs', _⟩ :=
      buildBlasOnce_ok be gpu s s' gpu' h
    rw [hs']
    rfl
  · obtain ⟨hs', _⟩ := buildBlasSteady_ok gpu s s' gpu' h
    rw [hs']

theorem buildTlas_updateMode (be : Backend) (gpu : Gpu) (s s' : ProceduralScene)
    (gpu' : Gpu) (k : Nat) (h : buildTlas be gpu s k = .ok (s', gpu')) :
    s'.mTlasUpdateMode = s.mTlasUpdateMode := by
  unfold buildTlas at h
  cases hfill : fillInstanceDesc s s.mInstanceDescs k with
  | error e => simp [hfill] at h
  | ok descs =>
    simp only [hfill] at h
    split at h
    · cases h
    · split at h
      · cases h
      · split at h
        · cases h
        · simp only [Except.ok.injEq, Prod.mk.injEq] at h
          rw [← h.1]

/-- A completed call of `setRaytracingShaderData` leaves the top-level update mode as it was. -/
theorem setRaytracingShaderData_updateMode (be : Backend) (gpu : Gpu) (s s' : ProceduralScene)
    (gpu' : Gpu) (k : Nat) (v : ShaderResourceView)
    (h : setRaytracingShaderData be gpu s k = .ok (s', gpu', v)) :
    s'.mTlasUpdateMode = s.mTlasUpdateMode := by
  obtain ⟨s1, gpu1, hfirst, hrest⟩ := setRaytracingShaderData_ok be gpu s s' gpu' k v h
  have h1 : s1.mTlasUpdateMode = s.mTlasUpdateMode := by
    rcases hfirst with ⟨_, hs1, _⟩ | ⟨_, s0, gpu0, hinit, hblas⟩
    · rw [hs1]
    · rw [buildBlas_updateMode be gpu0 s0 s1 gpu1 hblas,
        initGeomDesc_updateMode be gpu s s0 gpu0 hinit]
  rcases hrest with ⟨_, _, _, hs', _⟩ | ⟨_, hb, _⟩
  · rw [hs', h1]
  · rw [buildTlas_updateMode be gpu1 s1 s' gpu' k hb, h1]

theorem runOperation_updateMode (be : Backend) (gpu : Gpu) (s s' : ProceduralScene) (gpu' : Gpu)
    (op : Operation) (h : runOperation be gpu s op = .ok (s', gpu')) :
    s'.mTlasUpdateMode = s.mTlasUpdateMode := by
  cases op with
  | addBlas blas =>
    simp only [runOperation, Except.ok.injEq, Prod.mk.injEq] at h
    rw [← h.1]
    rfl
  | setScene tlas =>
    simp only [runOperation, Except.ok.injEq, Prod.mk.injEq] at h
    rw [← h.1]
    rfl
  | setRaytracingShaderData k =>
    simp only [runOperation] at h
    split at h
    · cases h
    · rename_i s1 gpu1 v hget
      simp only [Except.ok.injEq, Prod.mk.injEq] at h
      rw [← h.1]
      exact setRaytracingShaderData_updateMode be gpu s s1 gpu1 k v hget
  | raytrace k x y z =>
    simp only [runOperation, raytrace] at h
    split at h
    · cases h
    · rename_i s1 gpu1 v n hray
      simp only [Except.ok.injEq, Prod.mk.injEq] at h
      rw [← h.1]
      split at hray
      · cases hray
      · rename_i s2 gpu2 v2 hget
        simp only [Except.ok.injEq, Prod.mk.injEq] at hray
        rw [← hray.1]
        exact setRaytracingShaderData_updateMode be gpu s s2 gpu2 k v2 hget

/-- No sequence of calls of public member functions changes the top-level update mode: on a scene
made by `create` it is Rebuild after every completed sequence. -/
theorem runOperations_updateMode (be : Backend) (ops : List Operation) (gpu : Gpu)
    (s s' : ProceduralScene) (gpu' : Gpu)
    (h : runOperations be gpu s ops = .ok (s', gpu')) :
    s'.mTlasUpdateMode = s.mTlasUpdateMode := by
  induction ops generalizing gpu s with
  | nil =>
    simp only [runOperations, Except.ok.injEq, Prod.mk.injEq] at h
    rw [← h.1]
  | cons op rest ih =>
    rw [runOperations] at h
    split at h
    · cases h
    · rename_i s1 gpu1 hop
      rw [ih gpu1 s1 h, runOperation_updateMode be gpu s s1 gpu1 op hop]

/-- Every scene reached from `create` through the public member functions is in Rebuild mode. -/
theorem reachable_updateMode (be : Backend) (ops : List Operation) (s' : ProceduralScene)
    (gpu' : Gpu)
    (h : runOperations be { cmds := [], nextId := 0 } ProceduralScene.create ops = .ok (s', gpu')) :
    s'.mTlasUpdateMode = UpdateMode.Rebuild := by
  rw [runOperations_updateMode be ops _ _ s' gpu' h]
  rfl

end Falcor
